import Mathlib

/-!
# Session and channel management of dsoftbus

A shallow embedding of

* `core/frame/small/init/src/trans_server_stub.c` (the privileged request handlers),
* `sdk/transmission/session/src/client_trans_session_service.c` (the client session lifecycle),
* `core/bus_center/lnn/net_ledger/common/src/lnn_net_capability.c` (the capability bits),

followed by theorems about them.

Functions the files call but do not define (the IPC decoder, the permission check, the
transport managers, the remote proxies) are fields of an environment structure: every theorem
quantified over the environment holds for every behaviour of those callees.  They act on an
explicit state, so a callee may answer differently each time it is called.  The listener
callbacks of the application are function pointers; the code behind them is a parameter too
and may change the session registry.  Each handler returns, next to its C return value, the
ordered log of the calls it made.
-/

namespace Softbus

/-! ## Constants -/

/-- Values of the macros and enumerators that the source files use and whose headers
(`softbus_errcode.h`, `softbus_def.h`, `session.h`, `softbus_permission.h`) are not among the
sources.  Integer constants are `Int` (they are `int32_t` in C), sizes are `Nat`. -/
structure SoftbusDef where
  SOFTBUS_OK : Int
  SOFTBUS_ERR : Int
  SOFTBUS_INVALID_PARAM : Int
  SOFTBUS_PERMISSION_DENIED : Int
  SOFTBUS_NOT_FIND : Int
  SOFTBUS_SERVER_NAME_REPEATED : Int
  SOFTBUS_TRANS_SESSION_REPEATED : Int
  SOFTBUS_TRANS_PROXY_SEND_CHANNELID_INVALID : Int
  SOFTBUS_TRANS_UDP_CLOSE_CHANNELID_INVALID : Int
  SOFTBUS_TRANS_INVALID_CLOSE_CHANNEL_ID : Int
  ACTION_CREATE : Int
  ACTION_OPEN : Int
  CHANNEL_TYPE_PROXY : Int
  CHANNEL_TYPE_UDP : Int
  CHANNEL_TYPE_BUTT : Int
  TYPE_BUTT : Int
  SEC_TYPE_CIPHERTEXT : Int
  INVALID_SESSION_ID : Int
  INVALID_CHANNEL_ID : Int
  MAX_SESSION_ID : Int
  PKG_NAME_SIZE_MAX : Nat
  SESSION_NAME_SIZE_MAX : Nat
  DEVICE_ID_SIZE_MAX : Nat
  GROUP_ID_SIZE_MAX : Nat
  /-- The two labels are `case` labels of one `switch` in `ServerCloseChannel`; C requires the
  labels of a switch to be pairwise distinct. -/
  proxy_ne_udp : CHANNEL_TYPE_PROXY ≠ CHANNEL_TYPE_UDP
  /-- `SOFTBUS_OK` is the success code; the error codes are other enumerators. -/
  err_ne_ok : SOFTBUS_ERR ≠ SOFTBUS_OK
  invalid_param_ne_ok : SOFTBUS_INVALID_PARAM ≠ SOFTBUS_OK
  not_find_ne_ok : SOFTBUS_NOT_FIND ≠ SOFTBUS_OK
  session_repeated_ne_ok : SOFTBUS_TRANS_SESSION_REPEATED ≠ SOFTBUS_OK

/-! ## The privileged side: `trans_server_stub.c` -/

/-- One call made by a handler of `trans_server_stub.c`, with its arguments and, last, the value
it returned.  `IpcIoPushInt32 v` is a write of `v` to the reply. -/
inductive ServerCall where
  | CheckTransPermission (uid pid : Int) (pkgName sessionName : Option String) (action ret : Int)
  | TransGetPkgNameBySessionName (sessionName : Option String) (ret : Int)
  | TransProxyGetNameByChanId (channelId ret : Int)
  | TransUdpGetNameByChanId (channelId ret : Int)
  | TransCreateSessionServer (pkgName sessionName : Option String) (uid pid ret : Int)
  | TransRemoveSessionServer (pkgName sessionName : Option String) (ret : Int)
  | TransOpenSession (mySessionName peerSessionName peerDeviceId groupId : Option String)
      (flags ret : Int)
  | TransCloseChannel (channelId channelType ret : Int)
  | TransSendMsg (channelId : Int) (data : Option (List Nat)) (size : Nat) (msgType ret : Int)
  | IpcIoPushInt32 (v : Int)
  deriving DecidableEq, Repr

/-- The callees of `trans_server_stub.c`.  `ο` is the type of the IPC origin context, `ρ` the
type of a request being decoded (`IpcIo *req`), `σ` the state of the privileged process.
A popped string is `none` when `IpcIoPopString` returns `NULL`.  The name resolvers return
their status followed by the contents of the output buffers. -/
structure ServerEnv (ο ρ σ : Type) where
  IpcIoPopString : ρ → Option String × ρ
  IpcIoPopInt32 : ρ → Int × ρ
  IpcIoPopFlatObj : ρ → (Option (List Nat) × Nat) × ρ
  GetCallingUid : ο → Int
  GetCallingPid : ο → Int
  CheckTransPermission : σ → Int → Int → Option String → Option String → Int → Int × σ
  TransGetPkgNameBySessionName : σ → Option String → (Int × String) × σ
  TransProxyGetNameByChanId : σ → Int → (Int × String × String) × σ
  TransUdpGetNameByChanId : σ → Int → (Int × String × String) × σ
  TransCreateSessionServer : σ → Option String → Option String → Int → Int → Int × σ
  TransRemoveSessionServer : σ → Option String → Option String → Int × σ
  TransOpenSession :
    σ → Option String → Option String → Option String → Option String → Int → Int × σ
  TransCloseChannel : σ → Int → Int → Int × σ
  TransSendMsg : σ → Int → Option (List Nat) → Nat → Int → Int × σ

/-- What a handler leaves behind: its return value, the state of the privileged process and
the calls it made, in order. -/
structure Outcome (σ : Type) where
  ret : Int
  world : σ
  log : List ServerCall

variable {ο ρ σ : Type}

/-- `ServerCreateSessionServer` of `trans_server_stub.c`.  `req` is `none` for a `NULL`
request, `reply` is `false` for a `NULL` reply. -/
def ServerCreateSessionServer (D : SoftbusDef) (E : ServerEnv ο ρ σ) (w : σ) (origin : ο)
    (req : Option ρ) (reply : Bool) : Outcome σ :=
  match req, reply with
  | some r, true =>
    let p1 := E.IpcIoPopString r
    let pkgName := p1.1
    let p2 := E.IpcIoPopString p1.2
    let sessionName := p2.1
    let callingUid := E.GetCallingUid origin
    let callingPid := E.GetCallingPid origin
    let perm := E.CheckTransPermission w callingUid callingPid pkgName sessionName D.ACTION_CREATE
    let log1 := [ServerCall.CheckTransPermission callingUid callingPid pkgName sessionName
      D.ACTION_CREATE perm.1]
    if perm.1 ≠ D.SOFTBUS_OK then
      ⟨D.SOFTBUS_PERMISSION_DENIED, perm.2,
        log1 ++ [ServerCall.IpcIoPushInt32 D.SOFTBUS_PERMISSION_DENIED]⟩
    else
      let t := E.TransCreateSessionServer perm.2 pkgName sessionName callingUid callingPid
      ⟨t.1, t.2,
        log1 ++ [ServerCall.TransCreateSessionServer pkgName sessionName callingUid callingPid t.1,
          ServerCall.IpcIoPushInt32 t.1]⟩
  | _, _ => ⟨D.SOFTBUS_INVALID_PARAM, w, []⟩

/-- `ServerRemoveSessionServer` of `trans_server_stub.c`. -/
def ServerRemoveSessionServer (D : SoftbusDef) (E : ServerEnv ο ρ σ) (w : σ) (origin : ο)
    (req : Option ρ) (reply : Bool) : Outcome σ :=
  match req, reply with
  | some r, true =>
    let p1 := E.IpcIoPopString r
    let pkgName := p1.1
    let p2 := E.IpcIoPopString p1.2
    let sessionName := p2.1
    let callingUid := E.GetCallingUid origin
    let callingPid := E.GetCallingPid origin
    let perm := E.CheckTransPermission w callingUid callingPid pkgName sessionName D.ACTION_CREATE
    let log1 := [ServerCall.CheckTransPermission callingUid callingPid pkgName sessionName
      D.ACTION_CREATE perm.1]
    if perm.1 ≠ D.SOFTBUS_OK then
      ⟨D.SOFTBUS_PERMISSION_DENIED, perm.2,
        log1 ++ [ServerCall.IpcIoPushInt32 D.SOFTBUS_PERMISSION_DENIED]⟩
    else
      let t := E.TransRemoveSessionServer perm.2 pkgName sessionName
      ⟨t.1, t.2,
        log1 ++ [ServerCall.TransRemoveSessionServer pkgName sessionName t.1,
          ServerCall.IpcIoPushInt32 t.1]⟩
  | _, _ => ⟨D.SOFTBUS_INVALID_PARAM, w, []⟩

/-- `ServerOpenSession` of `trans_server_stub.c`.  The local buffer `pkgName` holds what
`TransGetPkgNameBySessionName` wrote into it. -/
def ServerOpenSession (D : SoftbusDef) (E : ServerEnv ο ρ σ) (w : σ) (origin : ο)
    (req : Option ρ) (reply : Bool) : Outcome σ :=
  match req, reply with
  | some r, true =>
    let p1 := E.IpcIoPopString r
    let mySessionName := p1.1
    let p2 := E.IpcIoPopString p1.2
    let peerSessionName := p2.1
    let p3 := E.IpcIoPopString p2.2
    let peerDeviceId := p3.1
    let p4 := E.IpcIoPopString p3.2
    let groupId := p4.1
    let p5 := E.IpcIoPopInt32 p4.2
    let flags := p5.1
    let callingUid := E.GetCallingUid origin
    let callingPid := E.GetCallingPid origin
    let g := E.TransGetPkgNameBySessionName w mySessionName
    let pkgName := g.1.2
    let log1 := [ServerCall.TransGetPkgNameBySessionName mySessionName g.1.1]
    if g.1.1 ≠ D.SOFTBUS_OK then
      ⟨D.SOFTBUS_TRANS_PROXY_SEND_CHANNELID_INVALID, g.2,
        log1 ++ [ServerCall.IpcIoPushInt32 D.SOFTBUS_TRANS_PROXY_SEND_CHANNELID_INVALID]⟩
    else
      let perm := E.CheckTransPermission g.2 callingUid callingPid (some pkgName) mySessionName
        D.ACTION_OPEN
      let log2 := log1 ++ [ServerCall.CheckTransPermission callingUid callingPid (some pkgName)
        mySessionName D.ACTION_OPEN perm.1]
      if perm.1 ≠ D.SOFTBUS_OK then
        ⟨D.SOFTBUS_PERMISSION_DENIED, perm.2,
          log2 ++ [ServerCall.IpcIoPushInt32 D.SOFTBUS_PERMISSION_DENIED]⟩
      else
        let t := E.TransOpenSession perm.2 mySessionName peerSessionName peerDeviceId groupId flags
        ⟨t.1, t.2,
          log2 ++ [ServerCall.TransOpenSession mySessionName peerSessionName peerDeviceId groupId
            flags t.1, ServerCall.IpcIoPushInt32 t.1]⟩
  | _, _ => ⟨D.SOFTBUS_INVALID_PARAM, w, []⟩

/-- The part of `ServerCloseChannel` after its `switch`: permission check, then
`TransCloseChannel`.  `log0` holds the calls made so far. -/
def closeChannelChecked (D : SoftbusDef) (E : ServerEnv ο ρ σ) (w : σ)
    (callingUid callingPid channelId channelType : Int) (pkgName sessionName : String)
    (log0 : List ServerCall) : Outcome σ :=
  let perm := E.CheckTransPermission w callingUid callingPid (some pkgName) (some sessionName)
    D.ACTION_OPEN
  let log1 := log0 ++ [ServerCall.CheckTransPermission callingUid callingPid (some pkgName)
    (some sessionName) D.ACTION_OPEN perm.1]
  if perm.1 ≠ D.SOFTBUS_OK then
    ⟨D.SOFTBUS_PERMISSION_DENIED, perm.2,
      log1 ++ [ServerCall.IpcIoPushInt32 D.SOFTBUS_PERMISSION_DENIED]⟩
  else
    let t := E.TransCloseChannel perm.2 channelId channelType
    ⟨t.1, t.2,
      log1 ++ [ServerCall.TransCloseChannel channelId channelType t.1,
        ServerCall.IpcIoPushInt32 t.1]⟩

/-- `ServerCloseChannel` of `trans_server_stub.c`.  The `switch` on `channelType` is the chain
of tests on `CHANNEL_TYPE_PROXY`, `CHANNEL_TYPE_UDP`, `default`. -/
def ServerCloseChannel (D : SoftbusDef) (E : ServerEnv ο ρ σ) (w : σ) (origin : ο)
    (req : Option ρ) (reply : Bool) : Outcome σ :=
  match req, reply with
  | some r, true =>
    let p1 := E.IpcIoPopInt32 r
    let channelId := p1.1
    let p2 := E.IpcIoPopInt32 p1.2
    let channelType := p2.1
    let callingUid := E.GetCallingUid origin
    let callingPid := E.GetCallingPid origin
    if channelType = D.CHANNEL_TYPE_PROXY then
      let g := E.TransProxyGetNameByChanId w channelId
      let log1 := [ServerCall.TransProxyGetNameByChanId channelId g.1.1]
      if g.1.1 ≠ D.SOFTBUS_OK then
        ⟨D.SOFTBUS_TRANS_PROXY_SEND_CHANNELID_INVALID, g.2,
          log1 ++ [ServerCall.IpcIoPushInt32 D.SOFTBUS_TRANS_PROXY_SEND_CHANNELID_INVALID]⟩
      else
        closeChannelChecked D E g.2 callingUid callingPid channelId channelType g.1.2.1 g.1.2.2
          log1
    else if channelType = D.CHANNEL_TYPE_UDP then
      let g := E.TransUdpGetNameByChanId w channelId
      let log1 := [ServerCall.TransUdpGetNameByChanId channelId g.1.1]
      if g.1.1 ≠ D.SOFTBUS_OK then
        ⟨D.SOFTBUS_TRANS_UDP_CLOSE_CHANNELID_INVALID, g.2,
          log1 ++ [ServerCall.IpcIoPushInt32 D.SOFTBUS_TRANS_UDP_CLOSE_CHANNELID_INVALID]⟩
      else
        closeChannelChecked D E g.2 callingUid callingPid channelId channelType g.1.2.1 g.1.2.2
          log1
    else
      ⟨D.SOFTBUS_TRANS_INVALID_CLOSE_CHANNEL_ID, w,
        [ServerCall.IpcIoPushInt32 D.SOFTBUS_TRANS_INVALID_CLOSE_CHANNEL_ID]⟩
  | _, _ => ⟨D.SOFTBUS_INVALID_PARAM, w, []⟩

/-- `ServerSendSessionMsg` of `trans_server_stub.c`.  The action passed to
`CheckTransPermission` is the literal `0`. -/
def ServerSendSessionMsg (D : SoftbusDef) (E : ServerEnv ο ρ σ) (w : σ) (origin : ο)
    (req : Option ρ) (reply : Bool) : Outcome σ :=
  match req, reply with
  | some r, true =>
    let p1 := E.IpcIoPopInt32 r
    let channelId := p1.1
    let p2 := E.IpcIoPopInt32 p1.2
    let msgType := p2.1
    let p3 := E.IpcIoPopFlatObj p2.2
    let data := p3.1.1
    let size := p3.1.2
    let callingUid := E.GetCallingUid origin
    let callingPid := E.GetCallingPid origin
    let g := E.TransProxyGetNameByChanId w channelId
    let log1 := [ServerCall.TransProxyGetNameByChanId channelId g.1.1]
    if g.1.1 ≠ D.SOFTBUS_OK then
      ⟨D.SOFTBUS_TRANS_PROXY_SEND_CHANNELID_INVALID, g.2,
        log1 ++ [ServerCall.IpcIoPushInt32 D.SOFTBUS_TRANS_PROXY_SEND_CHANNELID_INVALID]⟩
    else
      let perm := E.CheckTransPermission g.2 callingUid callingPid (some g.1.2.1)
        (some g.1.2.2) 0
      let log2 := log1 ++ [ServerCall.CheckTransPermission callingUid callingPid (some g.1.2.1)
        (some g.1.2.2) 0 perm.1]
      if perm.1 ≠ D.SOFTBUS_OK then
        ⟨D.SOFTBUS_PERMISSION_DENIED, perm.2,
          log2 ++ [ServerCall.IpcIoPushInt32 D.SOFTBUS_PERMISSION_DENIED]⟩
      else
        let t := E.TransSendMsg perm.2 channelId data size msgType
        ⟨t.1, t.2,
          log2 ++ [ServerCall.TransSendMsg channelId data size msgType t.1,
            ServerCall.IpcIoPushInt32 t.1]⟩
  | _, _ => ⟨D.SOFTBUS_INVALID_PARAM, w, []⟩

/-- The five privileged handlers of `trans_server_stub.c`. -/
inductive Handler where
  | createSessionServer
  | removeSessionServer
  | openSession
  | closeChannel
  | sendSessionMsg
  deriving DecidableEq, Repr

/-- Runs the handler named by `h`. -/
def Handler.run (h : Handler) (D : SoftbusDef) (E : ServerEnv ο ρ σ) (w : σ) (origin : ο)
    (req : Option ρ) (reply : Bool) : Outcome σ :=
  match h with
  | .createSessionServer => ServerCreateSessionServer D E w origin req reply
  | .removeSessionServer => ServerRemoveSessionServer D E w origin req reply
  | .openSession => ServerOpenSession D E w origin req reply
  | .closeChannel => ServerCloseChannel D E w origin req reply
  | .sendSessionMsg => ServerSendSessionMsg D E w origin req reply

/-- The transport-manager calls that change state: `TransCreateSessionServer`,
`TransRemoveSessionServer`, `TransOpenSession`, `TransCloseChannel`, `TransSendMsg`. -/
def ServerCall.isMutating : ServerCall → Bool
  | .TransCreateSessionServer .. => true
  | .TransRemoveSessionServer .. => true
  | .TransOpenSession .. => true
  | .TransCloseChannel .. => true
  | .TransSendMsg .. => true
  | _ => false

/-- A call of `CheckTransPermission`, whatever it returned. -/
def ServerCall.isPermissionCheck : ServerCall → Bool
  | .CheckTransPermission .. => true
  | _ => false

/-- A call of `CheckTransPermission` that returned something other than `SOFTBUS_OK`. -/
def ServerCall.isDenial (D : SoftbusDef) : ServerCall → Bool
  | .CheckTransPermission _ _ _ _ _ ret => decide (ret ≠ D.SOFTBUS_OK)
  | _ => false

/-- A call of `CheckTransPermission` that returned `SOFTBUS_OK`. -/
def ServerCall.isGrant (D : SoftbusDef) : ServerCall → Bool
  | .CheckTransPermission _ _ _ _ _ ret => decide (ret = D.SOFTBUS_OK)
  | _ => false

/-- Whether every mutating call of a log comes after a call of `CheckTransPermission` that
returned `SOFTBUS_OK`.  `granted` tells whether such a call has been seen before the log
starts. -/
def mutationsGuarded (D : SoftbusDef) : Bool → List ServerCall → Bool
  | _, [] => true
  | granted, c :: rest =>
    (!c.isMutating || granted) && mutationsGuarded D (granted || c.isGrant D) rest

/-- A call of one of the three name resolvers that returned something other than
`SOFTBUS_OK`. -/
def ServerCall.isLookupFailure (D : SoftbusDef) : ServerCall → Bool
  | .TransGetPkgNameBySessionName _ ret => decide (ret ≠ D.SOFTBUS_OK)
  | .TransProxyGetNameByChanId _ ret => decide (ret ≠ D.SOFTBUS_OK)
  | .TransUdpGetNameByChanId _ ret => decide (ret ≠ D.SOFTBUS_OK)
  | _ => false

/-- A call of `TransProxyGetNameByChanId`. -/
def ServerCall.isProxyResolver : ServerCall → Bool
  | .TransProxyGetNameByChanId .. => true
  | _ => false

/-- A call of `TransUdpGetNameByChanId`. -/
def ServerCall.isUdpResolver : ServerCall → Bool
  | .TransUdpGetNameByChanId .. => true
  | _ => false

/-- The values written to the reply, in order. -/
def replyWrites (log : List ServerCall) : List Int :=
  log.filterMap fun c =>
    match c with
    | .IpcIoPushInt32 v => some v
    | _ => none

/-! ## The client side: `client_trans_session_service.c` -/

/-- The `ISessionListener` of `session.h`: four function pointers, each possibly `NULL`.
Only `OnSessionOpened` is ever invoked by `client_trans_session_service.c`; the field holds the
address of the function, `none` for `NULL`, and what the function at an address does is given
by `App`.  For the other three only their being non-`NULL` is recorded.  `ω` is the state of
the application the pointers belong to. -/
structure ISessionListener (ω : Type) where
  OnSessionOpened : Option Nat
  OnSessionClosed : Bool
  OnBytesReceived : Bool
  OnMessageReceived : Bool

/-- The `SessionAttribute` of `session.h`, as far as the source reads it.  `session.h` is not
among the sources; `dataType` is an unsigned field, which the source converts with
`(int32_t)attr->dataType` where it passes it on as an `int32_t`. -/
structure SessionAttribute where
  dataType : Nat
  deriving DecidableEq, Repr

/-- The `SessionParam` built by `OpenSession`; a pointer that is `NULL` is `none`. -/
structure SessionParam where
  sessionName : Option String
  peerSessionName : Option String
  peerDeviceId : Option String
  groupId : Option String
  attr : Option SessionAttribute
  deriving DecidableEq, Repr

/-- One call made by a function of `client_trans_session_service.c`, with its arguments and
the values it gave back. -/
inductive ClientCall where
  | InitSoftBus (pkgName : Option String) (ret : Int)
  | CheckPackageName (pkgName : Option String) (ret : Int)
  | ClientAddSessionServer (type : Int) (pkgName sessionName : Option String) (ret : Int)
  | ClientDeleteSessionServer (type : Int) (sessionName : Option String) (ret : Int)
  | ServerIpcCreateSessionServer (pkgName sessionName : Option String) (ret : Int)
  | ServerIpcRemoveSessionServer (pkgName sessionName : Option String) (ret : Int)
  | ClientAddSession (param : SessionParam) (ret sessionId : Int) (isEnabled : Bool)
  | ServerIpcOpenSession (mySessionName peerSessionName peerDeviceId groupId : Option String)
      (dataType channelId : Int)
  | ClientSetChannelBySessionId (sessionId channelId ret : Int)
  | ClientDeleteSession (sessionId ret : Int)
  | ClientGetChannelBySessionId (sessionId ret channelId type : Int)
  | ClientGetSessionCallbackById (sessionId ret : Int)
  | OnSessionOpened (sessionId result ret : Int)
  | ClientTransCloseChannel (channelId type ret : Int)
  | usleep (usec : Nat)
  deriving DecidableEq, Repr

/-- The session manager (`client_trans_session_manager.h`) as the session service sees it.
`σ` is the state of the registry.  Output parameters are passed in with their initial value
and returned after the status. -/
structure SessionMgr (σ ω : Type) where
  ClientAddSessionServer :
    σ → Int → Option String → Option String → Option (ISessionListener ω) → Int × σ
  ClientDeleteSessionServer : σ → Int → Option String → Int × σ
  ClientAddSession : σ → SessionParam → Int → Bool → (Int × Int × Bool) × σ
  ClientSetChannelBySessionId : σ → Int → Int → Int × σ
  ClientDeleteSession : σ → Int → Int × σ
  ClientGetChannelBySessionId : σ → Int → Int → Int → (Int × Int × Int) × σ
  ClientGetSessionCallbackById :
    σ → Int → ISessionListener ω → (Int × ISessionListener ω) × σ

/-- The other callees of the session service: the string check of `softbus_utils.h`, the
client frame manager and the proxies of the privileged process.  They act on `ω`. -/
structure ClientEnv (ω : Type) where
  IsValidString : Option String → Nat → Bool
  InitSoftBus : ω → Option String → Int × ω
  CheckPackageName : ω → Option String → Int × ω
  ServerIpcCreateSessionServer : ω → Option String → Option String → Int × ω
  ServerIpcRemoveSessionServer : ω → Option String → Option String → Int × ω
  ServerIpcOpenSession :
    ω → Option String → Option String → Option String → Option String → Int → Int × ω
  ClientTransCloseChannel : ω → Int → Int → Int × ω

/-- The application code behind the function pointers of a listener.  `OnSessionOpened p` is
the function at address `p`, called as `OnSessionOpened(sessionId, result)`.  It returns an
`int`; being code of the same process it may change the state `ω` outside the registry and,
by calling the session service again (`CloseSession`, `OpenSession`, ...), the registry `σ`
itself, and it may answer differently each time.  The calls it makes on its own are not part
of the log of the function that invoked it. -/
structure App (σ ω : Type) where
  OnSessionOpened : Nat → σ → ω → Int → Int → Int × σ × ω

/-- What a call of the session service leaves behind: the registry, the rest of the world and
the calls made, in order. -/
structure Run (σ ω : Type) where
  reg : σ
  remote : ω
  log : List ClientCall

/-- A `Run` together with the C return value. -/
structure Result (σ ω : Type) where
  ret : Int
  reg : σ
  remote : ω
  log : List ClientCall

variable {ω : Type}

/-- `IsValidSessionId` of `client_trans_session_service.c`. -/
def IsValidSessionId (D : SoftbusDef) (sessionId : Int) : Bool :=
  if sessionId < 0 ∨ sessionId > D.MAX_SESSION_ID then false else true

/-- `IsValidListener` of `client_trans_session_service.c`. -/
def IsValidListener (listener : Option (ISessionListener ω)) : Bool :=
  match listener with
  | some l =>
    l.OnSessionOpened.isSome && l.OnSessionClosed && l.OnBytesReceived && l.OnMessageReceived
  | none => false

/-- The zero-initialised listener `ISessionListener listener = {0}`. -/
def zeroListener : ISessionListener ω :=
  ⟨none, false, false, false⟩

/-- `CloseSession` of `client_trans_session_service.c` (a `void` function). -/
def CloseSession (D : SoftbusDef) (M : SessionMgr σ ω) (E : ClientEnv ω) (reg : σ) (remote : ω)
    (sessionId : Int) : Run σ ω :=
  if IsValidSessionId D sessionId = false then
    ⟨reg, remote, []⟩
  else
    let g := M.ClientGetChannelBySessionId reg sessionId D.INVALID_CHANNEL_ID D.CHANNEL_TYPE_BUTT
    let channelId := g.1.2.1
    let type := g.1.2.2
    let log1 := [ClientCall.ClientGetChannelBySessionId sessionId g.1.1 channelId type]
    if g.1.1 ≠ D.SOFTBUS_OK then
      ⟨g.2, remote, log1⟩
    else
      let c := E.ClientTransCloseChannel remote channelId type
      let d := M.ClientDeleteSession g.2 sessionId
      ⟨d.2, c.2,
        log1 ++ [ClientCall.ClientTransCloseChannel channelId type c.1,
          ClientCall.ClientDeleteSession sessionId d.1]⟩

/-- `OpenSessionWithExistSession` of `client_trans_session_service.c`.  The test
`OnSessionOpened == NULL || OnSessionOpened(sessionId, SOFTBUS_OK) != 0` calls the listener
only when the pointer is not `NULL`; the function goes on with the registry and the state the
listener left. -/
def OpenSessionWithExistSession (D : SoftbusDef) (M : SessionMgr σ ω) (E : ClientEnv ω)
    (A : App σ ω) (reg : σ) (remote : ω) (sessionId : Int) (isEnabled : Bool) : Result σ ω :=
  if isEnabled = false then
    ⟨sessionId, reg, remote, []⟩
  else
    let g := M.ClientGetSessionCallbackById reg sessionId zeroListener
    let log1 := [ClientCall.ClientGetSessionCallbackById sessionId g.1.1]
    if g.1.1 ≠ D.SOFTBUS_OK then
      ⟨sessionId, g.2, remote, log1⟩
    else
      match g.1.2.OnSessionOpened with
      | none =>
        let c := CloseSession D M E g.2 remote sessionId
        ⟨D.INVALID_SESSION_ID, c.reg, c.remote, log1 ++ c.log⟩
      | some p =>
        let o := A.OnSessionOpened p g.2 remote sessionId D.SOFTBUS_OK
        let log2 := log1 ++ [ClientCall.OnSessionOpened sessionId D.SOFTBUS_OK o.1]
        if o.1 ≠ 0 then
          let c := CloseSession D M E o.2.1 o.2.2 sessionId
          ⟨D.INVALID_SESSION_ID, c.reg, c.remote, log2 ++ c.log⟩
        else
          ⟨sessionId, o.2.1, o.2.2, log2⟩

/-- `CreateSessionServer` of `client_trans_session_service.c`. -/
def CreateSessionServer (D : SoftbusDef) (M : SessionMgr σ ω) (E : ClientEnv ω) (reg : σ)
    (remote : ω) (pkgName sessionName : Option String) (listener : Option (ISessionListener ω)) :
    Result σ ω :=
  if E.IsValidString pkgName D.PKG_NAME_SIZE_MAX = false ∨
      E.IsValidString sessionName D.SESSION_NAME_SIZE_MAX = false ∨
      IsValidListener listener = false then
    ⟨D.SOFTBUS_INVALID_PARAM, reg, remote, []⟩
  else
    let i := E.InitSoftBus remote pkgName
    let log1 := [ClientCall.InitSoftBus pkgName i.1]
    if i.1 ≠ D.SOFTBUS_OK then
      ⟨D.SOFTBUS_ERR, reg, i.2, log1⟩
    else
      let k := E.CheckPackageName i.2 pkgName
      let log2 := log1 ++ [ClientCall.CheckPackageName pkgName k.1]
      if k.1 ≠ D.SOFTBUS_OK then
        ⟨D.SOFTBUS_INVALID_PARAM, reg, k.2, log2⟩
      else
        let a := M.ClientAddSessionServer reg D.SEC_TYPE_CIPHERTEXT pkgName sessionName listener
        let log3 := log2 ++
          [ClientCall.ClientAddSessionServer D.SEC_TYPE_CIPHERTEXT pkgName sessionName a.1]
        if a.1 ≠ D.SOFTBUS_OK then
          ⟨a.1, a.2, k.2, log3⟩
        else
          let s := E.ServerIpcCreateSessionServer k.2 pkgName sessionName
          let log4 := log3 ++ [ClientCall.ServerIpcCreateSessionServer pkgName sessionName s.1]
          if s.1 = D.SOFTBUS_SERVER_NAME_REPEATED then
            ⟨D.SOFTBUS_OK, a.2, s.2, log4⟩
          else if s.1 ≠ D.SOFTBUS_OK then
            let d := M.ClientDeleteSessionServer a.2 D.SEC_TYPE_CIPHERTEXT sessionName
            ⟨s.1, d.2, s.2,
              log4 ++ [ClientCall.ClientDeleteSessionServer D.SEC_TYPE_CIPHERTEXT sessionName d.1]⟩
          else
            ⟨s.1, a.2, s.2, log4⟩

/-- `RemoveSessionServer` of `client_trans_session_service.c`. -/
def RemoveSessionServer (D : SoftbusDef) (M : SessionMgr σ ω) (E : ClientEnv ω) (reg : σ)
    (remote : ω) (pkgName sessionName : Option String) : Result σ ω :=
  if E.IsValidString pkgName D.PKG_NAME_SIZE_MAX = false ∨
      E.IsValidString sessionName D.SESSION_NAME_SIZE_MAX = false then
    ⟨D.SOFTBUS_INVALID_PARAM, reg, remote, []⟩
  else
    let s := E.ServerIpcRemoveSessionServer remote pkgName sessionName
    let log1 := [ClientCall.ServerIpcRemoveSessionServer pkgName sessionName s.1]
    if s.1 ≠ D.SOFTBUS_OK then
      ⟨s.1, reg, s.2, log1⟩
    else
      let d := M.ClientDeleteSessionServer reg D.SEC_TYPE_CIPHERTEXT sessionName
      ⟨d.1, d.2, s.2,
        log1 ++ [ClientCall.ClientDeleteSessionServer D.SEC_TYPE_CIPHERTEXT sessionName d.1]⟩

/-- The `strlen` of a C string: its length in bytes. -/
def strlen (s : String) : Nat :=
  s.utf8ByteSize

/-- `CheckParamIsValid` of `client_trans_session_service.c`.  `attr->dataType >= TYPE_BUTT`
compares the unsigned field with the enumerator `TYPE_BUTT`. -/
def CheckParamIsValid (D : SoftbusDef) (E : ClientEnv ω)
    (mySessionName peerSessionName peerDeviceId groupId : Option String)
    (attr : Option SessionAttribute) : Int :=
  if E.IsValidString mySessionName D.SESSION_NAME_SIZE_MAX = false ∨
      E.IsValidString peerSessionName D.SESSION_NAME_SIZE_MAX = false ∨
      E.IsValidString peerDeviceId D.DEVICE_ID_SIZE_MAX = false ∨
      (match attr with
        | none => true
        | some a => decide (Int.ofNat a.dataType ≥ D.TYPE_BUTT)) = true then
    D.SOFTBUS_INVALID_PARAM
  else
    match groupId with
    | none => D.SOFTBUS_INVALID_PARAM
    | some g => if strlen g ≥ D.GROUP_ID_SIZE_MAX then D.SOFTBUS_INVALID_PARAM else D.SOFTBUS_OK

/-- The value of `(int32_t)attr->dataType`, read where `attr` has been checked not to be
`NULL`: the 32 bits of the unsigned field read as a signed number. -/
def attrDataType (attr : Option SessionAttribute) : Int :=
  match attr with
  | some a =>
    if a.dataType % 2 ^ 32 < 2 ^ 31 then Int.ofNat (a.dataType % 2 ^ 32)
    else Int.ofNat (a.dataType % 2 ^ 32) - 2 ^ 32
  | none => 0

/-- `OpenSession` of `client_trans_session_service.c`. -/
def OpenSession (D : SoftbusDef) (M : SessionMgr σ ω) (E : ClientEnv ω) (A : App σ ω)
    (reg : σ) (remote : ω) (mySessionName peerSessionName peerDeviceId groupId : Option String)
    (attr : Option SessionAttribute) : Result σ ω :=
  if CheckParamIsValid D E mySessionName peerSessionName peerDeviceId groupId attr
      ≠ D.SOFTBUS_OK then
    ⟨D.INVALID_SESSION_ID, reg, remote, []⟩
  else
    let param : SessionParam := ⟨mySessionName, peerSessionName, peerDeviceId, groupId, attr⟩
    let a := M.ClientAddSession reg param D.INVALID_SESSION_ID false
    let ret := a.1.1
    let sessionId := a.1.2.1
    let isEnabled := a.1.2.2
    let log1 := [ClientCall.ClientAddSession param ret sessionId isEnabled]
    if ret ≠ D.SOFTBUS_OK then
      if ret = D.SOFTBUS_TRANS_SESSION_REPEATED then
        let r := OpenSessionWithExistSession D M E A a.2 remote sessionId isEnabled
        ⟨r.ret, r.reg, r.remote, log1 ++ r.log⟩
      else
        ⟨ret, a.2, remote, log1⟩
    else
      let o := E.ServerIpcOpenSession remote mySessionName peerSessionName peerDeviceId groupId
        (attrDataType attr)
      let channelId := o.1
      let log2 := log1 ++ [ClientCall.ServerIpcOpenSession mySessionName peerSessionName
        peerDeviceId groupId (attrDataType attr) channelId]
      let s := M.ClientSetChannelBySessionId a.2 sessionId channelId
      let log3 := log2 ++ [ClientCall.ClientSetChannelBySessionId sessionId channelId s.1]
      if s.1 ≠ D.SOFTBUS_OK then
        let d := M.ClientDeleteSession s.2 sessionId
        ⟨D.INVALID_SESSION_ID, d.2, o.2, log3 ++ [ClientCall.ClientDeleteSession sessionId d.1]⟩
      else
        ⟨sessionId, s.2, o.2, log3⟩

/-- The macro `SESSION_STATUS_CHECK_MAX_NUM` defined inside `CheckSessionIsOpened`. -/
def SESSION_STATUS_CHECK_MAX_NUM : Nat := 100

/-- The macro `SESSION_CHECK_PERIOD` defined inside `CheckSessionIsOpened`, in microseconds. -/
def SESSION_CHECK_PERIOD : Nat := 50000

/-- The `while (i < SESSION_STATUS_CHECK_MAX_NUM)` loop of `CheckSessionIsOpened`, by recursion
on the number `SESSION_STATUS_CHECK_MAX_NUM - i` of rounds that are left.  `channelId` and
`type` are the local variables the lookup writes to.  Gives the registry and the calls made. -/
def CheckSessionIsOpenedLoop (D : SoftbusDef) (M : SessionMgr σ ω) (sessionId : Int) :
    Nat → σ → Int → Int → σ × List ClientCall
  | 0, reg, _, _ => (reg, [])
  | left + 1, reg, channelId, type =>
    let g := M.ClientGetChannelBySessionId reg sessionId channelId type
    let call := ClientCall.ClientGetChannelBySessionId sessionId g.1.1 g.1.2.1 g.1.2.2
    if g.1.1 ≠ D.SOFTBUS_OK then
      (g.2, [call])
    else if g.1.2.2 ≠ D.CHANNEL_TYPE_BUTT then
      (g.2, [call])
    else
      let r := CheckSessionIsOpenedLoop D M sessionId left g.2 g.1.2.1 g.1.2.2
      (r.1, call :: ClientCall.usleep SESSION_CHECK_PERIOD :: r.2)

/-- `CheckSessionIsOpened` of `client_trans_session_service.c` (a `void` function). -/
def CheckSessionIsOpened (D : SoftbusDef) (M : SessionMgr σ ω) (reg : σ) (sessionId : Int) :
    σ × List ClientCall :=
  CheckSessionIsOpenedLoop D M sessionId SESSION_STATUS_CHECK_MAX_NUM reg D.INVALID_CHANNEL_ID
    D.CHANNEL_TYPE_BUTT

/-- `OpenSessionSync` of `client_trans_session_service.c`. -/
def OpenSessionSync (D : SoftbusDef) (M : SessionMgr σ ω) (E : ClientEnv ω) (A : App σ ω)
    (reg : σ) (remote : ω) (mySessionName peerSessionName peerDeviceId groupId : Option String)
    (attr : Option SessionAttribute) : Result σ ω :=
  if CheckParamIsValid D E mySessionName peerSessionName peerDeviceId groupId attr
      ≠ D.SOFTBUS_OK then
    ⟨D.INVALID_SESSION_ID, reg, remote, []⟩
  else
    let param : SessionParam := ⟨mySessionName, peerSessionName, peerDeviceId, groupId, attr⟩
    let a := M.ClientAddSession reg param D.INVALID_SESSION_ID false
    let ret := a.1.1
    let sessionId := a.1.2.1
    let isEnabled := a.1.2.2
    let log1 := [ClientCall.ClientAddSession param ret sessionId isEnabled]
    if ret ≠ D.SOFTBUS_OK then
      if ret = D.SOFTBUS_TRANS_SESSION_REPEATED then
        let w := CheckSessionIsOpened D M a.2 sessionId
        let r := OpenSessionWithExistSession D M E A w.1 remote sessionId isEnabled
        ⟨r.ret, r.reg, r.remote, log1 ++ w.2 ++ r.log⟩
      else
        ⟨ret, a.2, remote, log1⟩
    else
      let o := E.ServerIpcOpenSession remote mySessionName peerSessionName peerDeviceId groupId
        (attrDataType attr)
      let channelId := o.1
      let log2 := log1 ++ [ClientCall.ServerIpcOpenSession mySessionName peerSessionName
        peerDeviceId groupId (attrDataType attr) channelId]
      let s := M.ClientSetChannelBySessionId a.2 sessionId channelId
      let log3 := log2 ++ [ClientCall.ClientSetChannelBySessionId sessionId channelId s.1]
      if s.1 ≠ D.SOFTBUS_OK then
        let d := M.ClientDeleteSession s.2 sessionId
        ⟨D.INVALID_SESSION_ID, d.2, o.2, log3 ++ [ClientCall.ClientDeleteSession sessionId d.1]⟩
      else
        let w := CheckSessionIsOpened D M s.2 sessionId
        ⟨sessionId, w.1, o.2, log3 ++ w.2⟩

/-- A call of `ServerIpcOpenSession`, the remote open. -/
def ClientCall.isRemoteOpen : ClientCall → Bool
  | .ServerIpcOpenSession .. => true
  | _ => false

/-- A call of `ClientDeleteSessionServer`. -/
def ClientCall.isDeleteSessionServer : ClientCall → Bool
  | .ClientDeleteSessionServer .. => true
  | _ => false

/-- A call of `ClientAddSession`. -/
def ClientCall.isAddSession : ClientCall → Bool
  | .ClientAddSession .. => true
  | _ => false

/-- A lookup `ClientGetChannelBySessionId`. -/
def ClientCall.isLookup : ClientCall → Bool
  | .ClientGetChannelBySessionId .. => true
  | _ => false

/-- A call of `usleep`. -/
def ClientCall.isSleep : ClientCall → Bool
  | .usleep _ => true
  | _ => false

/-- A lookup `ClientGetChannelBySessionId` that failed or reported a channel type other than
`CHANNEL_TYPE_BUTT`. -/
def ClientCall.endsPolling (D : SoftbusDef) : ClientCall → Bool
  | .ClientGetChannelBySessionId _ ret _ type =>
    decide (ret ≠ D.SOFTBUS_OK ∨ type ≠ D.CHANNEL_TYPE_BUTT)
  | _ => false

/-- The microseconds a call sleeps: the argument of a `usleep`, `0` for any other call. -/
def ClientCall.sleepTime : ClientCall → Nat
  | .usleep usec => usec
  | _ => 0

/-- The total time slept in a log of calls, in microseconds. -/
def sleepTotal (log : List ClientCall) : Nat :=
  (log.map ClientCall.sleepTime).sum

/-! ## The session registry, modelled from the specification

`client_trans_session_manager.c`, which implements the registry behind `SessionMgr`, is not
among the sources.  The definitions of this section follow §3 and §4.1 of the specification. -/

/-- Modelled from the spec: the `SessionServerEntry` of §3, the record that
`ClientAddSessionServer` (missing from the sources) stores. -/
structure SessionServerEntry (ω : Type) where
  packageName : String
  sessionName : String
  securityType : Int
  listener : ISessionListener ω

/-- Modelled from the spec: the `ChannelBinding` of §3, a channel id with its channel type
(`CHANNEL_TYPE_BUTT` is the sentinel for "unset"). -/
structure ChannelBinding where
  channelId : Int
  channelType : Int
  deriving DecidableEq, Repr

/-- Modelled from the spec: the `Session` of §3.  Its state is `Pending` while
`channelBinding` is absent and `Bound` once it is present; a `Closed` session is one that has
been removed from the registry. -/
structure Session where
  sessionId : Int
  localSessionName : String
  peerSessionName : String
  peerDeviceId : String
  groupId : String
  dataType : Int
  channelBinding : Option ChannelBinding
  deriving DecidableEq, Repr

/-- Modelled from the spec: the client-side `SessionRegistry` of §2, the table of registered
session servers and of live sessions kept by the missing session manager. -/
structure SessionRegistry (ω : Type) where
  servers : List (SessionServerEntry ω)
  sessions : List Session

/-- Modelled from the spec: the lookup of a session by id inside the missing session manager.
"Session id space is a small bounded integer range; requests outside it are rejected before any
lookup" (§6). -/
def findSession (D : SoftbusDef) (reg : SessionRegistry ω) (sessionId : Int) : Option Session :=
  if IsValidSessionId D sessionId = true then
    reg.sessions.find? fun s => decide (s.sessionId = sessionId)
  else
    none

/-- Modelled from the spec: `AddSessionServer` of §4.1 (`ClientAddSessionServer`, missing from
the sources): "fails with `InvalidParam` if pkgName/sessionName fail length/charset validation
or listener is missing any required callback; fails with `NameRepeated` if an entry for
sessionName already exists". -/
def specAddSessionServer (D : SoftbusDef) (V : Option String → Nat → Bool)
    (reg : SessionRegistry ω) (type : Int) (pkgName sessionName : Option String)
    (listener : Option (ISessionListener ω)) : Int × SessionRegistry ω :=
  match pkgName, sessionName, listener with
  | some p, some n, some l =>
    if V pkgName D.PKG_NAME_SIZE_MAX = false ∨ V sessionName D.SESSION_NAME_SIZE_MAX = false ∨
        IsValidListener listener = false then
      (D.SOFTBUS_INVALID_PARAM, reg)
    else if (reg.servers.any fun e => decide (e.sessionName = n)) = true then
      (D.SOFTBUS_SERVER_NAME_REPEATED, reg)
    else
      (D.SOFTBUS_OK, ⟨⟨p, n, type, l⟩ :: reg.servers, reg.sessions⟩)
  | _, _, _ => (D.SOFTBUS_INVALID_PARAM, reg)

/-- Modelled from the spec: `DeleteSessionServer` of §4.1 (`ClientDeleteSessionServer`, missing
from the sources): "fails with `NotFound` if absent; otherwise removes the entry; any sessions
opened under it are not implicitly closed".  The key of an entry is its sessionName (§3). -/
def specDeleteSessionServer (D : SoftbusDef) (reg : SessionRegistry ω) (_type : Int)
    (sessionName : Option String) : Int × SessionRegistry ω :=
  match sessionName with
  | some n =>
    if (reg.servers.any fun e => decide (e.sessionName = n)) = true then
      (D.SOFTBUS_OK, ⟨reg.servers.filter fun e => decide (e.sessionName ≠ n), reg.sessions⟩)
    else
      (D.SOFTBUS_NOT_FIND, reg)
  | none => (D.SOFTBUS_NOT_FIND, reg)

/-- Modelled from the spec: the allocation of a session id inside the missing `ClientAddSession`:
"small positive integer, unique, bounded by a maximum" (§3).  The least id of
`1 .. MAX_SESSION_ID` that no live session holds; `none` when all are taken. -/
def allocSessionId (D : SoftbusDef) (reg : SessionRegistry ω) : Option Int :=
  ((List.range D.MAX_SESSION_ID.toNat).map fun (k : Nat) => Int.ofNat k + 1).find? fun n =>
    !(reg.sessions.any fun s => decide (s.sessionId = n))

/-- Modelled from the spec: whether a live session is the one an open request names, used by the
missing `ClientAddSession`: "a session with the same (localSessionName, peerSessionName,
peerDeviceId) combination maps to at most one live Session" (§3). -/
def Session.sameTuple (s : Session) (my peer dev : String) : Bool :=
  decide (s.localSessionName = my) && decide (s.peerSessionName = peer) &&
    decide (s.peerDeviceId = dev)

/-- Modelled from the spec: the parameter check of `AddSession` of §4.1 (inside the missing
`ClientAddSession`): "Fails `InvalidParam` on malformed strings/attr (dataType out of range,
group id too long)".  Gives the decoded (sessionName, peerSessionName, peerDeviceId, groupId,
dataType) when the parameter is well formed. -/
def specDecodeParam (D : SoftbusDef) (V : Option String → Nat → Bool) (param : SessionParam) :
    Option (String × String × String × String × Int) :=
  match param.sessionName, param.peerSessionName, param.peerDeviceId, param.groupId,
    param.attr with
  | some my, some peer, some dev, some grp, some attr =>
    if V param.sessionName D.SESSION_NAME_SIZE_MAX = false ∨
        V param.peerSessionName D.SESSION_NAME_SIZE_MAX = false ∨
        V param.peerDeviceId D.DEVICE_ID_SIZE_MAX = false ∨
        strlen grp ≥ D.GROUP_ID_SIZE_MAX ∨ Int.ofNat attr.dataType ≥ D.TYPE_BUTT then
      none
    else
      some (my, peer, dev, grp, Int.ofNat attr.dataType)
  | _, _, _, _, _ => none

/-- Modelled from the spec: `AddSession` of §4.1 (`ClientAddSession`, missing from the
sources): "allocates a new Session in `Pending` state unless one already matches the tuple, in
which case it returns the existing sessionId and a flag indicating whether the channel is
already `Bound`.  Fails `InvalidParam` on malformed strings/attr".  The signal for an existing
session is `SOFTBUS_TRANS_SESSION_REPEATED`; the specification names no error for an exhausted
id space, `SOFTBUS_ERR` is used. -/
def specAddSession (D : SoftbusDef) (V : Option String → Nat → Bool) (reg : SessionRegistry ω)
    (param : SessionParam) (sessionId : Int) (isEnabled : Bool) :
    (Int × Int × Bool) × SessionRegistry ω :=
  match specDecodeParam D V param with
  | none => ((D.SOFTBUS_INVALID_PARAM, sessionId, isEnabled), reg)
  | some t =>
    match reg.sessions.find? fun s => s.sameTuple t.1 t.2.1 t.2.2.1 with
    | some s => ((D.SOFTBUS_TRANS_SESSION_REPEATED, s.sessionId, s.channelBinding.isSome), reg)
    | none =>
      match allocSessionId D reg with
      | some n =>
        ((D.SOFTBUS_OK, n, isEnabled),
          ⟨reg.servers, ⟨n, t.1, t.2.1, t.2.2.1, t.2.2.2.1, t.2.2.2.2, none⟩ :: reg.sessions⟩)
      | none => ((D.SOFTBUS_ERR, sessionId, isEnabled), reg)

/-- Modelled from the spec: `DeleteSession` of §4.1 (`ClientDeleteSession`, missing from the
sources): removes the session with that id, `NotFound` when there is none. -/
def specDeleteSession (D : SoftbusDef) (reg : SessionRegistry ω) (sessionId : Int) :
    Int × SessionRegistry ω :=
  match findSession D reg sessionId with
  | some _ =>
    (D.SOFTBUS_OK, ⟨reg.servers, reg.sessions.filter fun s => decide (s.sessionId ≠ sessionId)⟩)
  | none => (D.SOFTBUS_NOT_FIND, reg)

/-- Modelled from the spec: `SetChannelBySessionId` of §4.1 (`ClientSetChannelBySessionId`,
missing from the sources): "transitions `Pending -> Bound`; fails `NotFound` if sessionId
unknown, fails if channelId signals remote failure (sentinel invalid id), in which case the
session is deleted rather than left dangling".  The operation takes no transport kind and the
specification names none for the binding it makes; the binding is recorded as a proxy channel,
so that a lookup of the `Bound` session reports the enumerator `CHANNEL_TYPE_PROXY` and not
the "unset" sentinel `CHANNEL_TYPE_BUTT`. -/
def specSetChannelBySessionId (D : SoftbusDef) (reg : SessionRegistry ω)
    (sessionId channelId : Int) : Int × SessionRegistry ω :=
  match findSession D reg sessionId with
  | none => (D.SOFTBUS_NOT_FIND, reg)
  | some _ =>
    if channelId = D.INVALID_CHANNEL_ID then
      (D.SOFTBUS_ERR, (specDeleteSession D reg sessionId).2)
    else
      (D.SOFTBUS_OK,
        ⟨reg.servers, reg.sessions.map fun s =>
          if s.sessionId = sessionId then
            { s with channelBinding := some ⟨channelId, D.CHANNEL_TYPE_PROXY⟩ }
          else s⟩)

/-- Modelled from the spec: `GetChannelBySessionId` of §4.1 (`ClientGetChannelBySessionId`,
missing from the sources): a read accessor that fails `NotFound` on a bad id.  A session that
is still `Pending` reports the unset binding. -/
def specGetChannelBySessionId (D : SoftbusDef) (reg : SessionRegistry ω)
    (sessionId channelId type : Int) : (Int × Int × Int) × SessionRegistry ω :=
  match findSession D reg sessionId with
  | none => ((D.SOFTBUS_NOT_FIND, channelId, type), reg)
  | some s =>
    match s.channelBinding with
    | some b => ((D.SOFTBUS_OK, b.channelId, b.channelType), reg)
    | none => ((D.SOFTBUS_OK, D.INVALID_CHANNEL_ID, D.CHANNEL_TYPE_BUTT), reg)

/-- Modelled from the spec: the accessor of "the stored listener" of §4.2
(`ClientGetSessionCallbackById`, missing from the sources): the listener of the session server
registered under the session's local session name, `NotFound` when the session or the server
is unknown. -/
def specGetSessionCallbackById (D : SoftbusDef) (reg : SessionRegistry ω) (sessionId : Int)
    (listener : ISessionListener ω) : (Int × ISessionListener ω) × SessionRegistry ω :=
  match findSession D reg sessionId with
  | none => ((D.SOFTBUS_NOT_FIND, listener), reg)
  | some s =>
    match reg.servers.find? fun e => decide (e.sessionName = s.localSessionName) with
    | some e => ((D.SOFTBUS_OK, e.listener), reg)
    | none => ((D.SOFTBUS_NOT_FIND, listener), reg)

/-- Modelled from the spec: the session manager missing from the sources, assembled from the
operations of §4.1.  `V` is the string check (`IsValidString`) it validates names with. -/
def specMgr (D : SoftbusDef) (V : Option String → Nat → Bool) :
    SessionMgr (SessionRegistry ω) ω where
  ClientAddSessionServer := specAddSessionServer D V
  ClientDeleteSessionServer := specDeleteSessionServer D
  ClientAddSession := specAddSession D V
  ClientSetChannelBySessionId := specSetChannelBySessionId D
  ClientDeleteSession := specDeleteSession D
  ClientGetChannelBySessionId := specGetChannelBySessionId D
  ClientGetSessionCallbackById := specGetSessionCallbackById D

/-! ## Network capability: `lnn_net_capability.c` -/

/-- The enumerators of `NetCapability` that `lnn_net_capability.c` uses, as bit positions;
`lnn_net_capability.h` is not among the sources. -/
structure NetCapabilityDef where
  BIT_BLE : Nat
  BIT_BR : Nat
  BIT_WIFI : Nat
  BIT_WIFI_24G : Nat
  BIT_WIFI_5G : Nat
  BIT_ETH : Nat
  BIT_COUNT : Nat

/-- The macro `DEFAUTL_LNN_CAPBILITY` of `lnn_net_capability.c`. -/
def DEFAUTL_LNN_CAPBILITY : Nat := 0x16

/-- `LnnSetNetCapability` of `lnn_net_capability.c`.  `capability` is `none` for a `NULL`
pointer; the second component is the `uint32_t` the pointer refers to afterwards. -/
def LnnSetNetCapability (D : SoftbusDef) (N : NetCapabilityDef) (capability : Option Nat)
    (type : Nat) : Int × Option Nat :=
  match capability with
  | none => (D.SOFTBUS_INVALID_PARAM, none)
  | some c =>
    if type ≥ N.BIT_COUNT then
      (D.SOFTBUS_INVALID_PARAM, some c)
    else
      (D.SOFTBUS_OK, some ((c ||| (1 <<< type)) % 2 ^ 32))

/-- One `if ((configValue & (1 << BIT)) != 0) (void)LnnSetNetCapability(&capability, BIT)` of
`LnnGetNetCapabilty`: the value of `capability` afterwards. -/
def copyCapabilityBit (D : SoftbusDef) (N : NetCapabilityDef) (configValue capability bit : Nat) :
    Nat :=
  if configValue &&& (1 <<< bit) ≠ 0 then
    match (LnnSetNetCapability D N (some capability) bit).2 with
    | some c => c
    | none => capability
  else
    capability

/-- `LnnGetNetCapabilty` of `lnn_net_capability.c`.  `property` is what
`GetPropertyInt("LNN_SUPPORT_CAPBILITY", ..)` gives: its status and the `int32_t` it stored,
which the function reads as a `uint32_t`. -/
def LnnGetNetCapabilty (D : SoftbusDef) (N : NetCapabilityDef) (property : Int × Int) : Nat :=
  let configValue : Nat :=
    if property.1 ≠ D.SOFTBUS_OK then DEFAUTL_LNN_CAPBILITY else (property.2 % 2 ^ 32).toNat
  let c0 : Nat := 0
  let c1 := copyCapabilityBit D N configValue c0 N.BIT_BLE
  let c2 := copyCapabilityBit D N configValue c1 N.BIT_BR
  let c3 := copyCapabilityBit D N configValue c2 N.BIT_WIFI
  let c4 := copyCapabilityBit D N configValue c3 N.BIT_WIFI_24G
  let c5 := copyCapabilityBit D N configValue c4 N.BIT_WIFI_5G
  copyCapabilityBit D N configValue c5 N.BIT_ETH

/-- The six capability bits that `LnnGetNetCapabilty` copies, in the order of its tests. -/
def supportedBits (N : NetCapabilityDef) : List Nat :=
  [N.BIT_BLE, N.BIT_BR, N.BIT_WIFI, N.BIT_WIFI_24G, N.BIT_WIFI_5G, N.BIT_ETH]

/-- The mask of the six supported capability bits. -/
def supportedMask (N : NetCapabilityDef) : Nat :=
  (1 <<< N.BIT_BLE) ||| (1 <<< N.BIT_BR) ||| (1 <<< N.BIT_WIFI) ||| (1 <<< N.BIT_WIFI_24G) |||
    (1 <<< N.BIT_WIFI_5G) ||| (1 <<< N.BIT_ETH)

/-- What the enumeration `NetCapability` is taken to satisfy: `BIT_COUNT` closes it, so each
of the six capability bits is below `BIT_COUNT`, and `BIT_COUNT` is at most `31`, so that
`1 << type` does not overflow an `int`. -/
def NetCapabilityDef.InRange (N : NetCapabilityDef) : Prop :=
  (∀ b ∈ supportedBits N, b < N.BIT_COUNT) ∧ N.BIT_COUNT ≤ 31

instance NetCapabilityDef.decidableInRange (N : NetCapabilityDef) : Decidable N.InRange :=
  inferInstanceAs (Decidable ((∀ b ∈ supportedBits N, b < N.BIT_COUNT) ∧ N.BIT_COUNT ≤ 31))

/-- What `GetPropertyInt` leaves in `configValue`, or the default when it fails. -/
def configValueOf (D : SoftbusDef) (property : Int × Int) : Nat :=
  if property.1 ≠ D.SOFTBUS_OK then DEFAUTL_LNN_CAPBILITY else (property.2 % 2 ^ 32).toNat

/-! ## Concrete instances

A sample assignment of the constants and sample callees, on which the functions above are
evaluated. -/

/-- A sample assignment of the constants: `SOFTBUS_OK` is `0`, the error codes are distinct
negative numbers, the invalid-id sentinels are `-1`. -/
def sampleDef : SoftbusDef where
  SOFTBUS_OK := 0
  SOFTBUS_ERR := -1
  SOFTBUS_INVALID_PARAM := -2
  SOFTBUS_PERMISSION_DENIED := -3
  SOFTBUS_NOT_FIND := -4
  SOFTBUS_SERVER_NAME_REPEATED := -5
  SOFTBUS_TRANS_SESSION_REPEATED := -6
  SOFTBUS_TRANS_PROXY_SEND_CHANNELID_INVALID := -7
  SOFTBUS_TRANS_UDP_CLOSE_CHANNELID_INVALID := -8
  SOFTBUS_TRANS_INVALID_CLOSE_CHANNEL_ID := -9
  ACTION_CREATE := 1
  ACTION_OPEN := 2
  CHANNEL_TYPE_PROXY := 1
  CHANNEL_TYPE_UDP := 2
  CHANNEL_TYPE_BUTT := 3
  TYPE_BUTT := 4
  SEC_TYPE_CIPHERTEXT := 1
  INVALID_SESSION_ID := -1
  INVALID_CHANNEL_ID := -1
  MAX_SESSION_ID := 16
  PKG_NAME_SIZE_MAX := 65
  SESSION_NAME_SIZE_MAX := 65
  DEVICE_ID_SIZE_MAX := 65
  GROUP_ID_SIZE_MAX := 65
  proxy_ne_udp := by decide
  err_ne_ok := by decide
  invalid_param_ne_ok := by decide
  not_find_ne_ok := by decide
  session_repeated_ne_ok := by decide

/-- One marshalled item of a sample request. -/
inductive IpcItem where
  | str (s : String)
  | int32 (v : Int)
  | flat (data : List Nat)
  deriving DecidableEq, Repr

/-- Sample callees of the server stub.  A request is the list of its items, a pop of the wrong
kind yields `NULL` (or `0`).  The origin is the pair (uid, pid); only uid `1000` is permitted.
Proxy channel `7` and UDP channel `9` belong to session server `svcA` of package `pkgA`.  The
state counts the transport-manager calls, each of which succeeds. -/
def sampleServerEnv : ServerEnv (Int × Int) (List IpcItem) Nat where
  IpcIoPopString := fun r =>
    match r with
    | .str s :: t => (some s, t)
    | _ => (none, r)
  IpcIoPopInt32 := fun r =>
    match r with
    | .int32 v :: t => (v, t)
    | _ => (0, r)
  IpcIoPopFlatObj := fun r =>
    match r with
    | .flat d :: t => ((some d, d.length), t)
    | _ => ((none, 0), r)
  GetCallingUid := fun o => o.1
  GetCallingPid := fun o => o.2
  CheckTransPermission := fun w uid _ _ _ _ => (if uid = 1000 then 0 else -3, w)
  TransGetPkgNameBySessionName := fun w n =>
    if n = some "svcA" then ((0, "pkgA"), w) else ((-1, ""), w)
  TransProxyGetNameByChanId := fun w c =>
    if c = 7 then ((0, "pkgA", "svcA"), w) else ((-1, "", ""), w)
  TransUdpGetNameByChanId := fun w c =>
    if c = 9 then ((0, "pkgA", "svcA"), w) else ((-1, "", ""), w)
  TransCreateSessionServer := fun w _ _ _ _ => (0, w + 1)
  TransRemoveSessionServer := fun w _ _ => (0, w + 1)
  TransOpenSession := fun w _ _ _ _ _ => (5, w + 1)
  TransCloseChannel := fun w _ _ => (0, w + 1)
  TransSendMsg := fun w _ _ _ _ => (0, w + 1)

/-- Sample callees of the session service.  A string is valid when it is not `NULL` and
shorter than the bound; initialisation and the package-name check succeed; the remote create,
remove and close calls return `createRet`, `removeRet` and `closeRet`; the remote open returns
channel `42`.  The state counts the remote calls. -/
def sampleClientEnv (createRet removeRet closeRet : Int) : ClientEnv Nat where
  IsValidString := fun s n =>
    match s with
    | some x => decide (strlen x < n)
    | none => false
  InitSoftBus := fun w _ => (0, w)
  CheckPackageName := fun w _ => (0, w)
  ServerIpcCreateSessionServer := fun w _ _ => (createRet, w + 1)
  ServerIpcRemoveSessionServer := fun w _ _ => (removeRet, w + 1)
  ServerIpcOpenSession := fun w _ _ _ _ _ => (42, w + 1)
  ClientTransCloseChannel := fun w _ _ => (closeRet, w + 1)

/-- A sample listener with all four callbacks set, whose `OnSessionOpened` is the function at
address `openedRet`. -/
def sampleListener (openedRet : Nat) : ISessionListener Nat :=
  ⟨some openedRet, true, true, true⟩

/-- A sample application: the function at address `p` returns `p` and changes nothing, so
`sampleListener 0` accepts every session and `sampleListener 1` rejects every session. -/
def sampleApp : App (SessionRegistry Nat) Nat where
  OnSessionOpened := fun p reg w _ _ => (Int.ofNat p, reg, w)

/-- A sample application whose `OnSessionOpened` accepts a session (returns `0`) the first
time it is called and rejects it (returns `1`) from then on; it counts its calls in the
state. -/
def onceApp : App (SessionRegistry Nat) Nat where
  OnSessionOpened := fun _ reg w _ _ => (if w = 0 then 0 else 1, reg, w + 1)

/-- A sample application whose `OnSessionOpened` calls `CloseSession(sessionId)` on the
session it is told about and returns `0`. -/
def closingApp : App (SessionRegistry Nat) Nat where
  OnSessionOpened := fun _ reg w sessionId _ =>
    (0, (CloseSession sampleDef (specMgr sampleDef (sampleClientEnv 0 0 0).IsValidString)
        (sampleClientEnv 0 0 0) reg w sessionId).reg,
      (CloseSession sampleDef (specMgr sampleDef (sampleClientEnv 0 0 0).IsValidString)
        (sampleClientEnv 0 0 0) reg w sessionId).remote)

/-- The registry with no session server and no session. -/
def emptyRegistry : SessionRegistry Nat :=
  ⟨[], []⟩

/-- A registry holding the session server `svcA` of package `pkgA`, with the sample listener,
and no session. -/
def sampleRegistry (openedRet : Nat) : SessionRegistry Nat :=
  ⟨[⟨"pkgA", "svcA", 1, sampleListener openedRet⟩], []⟩

/-- A registry holding the session server `svcA` and one bound session, of id `3`, on the
proxy channel `42`. -/
def boundRegistry : SessionRegistry Nat :=
  ⟨[⟨"pkgA", "svcA", 1, sampleListener 0⟩],
    [⟨3, "svcA", "svcB", "dev123", "group1", 1, some ⟨42, 1⟩⟩]⟩

/-- A registry holding the session server `svcA` and one session, of id `3`, that is still
`Pending`: no channel is bound to it. -/
def pendingRegistry : SessionRegistry Nat :=
  ⟨[⟨"pkgA", "svcA", 1, sampleListener 0⟩],
    [⟨3, "svcA", "svcB", "dev123", "group1", 1, none⟩]⟩

/-- A sample `NetCapability`: BLE, BR, WIFI, one bit that is not copied, WIFI 2.4G, WIFI 5G,
ETH, numbered from `0`, which puts BR at bit 1, WIFI at bit 2 and WIFI 2.4G at bit 4 as the
comment on `DEFAUTL_LNN_CAPBILITY` says. -/
def sampleNetCapability : NetCapabilityDef :=
  ⟨0, 1, 2, 4, 5, 6, 7⟩

/-! ## Theorems: the privileged handlers -/

/-- C1. A request that `CheckTransPermission` denies is blocked, in each of the five privileged
handlers called with a non-null request and reply.  For `ServerCreateSessionServer` and
`ServerRemoveSessionServer`: whatever the request decodes to, the handler calls
`CheckTransPermission` with the caller's uid and pid, the popped names and `ACTION_CREATE`, and
if the answer is not `SOFTBUS_OK` the handler makes no other call, writes
`SOFTBUS_PERMISSION_DENIED` to the reply and returns it.  For `ServerOpenSession`,
`ServerCloseChannel` (channel type proxy or UDP) and `ServerSendSessionMsg`: once the name
lookup has succeeded, the handler calls `CheckTransPermission` with the caller's uid and pid and
the names the lookup gave, and if the answer is not `SOFTBUS_OK` the calls made are the lookup,
the check and the one reply write `SOFTBUS_PERMISSION_DENIED`, which is returned.  In each case
the state is the one `CheckTransPermission` left.  Last, in every run of every handler, each
mutating transport-manager call comes after a `CheckTransPermission` call that returned
`SOFTBUS_OK`. -/
theorem permission_denied_blocks_mutation (D : SoftbusDef) (E : ServerEnv ο ρ σ) (w : σ)
    (origin : ο) (req : ρ) :
    (∀ (pkgName sessionName : Option String) (ret : Int) (w1 : σ),
        (E.IpcIoPopString req).1 = pkgName →
        (E.IpcIoPopString (E.IpcIoPopString req).2).1 = sessionName →
        E.CheckTransPermission w (E.GetCallingUid origin) (E.GetCallingPid origin) pkgName
          sessionName D.ACTION_CREATE = (ret, w1) →
        ret ≠ D.SOFTBUS_OK →
        ServerCreateSessionServer D E w origin (some req) true =
          ⟨D.SOFTBUS_PERMISSION_DENIED, w1,
            [ServerCall.CheckTransPermission (E.GetCallingUid origin) (E.GetCallingPid origin)
                pkgName sessionName D.ACTION_CREATE ret,
              ServerCall.IpcIoPushInt32 D.SOFTBUS_PERMISSION_DENIED]⟩) ∧
      (∀ (pkgName sessionName : Option String) (ret : Int) (w1 : σ),
        (E.IpcIoPopString req).1 = pkgName →
        (E.IpcIoPopString (E.IpcIoPopString req).2).1 = sessionName →
        E.CheckTransPermission w (E.GetCallingUid origin) (E.GetCallingPid origin) pkgName
          sessionName D.ACTION_CREATE = (ret, w1) →
        ret ≠ D.SOFTBUS_OK →
        ServerRemoveSessionServer D E w origin (some req) true =
          ⟨D.SOFTBUS_PERMISSION_DENIED, w1,
            [ServerCall.CheckTransPermission (E.GetCallingUid origin) (E.GetCallingPid origin)
                pkgName sessionName D.ACTION_CREATE ret,
              ServerCall.IpcIoPushInt32 D.SOFTBUS_PERMISSION_DENIED]⟩) ∧
      (∀ (mySessionName : Option String) (pkgName : String) (ret : Int) (w1 w2 : σ),
        (E.IpcIoPopString req).1 = mySessionName →
        E.TransGetPkgNameBySessionName w mySessionName = ((D.SOFTBUS_OK, pkgName), w1) →
        E.CheckTransPermission w1 (E.GetCallingUid origin) (E.GetCallingPid origin)
          (some pkgName) mySessionName D.ACTION_OPEN = (ret, w2) →
        ret ≠ D.SOFTBUS_OK →
        ServerOpenSession D E w origin (some req) true =
          ⟨D.SOFTBUS_PERMISSION_DENIED, w2,
            [ServerCall.TransGetPkgNameBySessionName mySessionName D.SOFTBUS_OK,
              ServerCall.CheckTransPermission (E.GetCallingUid origin) (E.GetCallingPid origin)
                (some pkgName) mySessionName D.ACTION_OPEN ret,
              ServerCall.IpcIoPushInt32 D.SOFTBUS_PERMISSION_DENIED]⟩) ∧
      (∀ (channelId : Int) (pkgName sessionName : String) (ret : Int) (w1 w2 : σ),
        (E.IpcIoPopInt32 req).1 = channelId →
        (E.IpcIoPopInt32 (E.IpcIoPopInt32 req).2).1 = D.CHANNEL_TYPE_PROXY →
        E.TransProxyGetNameByChanId w channelId = ((D.SOFTBUS_OK, pkgName, sessionName), w1) →
        E.CheckTransPermission w1 (E.GetCallingUid origin) (E.GetCallingPid origin)
          (some pkgName) (some sessionName) D.ACTION_OPEN = (ret, w2) →
        ret ≠ D.SOFTBUS_OK →
        ServerCloseChannel D E w origin (some req) true =
          ⟨D.SOFTBUS_PERMISSION_DENIED, w2,
            [ServerCall.TransProxyGetNameByChanId channelId D.SOFTBUS_OK,
              ServerCall.CheckTransPermission (E.GetCallingUid origin) (E.GetCallingPid origin)
                (some pkgName) (some sessionName) D.ACTION_OPEN ret,
              ServerCall.IpcIoPushInt32 D.SOFTBUS_PERMISSION_DENIED]⟩) ∧
      (∀ (channelId : Int) (pkgName sessionName : String) (ret : Int) (w1 w2 : σ),
        (E.IpcIoPopInt32 req).1 = channelId →
        (E.IpcIoPopInt32 (E.IpcIoPopInt32 req).2).1 = D.CHANNEL_TYPE_UDP →
        E.TransUdpGetNameByChanId w channelId = ((D.SOFTBUS_OK, pkgName, sessionName), w1) →
        E.CheckTransPermission w1 (E.GetCallingUid origin) (E.GetCallingPid origin)
          (some pkgName) (some sessionName) D.ACTION_OPEN = (ret, w2) →
        ret ≠ D.SOFTBUS_OK →
        ServerCloseChannel D E w origin (some req) true =
          ⟨D.SOFTBUS_PERMISSION_DENIED, w2,
            [ServerCall.TransUdpGetNameByChanId channelId D.SOFTBUS_OK,
              ServerCall.CheckTransPermission (E.GetCallingUid origin) (E.GetCallingPid origin)
                (some pkgName) (some sessionName) D.ACTION_OPEN ret,
              ServerCall.IpcIoPushInt32 D.SOFTBUS_PERMISSION_DENIED]⟩) ∧
      (∀ (channelId : Int) (pkgName sessionName : String) (ret : Int) (w1 w2 : σ),
        (E.IpcIoPopInt32 req).1 = channelId →
        E.TransProxyGetNameByChanId w channelId = ((D.SOFTBUS_OK, pkgName, sessionName), w1) →
        E.CheckTransPermission w1 (E.GetCallingUid origin) (E.GetCallingPid origin)
          (some pkgName) (some sessionName) 0 = (ret, w2) →
        ret ≠ D.SOFTBUS_OK →
        ServerSendSessionMsg D E w origin (some req) true =
          ⟨D.SOFTBUS_PERMISSION_DENIED, w2,
            [ServerCall.TransProxyGetNameByChanId channelId D.SOFTBUS_OK,
              ServerCall.CheckTransPermission (E.GetCallingUid origin) (E.GetCallingPid origin)
                (some pkgName) (some sessionName) 0 ret,
              ServerCall.IpcIoPushInt32 D.SOFTBUS_PERMISSION_DENIED]⟩) ∧
      (∀ (h : Handler) (request : Option ρ) (reply : Bool),
        mutationsGuarded D false (h.run D E w origin request reply).log = true) := by
  refine ⟨?_, ?_, ?_, ?_, ?_, ?_, ?_⟩
  · intro pkgName sessionName ret w1 h1 h2 hc hne
    subst h1 h2
    simp [ServerCreateSessionServer, hc, hne]
  · intro pkgName sessionName ret w1 h1 h2 hc hne
    subst h1 h2
    simp [ServerRemoveSessionServer, hc, hne]
  · intro mySessionName pkgName ret w1 w2 h1 hg hc hne
    subst h1
    simp [ServerOpenSession, hg, hc, hne]
  · intro channelId pkgName sessionName ret w1 w2 h1 h2 hg hc hne
    subst h1
    simp [ServerCloseChannel, closeChannelChecked, h2, hg, hc, hne]
  · intro channelId pkgName sessionName ret w1 w2 h1 h2 hg hc hne
    subst h1
    have hnp : D.CHANNEL_TYPE_UDP ≠ D.CHANNEL_TYPE_PROXY := fun e => D.proxy_ne_udp e.symm
    simp [ServerCloseChannel, closeChannelChecked, h2, hnp, hg, hc, hne]
  · intro channelId pkgName sessionName ret w1 w2 h1 hg hc hne
    subst h1
    simp [ServerSendSessionMsg, hg, hc, hne]
  · intro h request reply
    rcases request with _ | r <;> rcases reply with _ | _ <;> cases h <;>
      simp only [Handler.run, ServerCreateSessionServer, ServerRemoveSessionServer,
        ServerOpenSession, ServerCloseChannel, ServerSendSessionMsg, closeChannelChecked] <;>
      (try split_ifs) <;>
      simp_all [mutationsGuarded, ServerCall.isMutating, ServerCall.isGrant]

/-- Witness of C1: on the sample callees, which permit uid `1000` only, the five kinds of
request from uid `5` are denied: each handler makes the check, makes no transport-manager call
(the state, which counts them, stays `0`) and answers `SOFTBUS_PERMISSION_DENIED` (`-3`). -/
theorem permission_denied_blocks_mutation_witness :
    ServerCreateSessionServer sampleDef sampleServerEnv 0 (5, 1)
        (some [IpcItem.str "pkgA", IpcItem.str "svcA"]) true =
        ⟨-3, 0, [ServerCall.CheckTransPermission 5 1 (some "pkgA") (some "svcA") 1 (-3),
          ServerCall.IpcIoPushInt32 (-3)]⟩ ∧
      ServerRemoveSessionServer sampleDef sampleServerEnv 0 (5, 1)
        (some [IpcItem.str "pkgA", IpcItem.str "svcA"]) true =
        ⟨-3, 0, [ServerCall.CheckTransPermission 5 1 (some "pkgA") (some "svcA") 1 (-3),
          ServerCall.IpcIoPushInt32 (-3)]⟩ ∧
      ServerOpenSession sampleDef sampleServerEnv 0 (5, 1)
        (some [IpcItem.str "svcA", IpcItem.str "svcB", IpcItem.str "dev123",
          IpcItem.str "group1", IpcItem.int32 0]) true =
        ⟨-3, 0, [ServerCall.TransGetPkgNameBySessionName (some "svcA") 0,
          ServerCall.CheckTransPermission 5 1 (some "pkgA") (some "svcA") 2 (-3),
          ServerCall.IpcIoPushInt32 (-3)]⟩ ∧
      ServerCloseChannel sampleDef sampleServerEnv 0 (5, 1)
        (some [IpcItem.int32 7, IpcItem.int32 1]) true =
        ⟨-3, 0, [ServerCall.TransProxyGetNameByChanId 7 0,
          ServerCall.CheckTransPermission 5 1 (some "pkgA") (some "svcA") 2 (-3),
          ServerCall.IpcIoPushInt32 (-3)]⟩ ∧
      ServerCloseChannel sampleDef sampleServerEnv 0 (5, 1)
        (some [IpcItem.int32 9, IpcItem.int32 2]) true =
        ⟨-3, 0, [ServerCall.TransUdpGetNameByChanId 9 0,
          ServerCall.CheckTransPermission 5 1 (some "pkgA") (some "svcA") 2 (-3),
          ServerCall.IpcIoPushInt32 (-3)]⟩ ∧
      ServerSendSessionMsg sampleDef sampleServerEnv 0 (5, 1)
        (some [IpcItem.int32 7, IpcItem.int32 0, IpcItem.flat [1, 2]]) true =
        ⟨-3, 0, [ServerCall.TransProxyGetNameByChanId 7 0,
          ServerCall.CheckTransPermission 5 1 (some "pkgA") (some "svcA") 0 (-3),
          ServerCall.IpcIoPushInt32 (-3)]⟩ :=
  ⟨(permission_denied_blocks_mutation sampleDef sampleServerEnv 0 (5, 1)
      [IpcItem.str "pkgA", IpcItem.str "svcA"]).1 _ _ _ _ rfl rfl rfl (by decide),
    (permission_denied_blocks_mutation sampleDef sampleServerEnv 0 (5, 1)
      [IpcItem.str "pkgA", IpcItem.str "svcA"]).2.1 _ _ _ _ rfl rfl rfl (by decide),
    (permission_denied_blocks_mutation sampleDef sampleServerEnv 0 (5, 1)
      [IpcItem.str "svcA", IpcItem.str "svcB", IpcItem.str "dev123", IpcItem.str "group1",
        IpcItem.int32 0]).2.2.1 _ _ _ _ _ rfl rfl rfl (by decide),
    (permission_denied_blocks_mutation sampleDef sampleServerEnv 0 (5, 1)
      [IpcItem.int32 7, IpcItem.int32 1]).2.2.2.1 _ _ _ _ _ _ rfl rfl rfl rfl (by decide),
    (permission_denied_blocks_mutation sampleDef sampleServerEnv 0 (5, 1)
      [IpcItem.int32 9, IpcItem.int32 2]).2.2.2.2.1 _ _ _ _ _ _ rfl rfl rfl rfl (by decide),
    (permission_denied_blocks_mutation sampleDef sampleServerEnv 0 (5, 1)
      [IpcItem.int32 7, IpcItem.int32 0, IpcItem.flat [1, 2]]).2.2.2.2.2.1 _ _ _ _ _ _ rfl rfl rfl
      (by decide)⟩

/-- C2. `ServerCloseChannel`, called with a non-null request and reply, selects the name
resolver by the decoded `channelType` alone: for `CHANNEL_TYPE_UDP` its first call is
`TransUdpGetNameByChanId` and it never calls `TransProxyGetNameByChanId`; for
`CHANNEL_TYPE_PROXY` its first call is `TransProxyGetNameByChanId` and it never calls
`TransUdpGetNameByChanId`; for every other value it writes and returns
`SOFTBUS_TRANS_INVALID_CLOSE_CHANNEL_ID` and makes no other call at all (no resolver, no
`CheckTransPermission`, no `TransCloseChannel`) and leaves the state as it was. -/
theorem close_channel_dispatch (D : SoftbusDef) (E : ServerEnv ο ρ σ) (w : σ) (origin : ο)
    (req : ρ) :
    ((E.IpcIoPopInt32 (E.IpcIoPopInt32 req).2).1 = D.CHANNEL_TYPE_UDP →
        (ServerCloseChannel D E w origin (some req) true).log.head? =
          some (ServerCall.TransUdpGetNameByChanId (E.IpcIoPopInt32 req).1
            (E.TransUdpGetNameByChanId w (E.IpcIoPopInt32 req).1).1.1) ∧
        ∀ c ∈ (ServerCloseChannel D E w origin (some req) true).log,
          c.isProxyResolver = false) ∧
      ((E.IpcIoPopInt32 (E.IpcIoPopInt32 req).2).1 = D.CHANNEL_TYPE_PROXY →
        (ServerCloseChannel D E w origin (some req) true).log.head? =
          some (ServerCall.TransProxyGetNameByChanId (E.IpcIoPopInt32 req).1
            (E.TransProxyGetNameByChanId w (E.IpcIoPopInt32 req).1).1.1) ∧
        ∀ c ∈ (ServerCloseChannel D E w origin (some req) true).log,
          c.isUdpResolver = false) ∧
      ((E.IpcIoPopInt32 (E.IpcIoPopInt32 req).2).1 ≠ D.CHANNEL_TYPE_UDP →
        (E.IpcIoPopInt32 (E.IpcIoPopInt32 req).2).1 ≠ D.CHANNEL_TYPE_PROXY →
        (ServerCloseChannel D E w origin (some req) true).ret =
          D.SOFTBUS_TRANS_INVALID_CLOSE_CHANNEL_ID ∧
        (ServerCloseChannel D E w origin (some req) true).log =
          [ServerCall.IpcIoPushInt32 D.SOFTBUS_TRANS_INVALID_CLOSE_CHANNEL_ID] ∧
        (ServerCloseChannel D E w origin (some req) true).world = w) := by
  have hne := D.proxy_ne_udp
  refine ⟨fun hu => ?_, fun hp => ?_, fun hu hp => ?_⟩
  · have hnp : (E.IpcIoPopInt32 (E.IpcIoPopInt32 req).2).1 ≠ D.CHANNEL_TYPE_PROXY := by
      rw [hu]; exact fun e => hne e.symm
    simp only [ServerCloseChannel, closeChannelChecked, if_neg hnp, if_pos hu]
    split_ifs <;> simp [ServerCall.isProxyResolver]
  · simp only [ServerCloseChannel, closeChannelChecked, if_pos hp]
    split_ifs <;> simp [ServerCall.isUdpResolver]
  · simp [ServerCloseChannel, if_neg hp, if_neg hu]

/-- C9, as the code has it. Each of the five privileged handlers, called with a non-null
request and a non-null reply, writes exactly one result code to the reply, and that code is the
value the handler returns, whatever the decoded fields and whatever the lookup, the permission
check and the transport call return.  Called with a null request, or with a null reply, each of
the five returns `SOFTBUS_INVALID_PARAM`, makes no call at all (so writes nothing to the reply)
and leaves the state as it was. -/
theorem one_reply_per_request (h : Handler) (D : SoftbusDef) (E : ServerEnv ο ρ σ) (w : σ)
    (origin : ο) :
    (∀ req : ρ, replyWrites (h.run D E w origin (some req) true).log =
        [(h.run D E w origin (some req) true).ret]) ∧
      (∀ reply : Bool,
        (h.run D E w origin none reply).ret = D.SOFTBUS_INVALID_PARAM ∧
          (h.run D E w origin none reply).log = [] ∧
          (h.run D E w origin none reply).world = w) ∧
      (∀ req : Option ρ,
        (h.run D E w origin req false).ret = D.SOFTBUS_INVALID_PARAM ∧
          (h.run D E w origin req false).log = [] ∧
          (h.run D E w origin req false).world = w) := by
  refine ⟨fun req => ?_, fun reply => ?_, fun req => ?_⟩
  · cases h <;>
      simp only [Handler.run, ServerCreateSessionServer, ServerRemoveSessionServer,
        ServerOpenSession, ServerCloseChannel, ServerSendSessionMsg, closeChannelChecked] <;>
      split_ifs <;>
      simp [replyWrites]
  · cases h <;> cases reply <;>
      simp [Handler.run, ServerCreateSessionServer, ServerRemoveSessionServer,
        ServerOpenSession, ServerCloseChannel, ServerSendSessionMsg]
  · cases h <;> cases req <;>
      simp [Handler.run, ServerCreateSessionServer, ServerRemoveSessionServer,
        ServerOpenSession, ServerCloseChannel, ServerSendSessionMsg]

/-- Counterexample to C9 as stated: with a null request and a non-null reply,
`ServerCreateSessionServer` returns `SOFTBUS_INVALID_PARAM` and writes nothing to the reply. -/
theorem null_request_writes_no_reply :
    (Handler.createSessionServer.run sampleDef sampleServerEnv 0 (1000, 1) none true).ret =
        sampleDef.SOFTBUS_INVALID_PARAM ∧
      replyWrites
        (Handler.createSessionServer.run sampleDef sampleServerEnv 0 (1000, 1) none true).log =
        [] ∧
      replyWrites
        (Handler.createSessionServer.run sampleDef sampleServerEnv 0 (1000, 1) none true).log ≠
        [(Handler.createSessionServer.run sampleDef sampleServerEnv 0 (1000, 1) none true).ret] := by
  decide

/-- C10, as the code has it. In each of the five privileged handlers, a name lookup
(`TransGetPkgNameBySessionName`, `TransProxyGetNameByChanId`, `TransUdpGetNameByChanId`) that
returns anything other than `SOFTBUS_OK` makes the handler return with neither
`CheckTransPermission` nor a mutating transport-manager call made.  What the request decodes to
is not tested: called with a non-null request and reply, each handler makes its first call with
the values the pops returned, whatever they are (a `NULL` string included).  That first call is
`CheckTransPermission` on the two popped names in `ServerCreateSessionServer` and
`ServerRemoveSessionServer`, `TransGetPkgNameBySessionName` on the first popped string in
`ServerOpenSession`, `TransProxyGetNameByChanId` on the first popped number in
`ServerSendSessionMsg`, and in `ServerCloseChannel` the resolver that the second popped number
selects, on the first popped number. -/
theorem lookup_failure_short_circuits (D : SoftbusDef) (E : ServerEnv ο ρ σ) (w : σ)
    (origin : ο) :
    (∀ (h : Handler) (req : Option ρ) (reply : Bool),
        (∃ c ∈ (h.run D E w origin req reply).log, c.isLookupFailure D = true) →
        ∀ c ∈ (h.run D E w origin req reply).log,
          c.isPermissionCheck = false ∧ c.isMutating = false) ∧
      (∀ req : ρ,
        (ServerCreateSessionServer D E w origin (some req) true).log.head? =
          some (ServerCall.CheckTransPermission (E.GetCallingUid origin) (E.GetCallingPid origin)
            (E.IpcIoPopString req).1 (E.IpcIoPopString (E.IpcIoPopString req).2).1
            D.ACTION_CREATE
            (E.CheckTransPermission w (E.GetCallingUid origin) (E.GetCallingPid origin)
              (E.IpcIoPopString req).1 (E.IpcIoPopString (E.IpcIoPopString req).2).1
              D.ACTION_CREATE).1)) ∧
      (∀ req : ρ,
        (ServerRemoveSessionServer D E w origin (some req) true).log.head? =
          some (ServerCall.CheckTransPermission (E.GetCallingUid origin) (E.GetCallingPid origin)
            (E.IpcIoPopString req).1 (E.IpcIoPopString (E.IpcIoPopString req).2).1
            D.ACTION_CREATE
            (E.CheckTransPermission w (E.GetCallingUid origin) (E.GetCallingPid origin)
              (E.IpcIoPopString req).1 (E.IpcIoPopString (E.IpcIoPopString req).2).1
              D.ACTION_CREATE).1)) ∧
      (∀ req : ρ,
        (ServerOpenSession D E w origin (some req) true).log.head? =
          some (ServerCall.TransGetPkgNameBySessionName (E.IpcIoPopString req).1
            (E.TransGetPkgNameBySessionName w (E.IpcIoPopString req).1).1.1)) ∧
      (∀ req : ρ,
        (ServerSendSessionMsg D E w origin (some req) true).log.head? =
          some (ServerCall.TransProxyGetNameByChanId (E.IpcIoPopInt32 req).1
            (E.TransProxyGetNameByChanId w (E.IpcIoPopInt32 req).1).1.1)) ∧
      (∀ req : ρ,
        (ServerCloseChannel D E w origin (some req) true).log.head? =
          some (if (E.IpcIoPopInt32 (E.IpcIoPopInt32 req).2).1 = D.CHANNEL_TYPE_PROXY then
              ServerCall.TransProxyGetNameByChanId (E.IpcIoPopInt32 req).1
                (E.TransProxyGetNameByChanId w (E.IpcIoPopInt32 req).1).1.1
            else if (E.IpcIoPopInt32 (E.IpcIoPopInt32 req).2).1 = D.CHANNEL_TYPE_UDP then
              ServerCall.TransUdpGetNameByChanId (E.IpcIoPopInt32 req).1
                (E.TransUdpGetNameByChanId w (E.IpcIoPopInt32 req).1).1.1
            else ServerCall.IpcIoPushInt32 D.SOFTBUS_TRANS_INVALID_CLOSE_CHANNEL_ID)) := by
  refine ⟨fun h req reply hfail => ?_, fun req => ?_, fun req => ?_, fun req => ?_,
    fun req => ?_, fun req => ?_⟩
  · revert hfail
    rcases req with _ | r <;> rcases reply with _ | _ <;> cases h <;>
      simp only [Handler.run, ServerCreateSessionServer, ServerRemoveSessionServer,
        ServerOpenSession, ServerCloseChannel, ServerSendSessionMsg, closeChannelChecked] <;>
      intro hfail <;>
      (try split_ifs at hfail ⊢) <;>
      simp_all [ServerCall.isLookupFailure, ServerCall.isPermissionCheck, ServerCall.isMutating]
  · simp only [ServerCreateSessionServer]
    split_ifs <;> simp
  · simp only [ServerRemoveSessionServer]
    split_ifs <;> simp
  · simp only [ServerOpenSession]
    split_ifs <;> simp
  · simp only [ServerSendSessionMsg]
    split_ifs <;> simp
  · simp only [ServerCloseChannel, closeChannelChecked]
    split_ifs <;> simp

/-- Witness of C10 as amended: on the sample callees, a send request for the unknown channel
`8` fails its lookup, and the handler makes neither the permission check nor a mutating
call. -/
theorem lookup_failure_short_circuits_witness :
    (∃ c ∈ (Handler.sendSessionMsg.run sampleDef sampleServerEnv 0 (1000, 1)
        (some [IpcItem.int32 8, IpcItem.int32 0, IpcItem.flat [1, 2]]) true).log,
        c.isLookupFailure sampleDef = true) ∧
      ∀ c ∈ (Handler.sendSessionMsg.run sampleDef sampleServerEnv 0 (1000, 1)
        (some [IpcItem.int32 8, IpcItem.int32 0, IpcItem.flat [1, 2]]) true).log,
        c.isPermissionCheck = false ∧ c.isMutating = false :=
  ⟨by decide,
    (lookup_failure_short_circuits sampleDef sampleServerEnv 0 (1000, 1)).1
      Handler.sendSessionMsg
      (some [IpcItem.int32 8, IpcItem.int32 0, IpcItem.flat [1, 2]]) true (by decide)⟩

/-- Counterexample to C10 as stated: a create request that carries no strings makes both
`IpcIoPopString` calls yield `NULL`, and `ServerCreateSessionServer` still invokes
`CheckTransPermission` and then `TransCreateSessionServer`, with `NULL` names. -/
theorem decode_failure_reaches_permission_check :
    (sampleServerEnv.IpcIoPopString []).1 = none ∧
      (Handler.createSessionServer.run sampleDef sampleServerEnv 0 (1000, 1) (some []) true).log =
        [ServerCall.CheckTransPermission 1000 1 none none 1 0,
          ServerCall.TransCreateSessionServer none none 1000 1 0,
          ServerCall.IpcIoPushInt32 0] := by
  decide

/-! ## Theorems: the session service -/

/-- C6. For every valid (pkgName, sessionName), `RemoveSessionServer` first makes the remote
remove call `ServerIpcRemoveSessionServer`.  If that call does not return `SOFTBUS_OK`,
`RemoveSessionServer` returns the remote error, the local registry is unchanged and
`ClientDeleteSessionServer` is not called.  If it returns `SOFTBUS_OK`, the local entry is
removed after it: the registry is the one `ClientDeleteSessionServer` leaves. -/
theorem remove_session_server_remote_first (D : SoftbusDef) (M : SessionMgr σ ω)
    (E : ClientEnv ω) (reg : σ) (remote : ω) (pkgName sessionName : Option String)
    (hpkg : E.IsValidString pkgName D.PKG_NAME_SIZE_MAX = true)
    (hname : E.IsValidString sessionName D.SESSION_NAME_SIZE_MAX = true) :
    (RemoveSessionServer D M E reg remote pkgName sessionName).log.head? =
        some (ClientCall.ServerIpcRemoveSessionServer pkgName sessionName
          (E.ServerIpcRemoveSessionServer remote pkgName sessionName).1) ∧
      ((E.ServerIpcRemoveSessionServer remote pkgName sessionName).1 ≠ D.SOFTBUS_OK →
        (RemoveSessionServer D M E reg remote pkgName sessionName).ret =
          (E.ServerIpcRemoveSessionServer remote pkgName sessionName).1 ∧
        (RemoveSessionServer D M E reg remote pkgName sessionName).reg = reg ∧
        ∀ c ∈ (RemoveSessionServer D M E reg remote pkgName sessionName).log,
          c.isDeleteSessionServer = false) ∧
      ((E.ServerIpcRemoveSessionServer remote pkgName sessionName).1 = D.SOFTBUS_OK →
        (RemoveSessionServer D M E reg remote pkgName sessionName).log =
          [ClientCall.ServerIpcRemoveSessionServer pkgName sessionName D.SOFTBUS_OK,
            ClientCall.ClientDeleteSessionServer D.SEC_TYPE_CIPHERTEXT sessionName
              (M.ClientDeleteSessionServer reg D.SEC_TYPE_CIPHERTEXT sessionName).1] ∧
        (RemoveSessionServer D M E reg remote pkgName sessionName).reg =
          (M.ClientDeleteSessionServer reg D.SEC_TYPE_CIPHERTEXT sessionName).2) := by
  refine ⟨?_, fun hne => ?_, fun hok => ?_⟩
  · simp only [RemoveSessionServer, hpkg, hname]
    split_ifs <;> simp_all
  · simp [RemoveSessionServer, hpkg, hname, hne, ClientCall.isDeleteSessionServer]
  · simp [RemoveSessionServer, hpkg, hname, hok]

/-- Witness of C6: on the sample callees with a failing remote remove (`-1`), removing the
registered `svcA` leaves the registry untouched. -/
theorem remove_session_server_remote_first_witness :
    (RemoveSessionServer sampleDef (specMgr sampleDef (sampleClientEnv 0 (-1) 0).IsValidString)
        (sampleClientEnv 0 (-1) 0) (sampleRegistry 0) 0 (some "pkgA") (some "svcA")).ret = -1 ∧
      (RemoveSessionServer sampleDef (specMgr sampleDef (sampleClientEnv 0 (-1) 0).IsValidString)
        (sampleClientEnv 0 (-1) 0) (sampleRegistry 0) 0 (some "pkgA") (some "svcA")).reg =
        sampleRegistry 0 :=
  ⟨((remove_session_server_remote_first sampleDef
      (specMgr sampleDef (sampleClientEnv 0 (-1) 0).IsValidString) (sampleClientEnv 0 (-1) 0)
      (sampleRegistry 0) 0 (some "pkgA") (some "svcA") (by decide) (by decide)).2.1
      (by decide)).1,
    ((remove_session_server_remote_first sampleDef
      (specMgr sampleDef (sampleClientEnv 0 (-1) 0).IsValidString) (sampleClientEnv 0 (-1) 0)
      (sampleRegistry 0) 0 (some "pkgA") (some "svcA") (by decide) (by decide)).2.1
      (by decide)).2.1⟩

/-- C7. For every valid (pkgName, sessionName, listener) for which `InitSoftBus`,
`CheckPackageName` and the local registration `ClientAddSessionServer` succeed: if the remote
create call `ServerIpcCreateSessionServer` returns `SOFTBUS_SERVER_NAME_REPEATED`,
`CreateSessionServer` returns `SOFTBUS_OK`, the registry is the one `ClientAddSessionServer`
left, and `ClientDeleteSessionServer` is not called. -/
theorem create_session_server_remote_repeated (D : SoftbusDef) (M : SessionMgr σ ω)
    (E : ClientEnv ω) (reg : σ) (remote : ω) (pkgName sessionName : Option String)
    (listener : Option (ISessionListener ω))
    (hpkg : E.IsValidString pkgName D.PKG_NAME_SIZE_MAX = true)
    (hname : E.IsValidString sessionName D.SESSION_NAME_SIZE_MAX = true)
    (hlis : IsValidListener listener = true)
    (hinit : (E.InitSoftBus remote pkgName).1 = D.SOFTBUS_OK)
    (hchk : (E.CheckPackageName (E.InitSoftBus remote pkgName).2 pkgName).1 = D.SOFTBUS_OK)
    (hadd : (M.ClientAddSessionServer reg D.SEC_TYPE_CIPHERTEXT pkgName sessionName listener).1 =
      D.SOFTBUS_OK)
    (hrep : (E.ServerIpcCreateSessionServer
      (E.CheckPackageName (E.InitSoftBus remote pkgName).2 pkgName).2 pkgName sessionName).1 =
      D.SOFTBUS_SERVER_NAME_REPEATED) :
    (CreateSessionServer D M E reg remote pkgName sessionName listener).ret = D.SOFTBUS_OK ∧
      (CreateSessionServer D M E reg remote pkgName sessionName listener).reg =
        (M.ClientAddSessionServer reg D.SEC_TYPE_CIPHERTEXT pkgName sessionName listener).2 ∧
      ∀ c ∈ (CreateSessionServer D M E reg remote pkgName sessionName listener).log,
        c.isDeleteSessionServer = false := by
  simp [CreateSessionServer, hpkg, hname, hlis, hinit, hchk, hadd, hrep,
    ClientCall.isDeleteSessionServer]

/-- Witness of C7: on the sample callees with a remote create that reports
`SOFTBUS_SERVER_NAME_REPEATED` (`-5`), creating `svcA` succeeds and keeps the registration. -/
theorem create_session_server_remote_repeated_witness :
    (CreateSessionServer sampleDef (specMgr sampleDef (sampleClientEnv (-5) 0 0).IsValidString)
        (sampleClientEnv (-5) 0 0) emptyRegistry 0 (some "pkgA") (some "svcA")
        (some (sampleListener 0))).ret = 0 ∧
      (CreateSessionServer sampleDef (specMgr sampleDef (sampleClientEnv (-5) 0 0).IsValidString)
        (sampleClientEnv (-5) 0 0) emptyRegistry 0 (some "pkgA") (some "svcA")
        (some (sampleListener 0))).reg =
        (specAddSessionServer sampleDef (sampleClientEnv (-5) 0 0).IsValidString emptyRegistry 1
          (some "pkgA") (some "svcA") (some (sampleListener 0))).2 :=
  ⟨(create_session_server_remote_repeated sampleDef
      (specMgr sampleDef (sampleClientEnv (-5) 0 0).IsValidString) (sampleClientEnv (-5) 0 0)
      emptyRegistry 0 (some "pkgA") (some "svcA") (some (sampleListener 0)) (by decide)
      (by decide) (by decide) (by decide) (by decide) (by decide) (by decide)).1,
    (create_session_server_remote_repeated sampleDef
      (specMgr sampleDef (sampleClientEnv (-5) 0 0).IsValidString) (sampleClientEnv (-5) 0 0)
      emptyRegistry 0 (some "pkgA") (some "svcA") (some (sampleListener 0)) (by decide)
      (by decide) (by decide) (by decide) (by decide) (by decide) (by decide)).2.1⟩

/-! ### Lemmas on the modelled registry -/

/-- No session with the given id is found once the sessions with that id are filtered out. -/
theorem findSession_filter_ne (D : SoftbusDef) (servers : List (SessionServerEntry ω))
    (sessions : List Session) (sessionId : Int) :
    findSession D ⟨servers, sessions.filter fun s => decide (s.sessionId ≠ sessionId)⟩
      sessionId = none := by
  unfold findSession
  split_ifs
  · rw [List.find?_eq_none]
    intro x hx
    simp only [List.mem_filter, decide_eq_true_eq] at hx
    simpa using hx.2
  · rfl

/-- After `DeleteSession`, no session with that id is found. -/
theorem findSession_specDeleteSession (D : SoftbusDef) (reg : SessionRegistry ω)
    (sessionId : Int) : findSession D (specDeleteSession D reg sessionId).2 sessionId = none := by
  unfold specDeleteSession
  cases hf : findSession D reg sessionId with
  | none => simpa using hf
  | some s => simpa using findSession_filter_ne D reg.servers reg.sessions sessionId

/-- Adding a session server under a name that was not registered and deleting it again gives
the registry back. -/
theorem specDelete_specAdd_server (D : SoftbusDef) (V : Option String → Nat → Bool)
    (reg : SessionRegistry ω) (t1 t2 : Int) (pkgName sessionName : Option String)
    (listener : Option (ISessionListener ω))
    (hnew : ∀ x ∈ reg.servers, some x.sessionName ≠ sessionName) :
    (specDeleteSessionServer D (specAddSessionServer D V reg t1 pkgName sessionName listener).2
      t2 sessionName).2 = reg := by
  have hdel : (specDeleteSessionServer D reg t2 sessionName).2 = reg := by
    unfold specDeleteSessionServer
    cases sessionName with
    | none => rfl
    | some n =>
      have : (reg.servers.any fun e => decide (e.sessionName = n)) = false := by
        rw [List.any_eq_false]
        intro x hx
        have := hnew x hx
        simpa using this
      simp [this]
  rcases pkgName with _ | p <;> rcases sessionName with _ | n <;> rcases listener with _ | l <;>
    try (simpa [specAddSessionServer] using hdel)
  unfold specAddSessionServer
  simp only
  split_ifs
  · exact hdel
  · exact hdel
  · have hfil : (reg.servers.filter fun e => decide (e.sessionName ≠ n)) = reg.servers := by
      rw [List.filter_eq_self]
      intro x hx
      have := hnew x hx
      simpa using this
    have hfil2 : (reg.servers.filter fun e => !decide (e.sessionName = n)) = reg.servers := by
      simpa using hfil
    simp [specDeleteSessionServer, hfil2]

/-- C5. On the modelled registry, for a sessionName that is not yet registered locally: if the
remote create call `ServerIpcCreateSessionServer` is reached (so the arguments were valid and
`ClientAddSessionServer` went through) and returns an error `e` other than
`SOFTBUS_SERVER_NAME_REPEATED`, then `CreateSessionServer` returns `e`, calls
`ClientDeleteSessionServer`, and the registry equals its state before the call, so it holds no
entry for sessionName. -/
theorem create_session_server_rolls_back (D : SoftbusDef) (E : ClientEnv ω)
    (reg : SessionRegistry ω) (remote : ω) (pkgName sessionName : Option String)
    (listener : Option (ISessionListener ω)) (e : Int)
    (hnew : ∀ x ∈ reg.servers, some x.sessionName ≠ sessionName)
    (hcall : ClientCall.ServerIpcCreateSessionServer pkgName sessionName e ∈
      (CreateSessionServer D (specMgr D E.IsValidString) E reg remote pkgName sessionName
        listener).log)
    (hok : e ≠ D.SOFTBUS_OK) (hrep : e ≠ D.SOFTBUS_SERVER_NAME_REPEATED) :
    (CreateSessionServer D (specMgr D E.IsValidString) E reg remote pkgName sessionName
        listener).ret = e ∧
      (CreateSessionServer D (specMgr D E.IsValidString) E reg remote pkgName sessionName
        listener).reg = reg ∧
      (∀ x ∈ (CreateSessionServer D (specMgr D E.IsValidString) E reg remote pkgName sessionName
        listener).reg.servers, some x.sessionName ≠ sessionName) ∧
      ∃ r, ClientCall.ClientDeleteSessionServer D.SEC_TYPE_CIPHERTEXT sessionName r ∈
        (CreateSessionServer D (specMgr D E.IsValidString) E reg remote pkgName sessionName
          listener).log := by
  have hroll := specDelete_specAdd_server D E.IsValidString reg D.SEC_TYPE_CIPHERTEXT
    D.SEC_TYPE_CIPHERTEXT pkgName sessionName listener hnew
  simp only [CreateSessionServer, specMgr] at hcall ⊢
  split_ifs at hcall ⊢ <;> simp_all

/-- Witness of C5: on the sample callees with a failing remote create (`-1`), creating `svcA`
on the empty registry returns `-1` and leaves the registry empty. -/
theorem create_session_server_rolls_back_witness :
    (CreateSessionServer sampleDef (specMgr sampleDef (sampleClientEnv (-1) 0 0).IsValidString)
        (sampleClientEnv (-1) 0 0) emptyRegistry 0 (some "pkgA") (some "svcA")
        (some (sampleListener 0))).ret = -1 ∧
      (CreateSessionServer sampleDef (specMgr sampleDef (sampleClientEnv (-1) 0 0).IsValidString)
        (sampleClientEnv (-1) 0 0) emptyRegistry 0 (some "pkgA") (some "svcA")
        (some (sampleListener 0))).reg = emptyRegistry :=
  ⟨(create_session_server_rolls_back sampleDef (sampleClientEnv (-1) 0 0) emptyRegistry 0
      (some "pkgA") (some "svcA") (some (sampleListener 0)) (-1) (by decide) (by decide)
      (by decide) (by decide)).1,
    (create_session_server_rolls_back sampleDef (sampleClientEnv (-1) 0 0) emptyRegistry 0
      (some "pkgA") (some "svcA") (some (sampleListener 0)) (-1) (by decide) (by decide)
      (by decide) (by decide)).2.1⟩

/-- `GetChannelBySessionId` is a read accessor: it leaves the registry as it is. -/
theorem specGetChannelBySessionId_reg (D : SoftbusDef) (reg : SessionRegistry ω)
    (sessionId channelId type : Int) :
    (specGetChannelBySessionId D reg sessionId channelId type).2 = reg := by
  unfold specGetChannelBySessionId
  cases findSession D reg sessionId with
  | none => rfl
  | some s => cases h : s.channelBinding <;> simp [h]

/-- `GetChannelBySessionId` reports `SOFTBUS_NOT_FIND` when no session has the id. -/
theorem specGetChannelBySessionId_none (D : SoftbusDef) (reg : SessionRegistry ω)
    (sessionId channelId type : Int) (h : findSession D reg sessionId = none) :
    (specGetChannelBySessionId D reg sessionId channelId type).1.1 = D.SOFTBUS_NOT_FIND := by
  unfold specGetChannelBySessionId
  rw [h]

/-- `GetChannelBySessionId` reports `SOFTBUS_OK` when a session has the id. -/
theorem specGetChannelBySessionId_some (D : SoftbusDef) (reg : SessionRegistry ω)
    (sessionId channelId type : Int) (s : Session) (h : findSession D reg sessionId = some s) :
    (specGetChannelBySessionId D reg sessionId channelId type).1.1 = D.SOFTBUS_OK := by
  unfold specGetChannelBySessionId
  rw [h]
  cases hb : s.channelBinding <;> simp [hb]

/-- C4. On the modelled registry, for every session id and every registry state: after
`CloseSession(sessionId)` the lookup `ClientGetChannelBySessionId(sessionId)` reports
`SOFTBUS_NOT_FIND` (no session with that id is left), whatever the remote close call
`ClientTransCloseChannel` returned; and when the id is valid and the binding was looked up
successfully, `CloseSession` calls `ClientDeleteSession` and leaves the registry that
`ClientDeleteSession` produces. -/
theorem close_session_unbinds (D : SoftbusDef) (E : ClientEnv ω) (reg : SessionRegistry ω)
    (remote : ω) (sessionId channelId type : Int) :
    ((specMgr D E.IsValidString).ClientGetChannelBySessionId
        (CloseSession D (specMgr D E.IsValidString) E reg remote sessionId).reg
        sessionId channelId type).1.1 = D.SOFTBUS_NOT_FIND ∧
      findSession D (CloseSession D (specMgr D E.IsValidString) E reg remote sessionId).reg
        sessionId = none ∧
      (IsValidSessionId D sessionId = true →
        (specGetChannelBySessionId D reg sessionId D.INVALID_CHANNEL_ID
          D.CHANNEL_TYPE_BUTT).1.1 = D.SOFTBUS_OK →
        (CloseSession D (specMgr D E.IsValidString) E reg remote sessionId).reg =
            (specDeleteSession D reg sessionId).2 ∧
          ClientCall.ClientDeleteSession sessionId (specDeleteSession D reg sessionId).1 ∈
            (CloseSession D (specMgr D E.IsValidString) E reg remote sessionId).log) := by
  have key : findSession D
      (CloseSession D (specMgr D E.IsValidString) E reg remote sessionId).reg sessionId =
      none := by
    simp only [CloseSession, specMgr]
    split_ifs with hv hg
    · simp [findSession, hv]
    · rw [specGetChannelBySessionId_reg]
      cases hf : findSession D reg sessionId with
      | none => rfl
      | some s => exact absurd (specGetChannelBySessionId_some D reg sessionId _ _ s hf) hg
    · rw [specGetChannelBySessionId_reg]
      exact findSession_specDeleteSession D reg sessionId
  refine ⟨?_, key, fun hv hg => ?_⟩
  · exact specGetChannelBySessionId_none D _ sessionId channelId type key
  · simp [CloseSession, specMgr, hv, hg, specGetChannelBySessionId_reg]

/-- Witness of C4: on the sample callees with a failing remote close (`-1`), closing the bound
session `3` still removes it: the lookup succeeds before and reports `SOFTBUS_NOT_FIND`
after. -/
theorem close_session_unbinds_witness :
    (specGetChannelBySessionId sampleDef boundRegistry 3 (-1) 3).1 = (0, 42, 1) ∧
      ((sampleClientEnv 0 0 (-1)).ClientTransCloseChannel 0 42 1).1 = -1 ∧
      ((specMgr sampleDef (sampleClientEnv 0 0 (-1)).IsValidString).ClientGetChannelBySessionId
        (CloseSession sampleDef (specMgr sampleDef (sampleClientEnv 0 0 (-1)).IsValidString)
          (sampleClientEnv 0 0 (-1)) boundRegistry 0 3).reg 3 (-1) 3).1.1 =
        sampleDef.SOFTBUS_NOT_FIND :=
  ⟨by decide, by decide,
    (close_session_unbinds sampleDef (sampleClientEnv 0 0 (-1)) boundRegistry 0 3 (-1) 3).1⟩

/-- A freshly allocated session id lies in the valid range. -/
theorem allocSessionId_valid (D : SoftbusDef) (reg : SessionRegistry ω) (n : Int)
    (h : allocSessionId D reg = some n) : IsValidSessionId D n = true := by
  unfold allocSessionId at h
  have hmem := List.mem_of_find?_eq_some h
  simp only [List.mem_map, List.mem_range] at hmem
  obtain ⟨k, hk, rfl⟩ := hmem
  unfold IsValidSessionId
  rw [if_neg]
  simp only [Int.ofNat_eq_coe]
  omega

/-- The accessor of the stored listener leaves the registry as it is. -/
theorem specGetSessionCallbackById_reg (D : SoftbusDef) (reg : SessionRegistry ω)
    (sessionId : Int) (l : ISessionListener ω) :
    (specGetSessionCallbackById D reg sessionId l).2 = reg := by
  unfold specGetSessionCallbackById
  cases findSession D reg sessionId with
  | none => rfl
  | some s =>
    cases h : reg.servers.find? fun e => decide (e.sessionName = s.localSessionName) <;>
      simp [h]

/-- `CloseSession` does not make the remote open call. -/
theorem CloseSession_no_remote_open (D : SoftbusDef) (M : SessionMgr σ ω) (E : ClientEnv ω)
    (reg : σ) (remote : ω) (sessionId : Int) :
    ∀ c ∈ (CloseSession D M E reg remote sessionId).log, c.isRemoteOpen = false := by
  simp only [CloseSession]
  split_ifs <;> simp [ClientCall.isRemoteOpen]

/-- `OpenSessionWithExistSession` does not make the remote open call. -/
theorem OpenSessionWithExistSession_no_remote_open (D : SoftbusDef) (M : SessionMgr σ ω)
    (E : ClientEnv ω) (A : App σ ω) (reg : σ) (remote : ω) (sessionId : Int)
    (isEnabled : Bool) :
    ∀ c ∈ (OpenSessionWithExistSession D M E A reg remote sessionId isEnabled).log,
      c.isRemoteOpen = false := by
  intro c hc
  simp only [OpenSessionWithExistSession] at hc
  split_ifs at hc with hen hg
  · simp at hc
  · simp only [List.mem_singleton] at hc
    subst hc
    rfl
  · cases hcb : (M.ClientGetSessionCallbackById reg sessionId zeroListener).1.2.OnSessionOpened with
    | none =>
      simp only [hcb, List.mem_append, List.mem_singleton] at hc
      rcases hc with hc | hc
      · subst hc; rfl
      · exact CloseSession_no_remote_open D M E _ _ _ c hc
    | some p =>
      simp only [hcb] at hc
      split_ifs at hc
      · simp only [List.mem_append, List.mem_singleton, List.mem_cons, List.mem_nil_iff,
          or_false] at hc
        rcases hc with (hc | hc) | hc
        · subst hc; rfl
        · subst hc; rfl
        · exact CloseSession_no_remote_open D M E _ _ _ c hc
      · simp only [List.mem_append, List.mem_singleton, List.mem_cons, List.mem_nil_iff,
          or_false] at hc
        rcases hc with hc | hc
        · subst hc; rfl
        · subst hc; rfl

/-- `OpenSessionWithExistSession` on the modelled registry returns the session id it was given
when the channel is not yet bound, or no listener is found, or the listener found has an
`OnSessionOpened` that returns `0`. -/
theorem OpenSessionWithExistSession_accept (D : SoftbusDef) (V : Option String → Nat → Bool)
    (E : ClientEnv ω) (A : App (SessionRegistry ω) ω) (reg : SessionRegistry ω) (remote : ω)
    (sessionId : Int) (isEnabled : Bool)
    (hcb : isEnabled = true → ∀ l,
      (specGetSessionCallbackById D reg sessionId zeroListener).1 = (D.SOFTBUS_OK, l) →
      ∃ p, l.OnSessionOpened = some p ∧
        (A.OnSessionOpened p reg remote sessionId D.SOFTBUS_OK).1 = 0) :
    (OpenSessionWithExistSession D (specMgr D V) E A reg remote sessionId isEnabled).ret =
      sessionId := by
  simp only [OpenSessionWithExistSession, specMgr, specGetSessionCallbackById_reg]
  split_ifs with hen hg
  · rfl
  · rfl
  · have hen2 : isEnabled = true := by simpa using hen
    have hOK : (specGetSessionCallbackById D reg sessionId zeroListener).1.1 = D.SOFTBUS_OK := by
      simpa using hg
    obtain ⟨p, hp, hz⟩ := hcb hen2 (specGetSessionCallbackById D reg sessionId zeroListener).1.2
      (Prod.ext hOK rfl)
    simp [hp, hz]

/-- `OpenSessionWithExistSession` on the modelled registry, for a session whose channel is
bound and whose listener is found: when the listener has a `NULL` `OnSessionOpened`, or one
that returns something other than `0`, the function returns `INVALID_SESSION_ID`. -/
theorem OpenSessionWithExistSession_reject (D : SoftbusDef) (V : Option String → Nat → Bool)
    (E : ClientEnv ω) (A : App (SessionRegistry ω) ω) (reg : SessionRegistry ω) (remote : ω)
    (sessionId : Int) (l : ISessionListener ω)
    (hl : (specGetSessionCallbackById D reg sessionId zeroListener).1 = (D.SOFTBUS_OK, l))
    (hrej : l.OnSessionOpened = none ∨ ∃ p, l.OnSessionOpened = some p ∧
      (A.OnSessionOpened p reg remote sessionId D.SOFTBUS_OK).1 ≠ 0) :
    (OpenSessionWithExistSession D (specMgr D V) E A reg remote sessionId true).ret =
      D.INVALID_SESSION_ID := by
  have h1 : (specGetSessionCallbackById D reg sessionId zeroListener).1.1 = D.SOFTBUS_OK := by
    rw [hl]
  have h2 : (specGetSessionCallbackById D reg sessionId zeroListener).1.2 = l := by
    rw [hl]
  simp only [OpenSessionWithExistSession, specMgr, specGetSessionCallbackById_reg, h1, h2]
  rcases hrej with hn | ⟨p, hp, hnz⟩
  · simp [hn]
  · simp [hp, hnz]

/-- `OpenSessionWithExistSession` on the modelled registry leaves the registry as it is unless
it returns `INVALID_SESSION_ID`, when the `OnSessionOpened` functions of the application do. -/
theorem OpenSessionWithExistSession_reg (D : SoftbusDef) (V : Option String → Nat → Bool)
    (E : ClientEnv ω) (A : App (SessionRegistry ω) ω) (reg : SessionRegistry ω) (remote : ω)
    (sessionId : Int) (isEnabled : Bool)
    (hA : ∀ p, (A.OnSessionOpened p reg remote sessionId D.SOFTBUS_OK).2.1 = reg)
    (h : (OpenSessionWithExistSession D (specMgr D V) E A reg remote sessionId isEnabled).ret ≠
      D.INVALID_SESSION_ID) :
    (OpenSessionWithExistSession D (specMgr D V) E A reg remote sessionId isEnabled).reg =
      reg := by
  simp only [OpenSessionWithExistSession, specMgr, specGetSessionCallbackById_reg] at h ⊢
  split_ifs at h ⊢ with hen hg
  · rfl
  · rfl
  · cases hcb : (specGetSessionCallbackById D reg sessionId zeroListener).1.2.OnSessionOpened with
    | none =>
      simp only [hcb] at h
      exact absurd rfl h
    | some p =>
      simp only [hcb] at h ⊢
      split_ifs at h ⊢
      · exact absurd rfl h
      · exact hA p

/-- `OpenSessionWithExistSession` returns the session id it was given or
`INVALID_SESSION_ID`. -/
theorem OpenSessionWithExistSession_ret (D : SoftbusDef) (M : SessionMgr σ ω) (E : ClientEnv ω)
    (A : App σ ω) (reg : σ) (remote : ω) (sessionId : Int) (isEnabled : Bool) :
    (OpenSessionWithExistSession D M E A reg remote sessionId isEnabled).ret = sessionId ∨
      (OpenSessionWithExistSession D M E A reg remote sessionId isEnabled).ret =
        D.INVALID_SESSION_ID := by
  simp only [OpenSessionWithExistSession]
  split_ifs with hen hg
  · exact Or.inl rfl
  · exact Or.inl rfl
  · cases hcb : (M.ClientGetSessionCallbackById reg sessionId zeroListener).1.2.OnSessionOpened with
    | none => exact Or.inr rfl
    | some p =>
      simp only []
      split_ifs
      · exact Or.inr rfl
      · exact Or.inl rfl

/-- `OpenSession` when `ClientAddSession` fails with an error other than
`SOFTBUS_TRANS_SESSION_REPEATED`: the error is returned and nothing else is called. -/
theorem OpenSession_add_error (D : SoftbusDef) (M : SessionMgr σ ω) (E : ClientEnv ω)
    (A : App σ ω) (reg : σ) (remote : ω) (my peer dev grp : Option String)
    (attr : Option SessionAttribute)
    (hchk : CheckParamIsValid D E my peer dev grp attr = D.SOFTBUS_OK)
    (hne : (M.ClientAddSession reg ⟨my, peer, dev, grp, attr⟩ D.INVALID_SESSION_ID false).1.1 ≠
      D.SOFTBUS_OK)
    (hrep : (M.ClientAddSession reg ⟨my, peer, dev, grp, attr⟩ D.INVALID_SESSION_ID false).1.1 ≠
      D.SOFTBUS_TRANS_SESSION_REPEATED) :
    (OpenSession D M E A reg remote my peer dev grp attr).ret =
        (M.ClientAddSession reg ⟨my, peer, dev, grp, attr⟩ D.INVALID_SESSION_ID false).1.1 ∧
      (OpenSession D M E A reg remote my peer dev grp attr).reg =
        (M.ClientAddSession reg ⟨my, peer, dev, grp, attr⟩ D.INVALID_SESSION_ID false).2 ∧
      (OpenSession D M E A reg remote my peer dev grp attr).remote = remote ∧
      ∀ c ∈ (OpenSession D M E A reg remote my peer dev grp attr).log,
        c.isRemoteOpen = false := by
  simp [OpenSession, hchk, hne, hrep, ClientCall.isRemoteOpen]

/-- `OpenSession` when `ClientAddSession` reports `SOFTBUS_TRANS_SESSION_REPEATED`: the rest
is `OpenSessionWithExistSession`, and the remote open is not called. -/
theorem OpenSession_repeated (D : SoftbusDef) (M : SessionMgr σ ω) (E : ClientEnv ω)
    (A : App σ ω) (reg : σ) (remote : ω) (my peer dev grp : Option String)
    (attr : Option SessionAttribute)
    (hchk : CheckParamIsValid D E my peer dev grp attr = D.SOFTBUS_OK)
    (hrep : (M.ClientAddSession reg ⟨my, peer, dev, grp, attr⟩ D.INVALID_SESSION_ID false).1.1 =
      D.SOFTBUS_TRANS_SESSION_REPEATED) :
    (OpenSession D M E A reg remote my peer dev grp attr).ret =
        (OpenSessionWithExistSession D M E A
          (M.ClientAddSession reg ⟨my, peer, dev, grp, attr⟩ D.INVALID_SESSION_ID false).2 remote
          (M.ClientAddSession reg ⟨my, peer, dev, grp, attr⟩ D.INVALID_SESSION_ID false).1.2.1
          (M.ClientAddSession reg ⟨my, peer, dev, grp, attr⟩ D.INVALID_SESSION_ID
            false).1.2.2).ret ∧
      (OpenSession D M E A reg remote my peer dev grp attr).reg =
        (OpenSessionWithExistSession D M E A
          (M.ClientAddSession reg ⟨my, peer, dev, grp, attr⟩ D.INVALID_SESSION_ID false).2 remote
          (M.ClientAddSession reg ⟨my, peer, dev, grp, attr⟩ D.INVALID_SESSION_ID false).1.2.1
          (M.ClientAddSession reg ⟨my, peer, dev, grp, attr⟩ D.INVALID_SESSION_ID
            false).1.2.2).reg ∧
      (OpenSession D M E A reg remote my peer dev grp attr).remote =
        (OpenSessionWithExistSession D M E A
          (M.ClientAddSession reg ⟨my, peer, dev, grp, attr⟩ D.INVALID_SESSION_ID false).2 remote
          (M.ClientAddSession reg ⟨my, peer, dev, grp, attr⟩ D.INVALID_SESSION_ID false).1.2.1
          (M.ClientAddSession reg ⟨my, peer, dev, grp, attr⟩ D.INVALID_SESSION_ID
            false).1.2.2).remote ∧
      ∀ c ∈ (OpenSession D M E A reg remote my peer dev grp attr).log,
        c.isRemoteOpen = false := by
  have hne : (M.ClientAddSession reg ⟨my, peer, dev, grp, attr⟩ D.INVALID_SESSION_ID
      false).1.1 ≠ D.SOFTBUS_OK := by
    rw [hrep]; exact D.session_repeated_ne_ok
  have hlog := OpenSessionWithExistSession_no_remote_open D M E A
    (M.ClientAddSession reg ⟨my, peer, dev, grp, attr⟩ D.INVALID_SESSION_ID false).2 remote
    (M.ClientAddSession reg ⟨my, peer, dev, grp, attr⟩ D.INVALID_SESSION_ID false).1.2.1
    (M.ClientAddSession reg ⟨my, peer, dev, grp, attr⟩ D.INVALID_SESSION_ID false).1.2.2
  simp only [OpenSession, hchk, hrep, D.session_repeated_ne_ok, ne_eq, not_true_eq_false,
    if_false, not_false_eq_true, if_true, true_and]
  intro c hc
  simp only [List.mem_append, List.mem_singleton] at hc
  rcases hc with hc | hc
  · subst hc; rfl
  · exact hlog c hc

/-- What the first of two `OpenSession` calls leaves for the second, when `ClientAddSession`
failed with the error `e` and left the registry alone. -/
theorem OpenSession_summary_of_error (D : SoftbusDef) (E : ClientEnv ω)
    (A : App (SessionRegistry ω) ω) (reg : SessionRegistry ω) (remote : ω)
    (my peer dev grp : Option String) (attr : Option SessionAttribute) (e : Int)
    (he : e ≠ D.SOFTBUS_OK)
    (hchk : CheckParamIsValid D E my peer dev grp attr = D.SOFTBUS_OK)
    (ha : specAddSession D E.IsValidString reg ⟨my, peer, dev, grp, attr⟩ D.INVALID_SESSION_ID
      false = ((e, D.INVALID_SESSION_ID, false), reg))
    (hid : (OpenSession D (specMgr D E.IsValidString) E A reg remote my peer dev grp attr).ret ≠
      D.INVALID_SESSION_ID) :
    (OpenSession D (specMgr D E.IsValidString) E A reg remote my peer dev grp attr).reg = reg ∧
      e ≠ D.SOFTBUS_TRANS_SESSION_REPEATED ∧
      (OpenSession D (specMgr D E.IsValidString) E A reg remote my peer dev grp attr).ret =
        e := by
  have ha1 : ((specMgr D E.IsValidString).ClientAddSession reg ⟨my, peer, dev, grp, attr⟩
      D.INVALID_SESSION_ID false) = ((e, D.INVALID_SESSION_ID, false), reg) := ha
  by_cases hr : e = D.SOFTBUS_TRANS_SESSION_REPEATED
  · exfalso
    have h := (OpenSession_repeated D (specMgr D E.IsValidString) E A reg remote my peer dev grp
      attr hchk (by rw [ha1]; exact hr)).1
    rw [ha1] at h
    apply hid
    rw [h]
    simp [OpenSessionWithExistSession]
  · have h := OpenSession_add_error D (specMgr D E.IsValidString) E A reg remote my peer dev grp
      attr hchk (by rw [ha1]; exact he) (by rw [ha1]; exact hr)
    rw [ha1] at h
    exact ⟨h.2.1, hr, h.1⟩

/-- The session that `AddSession` has just allocated is found under its id. -/
theorem findSession_cons_self (D : SoftbusDef) (servers : List (SessionServerEntry ω))
    (s : Session) (sessions : List Session) (hv : IsValidSessionId D s.sessionId = true) :
    findSession D ⟨servers, s :: sessions⟩ s.sessionId = some s := by
  simp [findSession, hv]

/-- What the first of two identical `OpenSession` calls leaves for the second, on the modelled
registry, when no `OnSessionOpened` function changes the registry it is run on in the first
call: if the first call returns something other than `INVALID_SESSION_ID`, the second
`ClientAddSession` leaves the registry alone and either fails with the error the first call
returned, or reports `SOFTBUS_TRANS_SESSION_REPEATED` with the id the first call returned. -/
theorem OpenSession_second_add (D : SoftbusDef) (E : ClientEnv ω)
    (A : App (SessionRegistry ω) ω) (reg : SessionRegistry ω)
    (remote : ω) (my peer dev grp : Option String) (attr : Option SessionAttribute)
    (r1 : Result (SessionRegistry ω) ω)
    (hr1 : r1 = OpenSession D (specMgr D E.IsValidString) E A reg remote my peer dev grp attr)
    (hid : r1.ret ≠ D.INVALID_SESSION_ID)
    (hA : ∀ p sessionId, (A.OnSessionOpened p reg remote sessionId D.SOFTBUS_OK).2.1 = reg)
    (a2 : (Int × Int × Bool) × SessionRegistry ω)
    (ha2 : a2 = specAddSession D E.IsValidString r1.reg ⟨my, peer, dev, grp, attr⟩
      D.INVALID_SESSION_ID false) :
    CheckParamIsValid D E my peer dev grp attr = D.SOFTBUS_OK ∧ a2.2 = r1.reg ∧
      ((a2.1.1 ≠ D.SOFTBUS_OK ∧ a2.1.1 ≠ D.SOFTBUS_TRANS_SESSION_REPEATED ∧ r1.ret = a2.1.1 ∧
          a2.1.2.2 = false) ∨
        (a2.1.1 = D.SOFTBUS_TRANS_SESSION_REPEATED ∧ a2.1.2.1 = r1.ret)) := by
  by_cases hchk : CheckParamIsValid D E my peer dev grp attr = D.SOFTBUS_OK
  swap
  · exfalso
    apply hid
    rw [hr1]
    simp [OpenSession, hchk]
  refine ⟨hchk, ?_⟩
  rw [hr1] at hid
  cases hdec : specDecodeParam D E.IsValidString ⟨my, peer, dev, grp, attr⟩ with
  | none =>
    have ha : specAddSession D E.IsValidString reg ⟨my, peer, dev, grp, attr⟩
        D.INVALID_SESSION_ID false =
        ((D.SOFTBUS_INVALID_PARAM, D.INVALID_SESSION_ID, false), reg) := by
      simp [specAddSession, hdec]
    obtain ⟨h1, h2, h3⟩ := OpenSession_summary_of_error D E A reg remote my peer dev grp attr _
      D.invalid_param_ne_ok hchk ha hid
    rw [hr1, h1, ha] at ha2
    rw [ha2, hr1, h1, h3]
    exact ⟨rfl, Or.inl ⟨D.invalid_param_ne_ok, h2, rfl, rfl⟩⟩
  | some t =>
    cases hfind : reg.sessions.find? fun s => s.sameTuple t.1 t.2.1 t.2.2.1 with
    | some s =>
      have ha : (specMgr D E.IsValidString).ClientAddSession reg ⟨my, peer, dev, grp, attr⟩
          D.INVALID_SESSION_ID false =
          ((D.SOFTBUS_TRANS_SESSION_REPEATED, s.sessionId, s.channelBinding.isSome), reg) := by
        simp [specMgr, specAddSession, hdec, hfind]
      obtain ⟨h1, h2, -, -⟩ := OpenSession_repeated D (specMgr D E.IsValidString) E A reg remote
        my peer dev grp attr hchk (by rw [ha])
      rw [ha] at h1 h2
      simp only at h1 h2
      rw [h1] at hid
      have hreg := OpenSessionWithExistSession_reg D E.IsValidString E A reg remote s.sessionId
        s.channelBinding.isSome (fun p => hA p s.sessionId) hid
      have hret := (OpenSessionWithExistSession_ret D (specMgr D E.IsValidString) E A reg remote
        s.sessionId s.channelBinding.isSome).resolve_right hid
      rw [hreg] at h2
      rw [hret] at h1
      rw [hr1, h2] at ha2
      have ha' : specAddSession D E.IsValidString reg ⟨my, peer, dev, grp, attr⟩
          D.INVALID_SESSION_ID false =
          ((D.SOFTBUS_TRANS_SESSION_REPEATED, s.sessionId, s.channelBinding.isSome), reg) := ha
      rw [ha'] at ha2
      rw [ha2, hr1, h1, h2]
      exact ⟨rfl, Or.inr ⟨rfl, rfl⟩⟩
    | none =>
      cases halloc : allocSessionId D reg with
      | none =>
        have ha : specAddSession D E.IsValidString reg ⟨my, peer, dev, grp, attr⟩
            D.INVALID_SESSION_ID false = ((D.SOFTBUS_ERR, D.INVALID_SESSION_ID, false), reg) := by
          simp [specAddSession, hdec, hfind, halloc]
        obtain ⟨h1, h2, h3⟩ := OpenSession_summary_of_error D E A reg remote my peer dev grp
          attr _ D.err_ne_ok hchk ha hid
        rw [hr1, h1, ha] at ha2
        rw [ha2, hr1, h1, h3]
        exact ⟨rfl, Or.inl ⟨D.err_ne_ok, h2, rfl, rfl⟩⟩
      | some n =>
        have hv := allocSessionId_valid D reg n halloc
        have ha : (specMgr D E.IsValidString).ClientAddSession reg ⟨my, peer, dev, grp, attr⟩
            D.INVALID_SESSION_ID false =
            ((D.SOFTBUS_OK, n, false),
              ⟨reg.servers, ⟨n, t.1, t.2.1, t.2.2.1, t.2.2.2.1, t.2.2.2.2, none⟩ ::
                reg.sessions⟩) := by
          simp [specMgr, specAddSession, hdec, hfind, halloc]
        have hfs : findSession D
            ⟨reg.servers, ⟨n, t.1, t.2.1, t.2.2.1, t.2.2.2.1, t.2.2.2.2, none⟩ :: reg.sessions⟩ n =
            some ⟨n, t.1, t.2.1, t.2.2.1, t.2.2.2.1, t.2.2.2.2, none⟩ :=
          findSession_cons_self D reg.servers
            ⟨n, t.1, t.2.1, t.2.2.1, t.2.2.2.1, t.2.2.2.2, none⟩ reg.sessions hv
        have hsc : ∀ (r : SessionRegistry ω) (a b : Int),
            (specMgr D E.IsValidString : SessionMgr (SessionRegistry ω) ω).ClientSetChannelBySessionId
              r a b = specSetChannelBySessionId D r a b := fun _ _ _ => rfl
        simp only [OpenSession, hchk, ha, ne_eq, not_true_eq_false, if_false, hsc] at hid hr1
        generalize (E.ServerIpcOpenSession remote my peer dev grp (attrDataType attr)).1 = ch
          at hid hr1
        by_cases hinv : ch = D.INVALID_CHANNEL_ID
        · exfalso
          have hs : (specSetChannelBySessionId D
              ⟨reg.servers, ⟨n, t.1, t.2.1, t.2.2.1, t.2.2.2.1, t.2.2.2.2, none⟩ :: reg.sessions⟩
              n ch).1 = D.SOFTBUS_ERR := by
            simp [specSetChannelBySessionId, hfs, hinv]
          rw [hs] at hid
          simp [D.err_ne_ok] at hid
        · have hs : specSetChannelBySessionId D
              ⟨reg.servers, ⟨n, t.1, t.2.1, t.2.2.1, t.2.2.2.1, t.2.2.2.2, none⟩ :: reg.sessions⟩
              n ch =
              (D.SOFTBUS_OK, ⟨reg.servers,
                ⟨n, t.1, t.2.1, t.2.2.1, t.2.2.2.1, t.2.2.2.2, some ⟨ch, D.CHANNEL_TYPE_PROXY⟩⟩ ::
                  reg.sessions.map fun s =>
                    if s.sessionId = n then
                      { s with channelBinding := some ⟨ch, D.CHANNEL_TYPE_PROXY⟩ }
                    else s⟩) := by
            simp [specSetChannelBySessionId, hfs, hinv]
          rw [hs] at hr1
          simp only [not_true_eq_false, if_false] at hr1
          rw [hr1] at ha2 ⊢
          simp only [] at ha2 ⊢
          have ha2' : a2 = ((D.SOFTBUS_TRANS_SESSION_REPEATED, n, true), ⟨reg.servers,
                ⟨n, t.1, t.2.1, t.2.2.1, t.2.2.2.1, t.2.2.2.2, some ⟨ch, D.CHANNEL_TYPE_PROXY⟩⟩ ::
                  reg.sessions.map fun s =>
                    if s.sessionId = n then
                      { s with channelBinding := some ⟨ch, D.CHANNEL_TYPE_PROXY⟩ }
                    else s⟩) := by
            rw [ha2]
            simp [specAddSession, hdec, Session.sameTuple]
          rw [ha2']
          exact ⟨rfl, Or.inr ⟨rfl, rfl⟩⟩

/-- C3, as the code has it. On the modelled registry, for every parameter tuple, registry
state, listener and application: let a call to `OpenSession` return a session id (anything
but `INVALID_SESSION_ID`, which it returns when `CheckParamIsValid` fails), and let no
`OnSessionOpened` function of the application change the registry when it is run on the state
that call starts from (it does not call back into the session service).  Then a second
`OpenSession` call with the identical tuple, made right after the first,

* does not invoke the remote open `ServerIpcOpenSession`;
* returns the same session id, provided that, when the registry reports the session's channel
  as already bound, the listener stored for the session (if one is found) has a non-null
  `OnSessionOpened` that returns `0` for that session;
* returns `INVALID_SESSION_ID` when the registry reports the session's channel as already
  bound and the listener stored for the session is found and has an `OnSessionOpened` that is
  `NULL` or returns something other than `0` for that session. -/
theorem open_session_twice (D : SoftbusDef) (E : ClientEnv ω) (A : App (SessionRegistry ω) ω)
    (reg : SessionRegistry ω) (remote : ω) (my peer dev grp : Option String)
    (attr : Option SessionAttribute) (r1 r2 : Result (SessionRegistry ω) ω)
    (hr1 : r1 = OpenSession D (specMgr D E.IsValidString) E A reg remote my peer dev grp attr)
    (hr2 : r2 = OpenSession D (specMgr D E.IsValidString) E A r1.reg r1.remote my peer dev grp
      attr)
    (hid : r1.ret ≠ D.INVALID_SESSION_ID)
    (hA : ∀ p sessionId, (A.OnSessionOpened p reg remote sessionId D.SOFTBUS_OK).2.1 = reg) :
    (∀ c ∈ r2.log, c.isRemoteOpen = false) ∧
      (((specAddSession D E.IsValidString r1.reg ⟨my, peer, dev, grp, attr⟩
            D.INVALID_SESSION_ID false).1.2.2 = true →
          ∀ l, (specGetSessionCallbackById D r1.reg r1.ret zeroListener).1 = (D.SOFTBUS_OK, l) →
            ∃ p, l.OnSessionOpened = some p ∧
              (A.OnSessionOpened p r1.reg r1.remote r1.ret D.SOFTBUS_OK).1 = 0) →
        r2.ret = r1.ret) ∧
      ((specAddSession D E.IsValidString r1.reg ⟨my, peer, dev, grp, attr⟩
            D.INVALID_SESSION_ID false).1.2.2 = true →
        ∀ l, (specGetSessionCallbackById D r1.reg r1.ret zeroListener).1 = (D.SOFTBUS_OK, l) →
          (l.OnSessionOpened = none ∨ ∃ p, l.OnSessionOpened = some p ∧
            (A.OnSessionOpened p r1.reg r1.remote r1.ret D.SOFTBUS_OK).1 ≠ 0) →
          r2.ret = D.INVALID_SESSION_ID) := by
  obtain ⟨hchk, hreg, hcase⟩ := OpenSession_second_add D E A reg remote my peer dev grp attr r1
    hr1 hid hA _ rfl
  have hadd : (specMgr D E.IsValidString).ClientAddSession r1.reg ⟨my, peer, dev, grp, attr⟩
      D.INVALID_SESSION_ID false =
      specAddSession D E.IsValidString r1.reg ⟨my, peer, dev, grp, attr⟩ D.INVALID_SESSION_ID
        false := rfl
  rw [hr2]
  rcases hcase with ⟨hne, hrep, hret, hflag⟩ | ⟨hrep, hsid⟩
  · obtain ⟨h1, -, -, h4⟩ := OpenSession_add_error D (specMgr D E.IsValidString) E A r1.reg
      r1.remote my peer dev grp attr hchk (by rw [hadd]; exact hne) (by rw [hadd]; exact hrep)
    refine ⟨h4, fun _ => ?_, fun hen => ?_⟩
    · rw [h1, hadd, hret]
    · rw [hflag] at hen
      exact absurd hen (by decide)
  · obtain ⟨h1, -, -, h4⟩ := OpenSession_repeated D (specMgr D E.IsValidString) E A r1.reg
      r1.remote my peer dev grp attr hchk (by rw [hadd]; exact hrep)
    refine ⟨h4, fun hcb => ?_, fun hen l hl hrej => ?_⟩
    · rw [h1, hadd, hreg, hsid]
      exact OpenSessionWithExistSession_accept D E.IsValidString E A r1.reg r1.remote r1.ret _ hcb
    · rw [h1, hadd, hreg, hsid, hen]
      exact OpenSessionWithExistSession_reject D E.IsValidString E A r1.reg r1.remote r1.ret l hl
        hrej

/-- Witness of C3 as amended: on the sample application, whose functions change nothing, with
the listener that accepts (`OnSessionOpened` returns `0`), opening the same session twice
returns id `1` both times, and the second call makes no remote open. -/
theorem open_session_twice_witness :
    (OpenSession sampleDef (specMgr sampleDef (sampleClientEnv 0 0 0).IsValidString)
        (sampleClientEnv 0 0 0) sampleApp (sampleRegistry 0) 0 (some "svcA") (some "svcB")
        (some "dev123") (some "group1") (some ⟨1⟩)).ret = 1 ∧
      (∀ c ∈ (OpenSession sampleDef (specMgr sampleDef (sampleClientEnv 0 0 0).IsValidString)
        (sampleClientEnv 0 0 0) sampleApp
        (OpenSession sampleDef (specMgr sampleDef (sampleClientEnv 0 0 0).IsValidString)
          (sampleClientEnv 0 0 0) sampleApp (sampleRegistry 0) 0 (some "svcA") (some "svcB")
          (some "dev123") (some "group1") (some ⟨1⟩)).reg
        (OpenSession sampleDef (specMgr sampleDef (sampleClientEnv 0 0 0).IsValidString)
          (sampleClientEnv 0 0 0) sampleApp (sampleRegistry 0) 0 (some "svcA") (some "svcB")
          (some "dev123") (some "group1") (some ⟨1⟩)).remote
        (some "svcA") (some "svcB") (some "dev123") (some "group1") (some ⟨1⟩)).log,
        c.isRemoteOpen = false) ∧
      (OpenSession sampleDef (specMgr sampleDef (sampleClientEnv 0 0 0).IsValidString)
        (sampleClientEnv 0 0 0) sampleApp
        (OpenSession sampleDef (specMgr sampleDef (sampleClientEnv 0 0 0).IsValidString)
          (sampleClientEnv 0 0 0) sampleApp (sampleRegistry 0) 0 (some "svcA") (some "svcB")
          (some "dev123") (some "group1") (some ⟨1⟩)).reg
        (OpenSession sampleDef (specMgr sampleDef (sampleClientEnv 0 0 0).IsValidString)
          (sampleClientEnv 0 0 0) sampleApp (sampleRegistry 0) 0 (some "svcA") (some "svcB")
          (some "dev123") (some "group1") (some ⟨1⟩)).remote
        (some "svcA") (some "svcB") (some "dev123") (some "group1") (some ⟨1⟩)).ret =
        (OpenSession sampleDef (specMgr sampleDef (sampleClientEnv 0 0 0).IsValidString)
          (sampleClientEnv 0 0 0) sampleApp (sampleRegistry 0) 0 (some "svcA") (some "svcB")
          (some "dev123") (some "group1") (some ⟨1⟩)).ret ∧
      (OpenSession sampleDef (specMgr sampleDef (sampleClientEnv 0 0 0).IsValidString)
        (sampleClientEnv 0 0 0) sampleApp
        (OpenSession sampleDef (specMgr sampleDef (sampleClientEnv 0 0 0).IsValidString)
          (sampleClientEnv 0 0 0) sampleApp (sampleRegistry 1) 0 (some "svcA") (some "svcB")
          (some "dev123") (some "group1") (some ⟨1⟩)).reg
        (OpenSession sampleDef (specMgr sampleDef (sampleClientEnv 0 0 0).IsValidString)
          (sampleClientEnv 0 0 0) sampleApp (sampleRegistry 1) 0 (some "svcA") (some "svcB")
          (some "dev123") (some "group1") (some ⟨1⟩)).remote
        (some "svcA") (some "svcB") (some "dev123") (some "group1") (some ⟨1⟩)).ret =
        sampleDef.INVALID_SESSION_ID :=
  ⟨by decide,
    (open_session_twice sampleDef (sampleClientEnv 0 0 0) sampleApp (sampleRegistry 0) 0
      (some "svcA") (some "svcB") (some "dev123") (some "group1") (some ⟨1⟩) _ _ rfl rfl
      (by decide) (fun _ _ => rfl)).1,
    (open_session_twice sampleDef (sampleClientEnv 0 0 0) sampleApp (sampleRegistry 0) 0
      (some "svcA") (some "svcB") (some "dev123") (some "group1") (some ⟨1⟩) _ _ rfl rfl
      (by decide) (fun _ _ => rfl)).2.1
      (fun _ l hl => ⟨0, (congrArg (fun x => x.2.OnSessionOpened) hl).symm, rfl⟩),
    (open_session_twice sampleDef (sampleClientEnv 0 0 0) sampleApp (sampleRegistry 1) 0
      (some "svcA") (some "svcB") (some "dev123") (some "group1") (some ⟨1⟩) _ _ rfl rfl
      (by decide) (fun _ _ => rfl)).2.2 (by decide) (sampleListener 1) rfl
      (Or.inr ⟨1, rfl, by decide⟩)⟩

/-- Counterexample to C3 as stated; the tuple passes `CheckParamIsValid` in each run.

* The session server `svcA` is registered with a listener whose `OnSessionOpened` always
  returns `1`, and there is no session.  The first `OpenSession` opens the session and returns
  the id `1`; the second call with the identical tuple finds the session bound, the listener
  rejects it, the session is closed and the call returns `INVALID_SESSION_ID`.
* The registry holds `svcA` and its bound session `3`, and `OnSessionOpened` accepts only the
  first time it is called.  The first `OpenSession` returns the id `3`, the second call with
  the identical tuple returns `INVALID_SESSION_ID`.
* The registry holds `svcA` and its bound session `3`, and `OnSessionOpened` calls
  `CloseSession` on the session and returns `0`.  The first `OpenSession` returns the id `3`;
  the second call with the identical tuple finds no session, makes the remote open and returns
  the new id `1`. -/
theorem open_session_twice_rejected :
    CheckParamIsValid sampleDef (sampleClientEnv 0 0 0) (some "svcA") (some "svcB")
        (some "dev123") (some "group1") (some ⟨1⟩) = sampleDef.SOFTBUS_OK ∧
      sampleDef.INVALID_SESSION_ID = -1 ∧
      (OpenSession sampleDef (specMgr sampleDef (sampleClientEnv 0 0 0).IsValidString)
        (sampleClientEnv 0 0 0) sampleApp (sampleRegistry 1) 0 (some "svcA") (some "svcB")
        (some "dev123") (some "group1") (some ⟨1⟩)).ret = 1 ∧
      (OpenSession sampleDef (specMgr sampleDef (sampleClientEnv 0 0 0).IsValidString)
        (sampleClientEnv 0 0 0) sampleApp
        (OpenSession sampleDef (specMgr sampleDef (sampleClientEnv 0 0 0).IsValidString)
          (sampleClientEnv 0 0 0) sampleApp (sampleRegistry 1) 0 (some "svcA") (some "svcB")
          (some "dev123") (some "group1") (some ⟨1⟩)).reg
        (OpenSession sampleDef (specMgr sampleDef (sampleClientEnv 0 0 0).IsValidString)
          (sampleClientEnv 0 0 0) sampleApp (sampleRegistry 1) 0 (some "svcA") (some "svcB")
          (some "dev123") (some "group1") (some ⟨1⟩)).remote
        (some "svcA") (some "svcB") (some "dev123") (some "group1") (some ⟨1⟩)).ret = -1 ∧
      (OpenSession sampleDef (specMgr sampleDef (sampleClientEnv 0 0 0).IsValidString)
        (sampleClientEnv 0 0 0) onceApp boundRegistry 0 (some "svcA") (some "svcB")
        (some "dev123") (some "group1") (some ⟨1⟩)).ret = 3 ∧
      (OpenSession sampleDef (specMgr sampleDef (sampleClientEnv 0 0 0).IsValidString)
        (sampleClientEnv 0 0 0) onceApp
        (OpenSession sampleDef (specMgr sampleDef (sampleClientEnv 0 0 0).IsValidString)
          (sampleClientEnv 0 0 0) onceApp boundRegistry 0 (some "svcA") (some "svcB")
          (some "dev123") (some "group1") (some ⟨1⟩)).reg
        (OpenSession sampleDef (specMgr sampleDef (sampleClientEnv 0 0 0).IsValidString)
          (sampleClientEnv 0 0 0) onceApp boundRegistry 0 (some "svcA") (some "svcB")
          (some "dev123") (some "group1") (some ⟨1⟩)).remote
        (some "svcA") (some "svcB") (some "dev123") (some "group1") (some ⟨1⟩)).ret = -1 ∧
      (OpenSession sampleDef (specMgr sampleDef (sampleClientEnv 0 0 0).IsValidString)
        (sampleClientEnv 0 0 0) closingApp boundRegistry 0 (some "svcA") (some "svcB")
        (some "dev123") (some "group1") (some ⟨1⟩)).ret = 3 ∧
      (OpenSession sampleDef (specMgr sampleDef (sampleClientEnv 0 0 0).IsValidString)
        (sampleClientEnv 0 0 0) closingApp
        (OpenSession sampleDef (specMgr sampleDef (sampleClientEnv 0 0 0).IsValidString)
          (sampleClientEnv 0 0 0) closingApp boundRegistry 0 (some "svcA") (some "svcB")
          (some "dev123") (some "group1") (some ⟨1⟩)).reg
        (OpenSession sampleDef (specMgr sampleDef (sampleClientEnv 0 0 0).IsValidString)
          (sampleClientEnv 0 0 0) closingApp boundRegistry 0 (some "svcA") (some "svcB")
          (some "dev123") (some "group1") (some ⟨1⟩)).remote
        (some "svcA") (some "svcB") (some "dev123") (some "group1") (some ⟨1⟩)).log =
        [ClientCall.ClientAddSession
            ⟨some "svcA", some "svcB", some "dev123", some "group1", some ⟨1⟩⟩ 0 1 false,
          ClientCall.ServerIpcOpenSession (some "svcA") (some "svcB") (some "dev123")
            (some "group1") 1 42,
          ClientCall.ClientSetChannelBySessionId 1 42 0] ∧
      (OpenSession sampleDef (specMgr sampleDef (sampleClientEnv 0 0 0).IsValidString)
        (sampleClientEnv 0 0 0) closingApp
        (OpenSession sampleDef (specMgr sampleDef (sampleClientEnv 0 0 0).IsValidString)
          (sampleClientEnv 0 0 0) closingApp boundRegistry 0 (some "svcA") (some "svcB")
          (some "dev123") (some "group1") (some ⟨1⟩)).reg
        (OpenSession sampleDef (specMgr sampleDef (sampleClientEnv 0 0 0).IsValidString)
          (sampleClientEnv 0 0 0) closingApp boundRegistry 0 (some "svcA") (some "svcB")
          (some "dev123") (some "group1") (some ⟨1⟩)).remote
        (some "svcA") (some "svcB") (some "dev123") (some "group1") (some ⟨1⟩)).ret = 1 := by
  decide

/-- C8, the run that shows the defect. On the modelled registry and the sample callees (remote
create succeeds), the first `CreateSessionServer("pkgA", "svcA", listener)` returns
`SOFTBUS_OK`; the same call made again stops at `ClientAddSessionServer`, which reports the
name as repeated, and returns `SOFTBUS_SERVER_NAME_REPEATED` instead of `SOFTBUS_OK`, without
reaching the remote create call whose `SOFTBUS_SERVER_NAME_REPEATED` is mapped to success.
The session server stays registered. -/
theorem create_session_server_twice_fails :
    (CreateSessionServer sampleDef (specMgr sampleDef (sampleClientEnv 0 0 0).IsValidString)
        (sampleClientEnv 0 0 0) emptyRegistry 0 (some "pkgA") (some "svcA")
        (some (sampleListener 0))).ret = sampleDef.SOFTBUS_OK ∧
      (CreateSessionServer sampleDef (specMgr sampleDef (sampleClientEnv 0 0 0).IsValidString)
        (sampleClientEnv 0 0 0)
        (CreateSessionServer sampleDef (specMgr sampleDef (sampleClientEnv 0 0 0).IsValidString)
          (sampleClientEnv 0 0 0) emptyRegistry 0 (some "pkgA") (some "svcA")
          (some (sampleListener 0))).reg
        (CreateSessionServer sampleDef (specMgr sampleDef (sampleClientEnv 0 0 0).IsValidString)
          (sampleClientEnv 0 0 0) emptyRegistry 0 (some "pkgA") (some "svcA")
          (some (sampleListener 0))).remote
        (some "pkgA") (some "svcA") (some (sampleListener 0))).ret =
        sampleDef.SOFTBUS_SERVER_NAME_REPEATED ∧
      sampleDef.SOFTBUS_SERVER_NAME_REPEATED ≠ sampleDef.SOFTBUS_OK ∧
      (CreateSessionServer sampleDef (specMgr sampleDef (sampleClientEnv 0 0 0).IsValidString)
        (sampleClientEnv 0 0 0)
        (CreateSessionServer sampleDef (specMgr sampleDef (sampleClientEnv 0 0 0).IsValidString)
          (sampleClientEnv 0 0 0) emptyRegistry 0 (some "pkgA") (some "svcA")
          (some (sampleListener 0))).reg
        (CreateSessionServer sampleDef (specMgr sampleDef (sampleClientEnv 0 0 0).IsValidString)
          (sampleClientEnv 0 0 0) emptyRegistry 0 (some "pkgA") (some "svcA")
          (some (sampleListener 0))).remote
        (some "pkgA") (some "svcA") (some (sampleListener 0))).log =
        [ClientCall.InitSoftBus (some "pkgA") 0, ClientCall.CheckPackageName (some "pkgA") 0,
          ClientCall.ClientAddSessionServer 1 (some "pkgA") (some "svcA") (-5)] ∧
      (CreateSessionServer sampleDef (specMgr sampleDef (sampleClientEnv 0 0 0).IsValidString)
        (sampleClientEnv 0 0 0)
        (CreateSessionServer sampleDef (specMgr sampleDef (sampleClientEnv 0 0 0).IsValidString)
          (sampleClientEnv 0 0 0) emptyRegistry 0 (some "pkgA") (some "svcA")
          (some (sampleListener 0))).reg
        (CreateSessionServer sampleDef (specMgr sampleDef (sampleClientEnv 0 0 0).IsValidString)
          (sampleClientEnv 0 0 0) emptyRegistry 0 (some "pkgA") (some "svcA")
          (some (sampleListener 0))).remote
        (some "pkgA") (some "svcA") (some (sampleListener 0))).reg.servers.map
        (fun e => e.sessionName) = ["svcA"] := by
  decide

/-! ## Theorems: parameter validation of `OpenSession` and `OpenSessionSync` -/

/-- `CheckParamIsValid` rejects exactly these inputs: a name or device id that fails
`IsValidString`, a `NULL` attr, a `dataType` of `TYPE_BUTT` or more, a `NULL` groupId, a groupId
of `GROUP_ID_SIZE_MAX` bytes or more. -/
theorem CheckParamIsValid_ne_ok_iff (D : SoftbusDef) (E : ClientEnv ω)
    (my peer dev grp : Option String) (attr : Option SessionAttribute) :
    CheckParamIsValid D E my peer dev grp attr ≠ D.SOFTBUS_OK ↔
      (E.IsValidString my D.SESSION_NAME_SIZE_MAX = false ∨
        E.IsValidString peer D.SESSION_NAME_SIZE_MAX = false ∨
        E.IsValidString dev D.DEVICE_ID_SIZE_MAX = false ∨
        attr = none ∨ (∃ a, attr = some a ∧ Int.ofNat a.dataType ≥ D.TYPE_BUTT) ∨
        grp = none ∨ ∃ g, grp = some g ∧ strlen g ≥ D.GROUP_ID_SIZE_MAX) := by
  have hne := D.invalid_param_ne_ok
  unfold CheckParamIsValid
  rcases attr with _ | a <;> rcases grp with _ | g <;>
    by_cases h1 : E.IsValidString my D.SESSION_NAME_SIZE_MAX = false <;>
    by_cases h2 : E.IsValidString peer D.SESSION_NAME_SIZE_MAX = false <;>
    by_cases h3 : E.IsValidString dev D.DEVICE_ID_SIZE_MAX = false <;>
    simp [h1, h2, h3, hne]
  all_goals split_ifs <;> simp_all

/-- An input that `CheckParamIsValid` rejects makes `OpenSession` and `OpenSessionSync` return
`INVALID_SESSION_ID` with no call made and the registry and the remote side untouched; an
input that it accepts makes both call `ClientAddSession` first, on the parameters as given. -/
theorem OpenSession_validation (D : SoftbusDef) (M : SessionMgr σ ω) (E : ClientEnv ω)
    (A : App σ ω) (reg : σ) (remote : ω) (my peer dev grp : Option String)
    (attr : Option SessionAttribute) :
    (CheckParamIsValid D E my peer dev grp attr ≠ D.SOFTBUS_OK →
        (OpenSession D M E A reg remote my peer dev grp attr).ret = D.INVALID_SESSION_ID ∧
        (OpenSession D M E A reg remote my peer dev grp attr).log = [] ∧
        (OpenSession D M E A reg remote my peer dev grp attr).reg = reg ∧
        (OpenSession D M E A reg remote my peer dev grp attr).remote = remote ∧
        (OpenSessionSync D M E A reg remote my peer dev grp attr).ret = D.INVALID_SESSION_ID ∧
        (OpenSessionSync D M E A reg remote my peer dev grp attr).log = [] ∧
        (OpenSessionSync D M E A reg remote my peer dev grp attr).reg = reg ∧
        (OpenSessionSync D M E A reg remote my peer dev grp attr).remote = remote) ∧
      (CheckParamIsValid D E my peer dev grp attr = D.SOFTBUS_OK →
        (OpenSession D M E A reg remote my peer dev grp attr).log.head? =
          some (ClientCall.ClientAddSession ⟨my, peer, dev, grp, attr⟩
            (M.ClientAddSession reg ⟨my, peer, dev, grp, attr⟩ D.INVALID_SESSION_ID false).1.1
            (M.ClientAddSession reg ⟨my, peer, dev, grp, attr⟩ D.INVALID_SESSION_ID false).1.2.1
            (M.ClientAddSession reg ⟨my, peer, dev, grp, attr⟩ D.INVALID_SESSION_ID
              false).1.2.2) ∧
        (OpenSessionSync D M E A reg remote my peer dev grp attr).log.head? =
          some (ClientCall.ClientAddSession ⟨my, peer, dev, grp, attr⟩
            (M.ClientAddSession reg ⟨my, peer, dev, grp, attr⟩ D.INVALID_SESSION_ID false).1.1
            (M.ClientAddSession reg ⟨my, peer, dev, grp, attr⟩ D.INVALID_SESSION_ID false).1.2.1
            (M.ClientAddSession reg ⟨my, peer, dev, grp, attr⟩ D.INVALID_SESSION_ID
              false).1.2.2)) := by
  refine ⟨fun h => ?_, fun h => ⟨?_, ?_⟩⟩
  · simp [OpenSession, OpenSessionSync, h]
  · simp only [OpenSession, h, ne_eq, not_true_eq_false, if_false]
    split_ifs <;> simp
  · simp only [OpenSessionSync, h, ne_eq, not_true_eq_false, if_false]
    split_ifs <;> simp

/-- C11. For every input to `OpenSession` and to `OpenSessionSync`: if `mySessionName`,
`peerSessionName` or `peerDeviceId` fails `IsValidString` with its maximal length, or `groupId`
is `NULL` or has `GROUP_ID_SIZE_MAX` bytes or more, or `attr` is `NULL`, or `attr->dataType`
lies outside `[0, TYPE_BUTT)`, then the call returns `INVALID_SESSION_ID`, makes no call at all
(no `ClientAddSession`, no `ServerIpcOpenSession`, no other registry or remote call) and
leaves the registry and the remote side as they were.  Conversely, if the three names pass
`IsValidString`, `groupId` is not `NULL` and shorter than `GROUP_ID_SIZE_MAX`, and `attr` is
not `NULL` with `dataType` in `[0, TYPE_BUTT)`, then `CheckParamIsValid` returns `SOFTBUS_OK`
and the first call of both functions is `ClientAddSession` on these parameters.  `dataType` is
an unsigned field, so a value outside `[0, TYPE_BUTT)` is one that is not below `TYPE_BUTT`. -/
theorem open_session_validates_parameters (D : SoftbusDef) (M : SessionMgr σ ω)
    (E : ClientEnv ω) (A : App σ ω) (reg : σ) (remote : ω) (my peer dev grp : Option String)
    (attr : Option SessionAttribute) :
    ((E.IsValidString my D.SESSION_NAME_SIZE_MAX = false ∨
          E.IsValidString peer D.SESSION_NAME_SIZE_MAX = false ∨
          E.IsValidString dev D.DEVICE_ID_SIZE_MAX = false ∨
          grp = none ∨ (∃ g, grp = some g ∧ strlen g ≥ D.GROUP_ID_SIZE_MAX) ∨
          attr = none ∨
          (∃ a, attr = some a ∧ ¬ (0 ≤ Int.ofNat a.dataType ∧ Int.ofNat a.dataType < D.TYPE_BUTT))) →
        (OpenSession D M E A reg remote my peer dev grp attr).ret = D.INVALID_SESSION_ID ∧
        (OpenSession D M E A reg remote my peer dev grp attr).log = [] ∧
        (OpenSession D M E A reg remote my peer dev grp attr).reg = reg ∧
        (OpenSession D M E A reg remote my peer dev grp attr).remote = remote ∧
        (OpenSessionSync D M E A reg remote my peer dev grp attr).ret = D.INVALID_SESSION_ID ∧
        (OpenSessionSync D M E A reg remote my peer dev grp attr).log = [] ∧
        (OpenSessionSync D M E A reg remote my peer dev grp attr).reg = reg ∧
        (OpenSessionSync D M E A reg remote my peer dev grp attr).remote = remote) ∧
      (E.IsValidString my D.SESSION_NAME_SIZE_MAX = true →
        E.IsValidString peer D.SESSION_NAME_SIZE_MAX = true →
        E.IsValidString dev D.DEVICE_ID_SIZE_MAX = true →
        (∃ g, grp = some g ∧ strlen g < D.GROUP_ID_SIZE_MAX) →
        (∃ a, attr = some a ∧ 0 ≤ Int.ofNat a.dataType ∧ Int.ofNat a.dataType < D.TYPE_BUTT) →
        CheckParamIsValid D E my peer dev grp attr = D.SOFTBUS_OK ∧
        (OpenSession D M E A reg remote my peer dev grp attr).log.head? =
          some (ClientCall.ClientAddSession ⟨my, peer, dev, grp, attr⟩
            (M.ClientAddSession reg ⟨my, peer, dev, grp, attr⟩ D.INVALID_SESSION_ID false).1.1
            (M.ClientAddSession reg ⟨my, peer, dev, grp, attr⟩ D.INVALID_SESSION_ID false).1.2.1
            (M.ClientAddSession reg ⟨my, peer, dev, grp, attr⟩ D.INVALID_SESSION_ID
              false).1.2.2) ∧
        (OpenSessionSync D M E A reg remote my peer dev grp attr).log.head? =
          some (ClientCall.ClientAddSession ⟨my, peer, dev, grp, attr⟩
            (M.ClientAddSession reg ⟨my, peer, dev, grp, attr⟩ D.INVALID_SESSION_ID false).1.1
            (M.ClientAddSession reg ⟨my, peer, dev, grp, attr⟩ D.INVALID_SESSION_ID false).1.2.1
            (M.ClientAddSession reg ⟨my, peer, dev, grp, attr⟩ D.INVALID_SESSION_ID
              false).1.2.2)) := by
  refine ⟨fun h => ?_, fun hmy hpeer hdev hg ha => ?_⟩
  · refine (OpenSession_validation D M E A reg remote my peer dev grp attr).1 ?_
    rw [CheckParamIsValid_ne_ok_iff]
    rcases h with h | h | h | h | h | h | ⟨a, ha, hout⟩
    · exact Or.inl h
    · exact Or.inr (Or.inl h)
    · exact Or.inr (Or.inr (Or.inl h))
    · exact Or.inr (Or.inr (Or.inr (Or.inr (Or.inr (Or.inl h)))))
    · exact Or.inr (Or.inr (Or.inr (Or.inr (Or.inr (Or.inr h)))))
    · exact Or.inr (Or.inr (Or.inr (Or.inl h)))
    · refine Or.inr (Or.inr (Or.inr (Or.inr (Or.inl ⟨a, ha, ?_⟩))))
      have h0 : 0 ≤ Int.ofNat a.dataType := Int.ofNat_nonneg _
      omega
  · have hchk : CheckParamIsValid D E my peer dev grp attr = D.SOFTBUS_OK := by
      by_contra hne
      rw [← ne_eq, CheckParamIsValid_ne_ok_iff] at hne
      obtain ⟨g, hg1, hg2⟩ := hg
      obtain ⟨a, ha1, -, ha3⟩ := ha
      rcases hne with h | h | h | h | ⟨b, hb1, hb2⟩ | h | ⟨k, hk1, hk2⟩
      · rw [hmy] at h; exact absurd h (by decide)
      · rw [hpeer] at h; exact absurd h (by decide)
      · rw [hdev] at h; exact absurd h (by decide)
      · rw [ha1] at h; exact absurd h (by simp)
      · rw [ha1] at hb1
        cases hb1
        omega
      · rw [hg1] at h; exact absurd h (by simp)
      · rw [hg1] at hk1
        cases hk1
        omega
    exact ⟨hchk, (OpenSession_validation D M E A reg remote my peer dev grp attr).2 hchk⟩

/-- Witness of C11, on the sample callees and the modelled registry, where `TYPE_BUTT` is `4`
and `GROUP_ID_SIZE_MAX` is `65`: a `dataType` of `4` makes `OpenSession` and `OpenSessionSync`
return `INVALID_SESSION_ID` with no call made, and a `dataType` of `1` with valid names makes
both call `ClientAddSession` first. -/
theorem open_session_validates_parameters_witness :
    ((OpenSession sampleDef (specMgr sampleDef (sampleClientEnv 0 0 0).IsValidString)
          (sampleClientEnv 0 0 0) sampleApp (sampleRegistry 0) 0 (some "svcA") (some "svcB")
          (some "dev123") (some "group1") (some ⟨4⟩)).ret = -1 ∧
        (OpenSession sampleDef (specMgr sampleDef (sampleClientEnv 0 0 0).IsValidString)
          (sampleClientEnv 0 0 0) sampleApp (sampleRegistry 0) 0 (some "svcA") (some "svcB")
          (some "dev123") (some "group1") (some ⟨4⟩)).log = [] ∧
        (OpenSessionSync sampleDef (specMgr sampleDef (sampleClientEnv 0 0 0).IsValidString)
          (sampleClientEnv 0 0 0) sampleApp (sampleRegistry 0) 0 (some "svcA") (some "svcB")
          (some "dev123") (some "group1") (some ⟨4⟩)).ret = -1 ∧
        (OpenSessionSync sampleDef (specMgr sampleDef (sampleClientEnv 0 0 0).IsValidString)
          (sampleClientEnv 0 0 0) sampleApp (sampleRegistry 0) 0 (some "svcA") (some "svcB")
          (some "dev123") (some "group1") (some ⟨4⟩)).log = []) ∧
      CheckParamIsValid sampleDef (sampleClientEnv 0 0 0) (some "svcA") (some "svcB")
        (some "dev123") (some "group1") (some ⟨1⟩) = 0 ∧
      (OpenSession sampleDef (specMgr sampleDef (sampleClientEnv 0 0 0).IsValidString)
        (sampleClientEnv 0 0 0) sampleApp (sampleRegistry 0) 0 (some "svcA") (some "svcB")
        (some "dev123") (some "group1") (some ⟨1⟩)).log.head? =
        some (ClientCall.ClientAddSession
          ⟨some "svcA", some "svcB", some "dev123", some "group1", some ⟨1⟩⟩ 0 1 false) ∧
      (OpenSessionSync sampleDef (specMgr sampleDef (sampleClientEnv 0 0 0).IsValidString)
        (sampleClientEnv 0 0 0) sampleApp (sampleRegistry 0) 0 (some "svcA") (some "svcB")
        (some "dev123") (some "group1") (some ⟨1⟩)).log.head? =
        some (ClientCall.ClientAddSession
          ⟨some "svcA", some "svcB", some "dev123", some "group1", some ⟨1⟩⟩ 0 1 false) :=
  ⟨(fun h => ⟨h.1, h.2.1, h.2.2.2.2.1, h.2.2.2.2.2.1⟩)
      ((open_session_validates_parameters sampleDef
        (specMgr sampleDef (sampleClientEnv 0 0 0).IsValidString) (sampleClientEnv 0 0 0)
        sampleApp (sampleRegistry 0) 0 (some "svcA") (some "svcB") (some "dev123")
        (some "group1") (some ⟨4⟩)).1
        (Or.inr (Or.inr (Or.inr (Or.inr (Or.inr (Or.inr ⟨⟨4⟩, rfl, by decide⟩))))))),
    (open_session_validates_parameters sampleDef
      (specMgr sampleDef (sampleClientEnv 0 0 0).IsValidString) (sampleClientEnv 0 0 0)
      sampleApp (sampleRegistry 0) 0 (some "svcA") (some "svcB") (some "dev123")
      (some "group1") (some ⟨1⟩)).2 (by decide) (by decide) (by decide)
      ⟨"group1", rfl, by decide⟩ ⟨⟨1⟩, rfl, by decide, by decide⟩⟩

/-! ## Theorems: the polling loop of `OpenSessionSync` -/

/-- A run of the polling loop with `n` rounds left makes at most `n` lookups and at most `n`
sleeps. -/
theorem CheckSessionIsOpenedLoop_counts (D : SoftbusDef) (M : SessionMgr σ ω) (sessionId : Int)
    (n : Nat) : ∀ (reg : σ) (channelId type : Int),
    (CheckSessionIsOpenedLoop D M sessionId n reg channelId type).2.countP
        ClientCall.isLookup ≤ n ∧
      (CheckSessionIsOpenedLoop D M sessionId n reg channelId type).2.countP
        ClientCall.isSleep ≤ n := by
  induction n with
  | zero => intro reg channelId type; simp [CheckSessionIsOpenedLoop]
  | succ k ih =>
    intro reg channelId type
    simp only [CheckSessionIsOpenedLoop]
    split_ifs
    · simp [ClientCall.isLookup, ClientCall.isSleep]
    · simp [ClientCall.isLookup, ClientCall.isSleep]
    · have h := ih (M.ClientGetChannelBySessionId reg sessionId channelId type).2
        (M.ClientGetChannelBySessionId reg sessionId channelId type).1.2.1
        (M.ClientGetChannelBySessionId reg sessionId channelId type).1.2.2
      simp only [List.countP_cons, ClientCall.isLookup, ClientCall.isSleep, if_true,
        Bool.false_eq_true, if_false]
      omega

/-- Every sleep of the polling loop lasts `SESSION_CHECK_PERIOD`, so the time slept is
`SESSION_CHECK_PERIOD` times the number of sleeps. -/
theorem CheckSessionIsOpenedLoop_sleeps (D : SoftbusDef) (M : SessionMgr σ ω) (sessionId : Int)
    (n : Nat) : ∀ (reg : σ) (channelId type : Int),
    (∀ c ∈ (CheckSessionIsOpenedLoop D M sessionId n reg channelId type).2,
        c.isSleep = true → c = ClientCall.usleep SESSION_CHECK_PERIOD) ∧
      sleepTotal (CheckSessionIsOpenedLoop D M sessionId n reg channelId type).2 =
        SESSION_CHECK_PERIOD *
          (CheckSessionIsOpenedLoop D M sessionId n reg channelId type).2.countP
            ClientCall.isSleep := by
  induction n with
  | zero => intro reg channelId type; simp [CheckSessionIsOpenedLoop, sleepTotal]
  | succ k ih =>
    intro reg channelId type
    simp only [CheckSessionIsOpenedLoop]
    split_ifs
    · simp [ClientCall.isSleep, sleepTotal, ClientCall.sleepTime]
    · simp [ClientCall.isSleep, sleepTotal, ClientCall.sleepTime]
    · obtain ⟨h1, h2⟩ := ih (M.ClientGetChannelBySessionId reg sessionId channelId type).2
        (M.ClientGetChannelBySessionId reg sessionId channelId type).1.2.1
        (M.ClientGetChannelBySessionId reg sessionId channelId type).1.2.2
      refine ⟨?_, ?_⟩
      · intro c hc hs
        simp only [List.mem_cons] at hc
        rcases hc with hc | hc | hc
        · subst hc; simp [ClientCall.isSleep] at hs
        · exact hc
        · exact h1 c hc hs
      · simp only [sleepTotal, List.map_cons, List.sum_cons, ClientCall.sleepTime,
          List.countP_cons, ClientCall.isSleep] at h2 ⊢
        rw [h2]
        simp
        ring

/-- The polling loop stops at the first lookup that fails or reports a channel type other than
`CHANNEL_TYPE_BUTT`: such a lookup is the last call of the run. -/
theorem CheckSessionIsOpenedLoop_stops (D : SoftbusDef) (M : SessionMgr σ ω) (sessionId : Int)
    (n : Nat) : ∀ (reg : σ) (channelId type : Int) (pre : List ClientCall) (c : ClientCall)
    (post : List ClientCall),
    (CheckSessionIsOpenedLoop D M sessionId n reg channelId type).2 = pre ++ c :: post →
      c.endsPolling D = true → post = [] := by
  induction n with
  | zero =>
    intro reg channelId type pre c post h
    simp [CheckSessionIsOpenedLoop] at h
  | succ k ih =>
    intro reg channelId type pre c post h hc
    simp only [CheckSessionIsOpenedLoop] at h
    split_ifs at h with h1 h2
    · rcases pre with _ | ⟨p, pre⟩
      · simp at h; exact h.2
      · simp at h
    · rcases pre with _ | ⟨p, pre⟩
      · simp at h; exact h.2
      · simp at h
    · rcases pre with _ | ⟨p, pre⟩
      · simp only [List.nil_append, List.cons.injEq] at h
        rw [← h.1] at hc
        simp [ClientCall.endsPolling] at hc
        rcases hc with hc | hc
        · exact absurd hc (by simpa using h1)
        · exact absurd hc (by simpa using h2)
      · rcases pre with _ | ⟨q, pre⟩
        · simp only [List.cons_append, List.nil_append, List.cons.injEq] at h
          rw [← h.2.1] at hc
          simp [ClientCall.endsPolling] at hc
        · simp only [List.cons_append, List.cons.injEq] at h
          exact ih _ _ _ pre c post h.2.2 hc

/-- A run of the polling loop with `n` rounds left either ends with a lookup that fails or
reports a channel type other than `CHANNEL_TYPE_BUTT`, or it times out after exactly `n` lookups
and `n` sleeps. -/
theorem CheckSessionIsOpenedLoop_ends (D : SoftbusDef) (M : SessionMgr σ ω) (sessionId : Int)
    (n : Nat) : ∀ (reg : σ) (channelId type : Int),
    (∃ pre c, (CheckSessionIsOpenedLoop D M sessionId n reg channelId type).2 = pre ++ [c] ∧
        c.endsPolling D = true) ∨
      ((CheckSessionIsOpenedLoop D M sessionId n reg channelId type).2.countP
          ClientCall.isLookup = n ∧
        (CheckSessionIsOpenedLoop D M sessionId n reg channelId type).2.countP
          ClientCall.isSleep = n) := by
  induction n with
  | zero => intro reg channelId type; right; simp [CheckSessionIsOpenedLoop]
  | succ k ih =>
    intro reg channelId type
    simp only [CheckSessionIsOpenedLoop]
    split_ifs with h1 h2
    · left
      exact ⟨[], _, rfl, by simp [ClientCall.endsPolling, h1]⟩
    · left
      exact ⟨[], _, rfl, by simp [ClientCall.endsPolling, h2]⟩
    · rcases ih (M.ClientGetChannelBySessionId reg sessionId channelId type).2
        (M.ClientGetChannelBySessionId reg sessionId channelId type).1.2.1
        (M.ClientGetChannelBySessionId reg sessionId channelId type).1.2.2 with
        ⟨pre, c, hlog, hc⟩ | ⟨hl, hs⟩
      · left
        refine ⟨ClientCall.ClientGetChannelBySessionId sessionId
          (M.ClientGetChannelBySessionId reg sessionId channelId type).1.1
          (M.ClientGetChannelBySessionId reg sessionId channelId type).1.2.1
          (M.ClientGetChannelBySessionId reg sessionId channelId type).1.2.2 ::
            ClientCall.usleep SESSION_CHECK_PERIOD :: pre, c, ?_, hc⟩
        simp only [hlog, List.cons_append]
      · right
        simp only [List.countP_cons, ClientCall.isLookup, ClientCall.isSleep, if_true,
          Bool.false_eq_true, if_false]
        omega

/-- A log without a `usleep` counts no sleep and sleeps no time. -/
theorem sleepTotal_of_no_sleep (log : List ClientCall)
    (h : ∀ c ∈ log, c.isSleep = false) :
    log.countP ClientCall.isSleep = 0 ∧ sleepTotal log = 0 := by
  induction log with
  | nil => simp [sleepTotal]
  | cons c rest ih =>
    have hc := h c (List.mem_cons_self c rest)
    obtain ⟨h1, h2⟩ := ih fun x hx => h x (List.mem_cons_of_mem c hx)
    refine ⟨?_, ?_⟩
    · simp [List.countP_cons, hc, h1]
    · simp only [sleepTotal, List.map_cons, List.sum_cons] at h2 ⊢
      rw [h2]
      cases c <;> simp_all [ClientCall.isSleep, ClientCall.sleepTime]

/-- The time slept in a concatenation of logs is the sum of the times slept in each. -/
theorem sleepTotal_append (l1 l2 : List ClientCall) :
    sleepTotal (l1 ++ l2) = sleepTotal l1 + sleepTotal l2 := by
  simp [sleepTotal]

/-- `CloseSession` does not sleep. -/
theorem CloseSession_no_sleep (D : SoftbusDef) (M : SessionMgr σ ω) (E : ClientEnv ω)
    (reg : σ) (remote : ω) (sessionId : Int) :
    ∀ c ∈ (CloseSession D M E reg remote sessionId).log, c.isSleep = false := by
  simp only [CloseSession]
  split_ifs <;> simp [ClientCall.isSleep]

/-- `OpenSessionWithExistSession` does not sleep. -/
theorem OpenSessionWithExistSession_no_sleep (D : SoftbusDef) (M : SessionMgr σ ω)
    (E : ClientEnv ω) (A : App σ ω) (reg : σ) (remote : ω) (sessionId : Int)
    (isEnabled : Bool) :
    ∀ c ∈ (OpenSessionWithExistSession D M E A reg remote sessionId isEnabled).log,
      c.isSleep = false := by
  intro c hc
  simp only [OpenSessionWithExistSession] at hc
  split_ifs at hc with hen hg
  · simp at hc
  · simp only [List.mem_singleton] at hc
    subst hc
    rfl
  · cases hcb : (M.ClientGetSessionCallbackById reg sessionId zeroListener).1.2.OnSessionOpened with
    | none =>
      simp only [hcb, List.mem_append, List.mem_singleton] at hc
      rcases hc with hc | hc
      · subst hc; rfl
      · exact CloseSession_no_sleep D M E _ _ _ c hc
    | some p =>
      simp only [hcb] at hc
      split_ifs at hc
      · simp only [List.mem_append, List.mem_singleton, List.mem_cons, List.mem_nil_iff,
          or_false] at hc
        rcases hc with (hc | hc) | hc
        · subst hc; rfl
        · subst hc; rfl
        · exact CloseSession_no_sleep D M E _ _ _ c hc
      · simp only [List.mem_append, List.mem_singleton, List.mem_cons, List.mem_nil_iff,
          or_false] at hc
        rcases hc with hc | hc
        · subst hc; rfl
        · subst hc; rfl

/-- The calls of `OpenSessionSync` are: calls that do not sleep, then at most one run of the
polling loop `CheckSessionIsOpened`, then calls that do not sleep. -/
theorem OpenSessionSync_log_shape (D : SoftbusDef) (M : SessionMgr σ ω) (E : ClientEnv ω)
    (A : App σ ω) (reg : σ) (remote : ω) (my peer dev grp : Option String)
    (attr : Option SessionAttribute) :
    ∃ pre w post, (OpenSessionSync D M E A reg remote my peer dev grp attr).log =
        pre ++ w ++ post ∧
      (∀ c ∈ pre, c.isSleep = false) ∧ (∀ c ∈ post, c.isSleep = false) ∧
      (w = [] ∨ ∃ r s, w = (CheckSessionIsOpened D M r s).2) := by
  have plain : ∀ L : List ClientCall, (∀ c ∈ L, c.isSleep = false) →
      ∃ pre w post, L = pre ++ w ++ post ∧
        (∀ c ∈ pre, c.isSleep = false) ∧ (∀ c ∈ post, c.isSleep = false) ∧
        (w = [] ∨ ∃ r s, w = (CheckSessionIsOpened D M r s).2) :=
    fun L h => ⟨L, [], [], by simp, h, by simp, Or.inl rfl⟩
  have polled : ∀ (L1 L2 : List ClientCall) (r : σ) (s : Int), (∀ c ∈ L1, c.isSleep = false) →
      (∀ c ∈ L2, c.isSleep = false) →
      ∃ pre w post, L1 ++ (CheckSessionIsOpened D M r s).2 ++ L2 = pre ++ w ++ post ∧
        (∀ c ∈ pre, c.isSleep = false) ∧ (∀ c ∈ post, c.isSleep = false) ∧
        (w = [] ∨ ∃ r s, w = (CheckSessionIsOpened D M r s).2) :=
    fun L1 L2 r s h1 h2 => ⟨L1, _, L2, rfl, h1, h2, Or.inr ⟨r, s, rfl⟩⟩
  have polledLast : ∀ (L1 : List ClientCall) (r : σ) (s : Int), (∀ c ∈ L1, c.isSleep = false) →
      ∃ pre w post, L1 ++ (CheckSessionIsOpened D M r s).2 = pre ++ w ++ post ∧
        (∀ c ∈ pre, c.isSleep = false) ∧ (∀ c ∈ post, c.isSleep = false) ∧
        (w = [] ∨ ∃ r s, w = (CheckSessionIsOpened D M r s).2) :=
    fun L1 r s h1 => ⟨L1, _, [], by simp, h1, by simp, Or.inr ⟨r, s, rfl⟩⟩
  simp only [OpenSessionSync]
  split_ifs
  · exact plain _ (by simp)
  · exact polled _ _ _ _ (by simp [ClientCall.isSleep])
      (OpenSessionWithExistSession_no_sleep D M E A _ _ _ _)
  · exact plain _ (by simp [ClientCall.isSleep])
  · exact plain _ (by simp [ClientCall.isSleep])
  · exact polledLast _ _ _ (by simp [ClientCall.isSleep])

/-- C12. For every behaviour of the registry lookup, the polling loop `CheckSessionIsOpened`
returns after at most `SESSION_STATUS_CHECK_MAX_NUM = 100` lookups and at most `100` sleeps,
each of `SESSION_CHECK_PERIOD = 50000` microseconds; a lookup that fails or reports a channel
type other than `CHANNEL_TYPE_BUTT` is its last call, and a run that sees no such lookup times
out after exactly `100` lookups and `100` sleeps.  The calls of `OpenSessionSync` hold at most
one run of that loop and no other sleep, so `OpenSessionSync` sleeps at most `100` times and at
most `SESSION_CHECK_PERIOD * SESSION_STATUS_CHECK_MAX_NUM` microseconds in total. -/
theorem open_session_sync_bounded (D : SoftbusDef) (M : SessionMgr σ ω) (E : ClientEnv ω)
    (A : App σ ω) (reg : σ) (remote : ω) (my peer dev grp : Option String)
    (attr : Option SessionAttribute) (reg0 : σ) (sessionId : Int) :
    SESSION_STATUS_CHECK_MAX_NUM = 100 ∧ SESSION_CHECK_PERIOD = 50000 ∧
      (CheckSessionIsOpened D M reg0 sessionId).2.countP ClientCall.isLookup ≤
        SESSION_STATUS_CHECK_MAX_NUM ∧
      (CheckSessionIsOpened D M reg0 sessionId).2.countP ClientCall.isSleep ≤
        SESSION_STATUS_CHECK_MAX_NUM ∧
      (∀ c ∈ (CheckSessionIsOpened D M reg0 sessionId).2,
        c.isSleep = true → c = ClientCall.usleep SESSION_CHECK_PERIOD) ∧
      (∀ pre c post, (CheckSessionIsOpened D M reg0 sessionId).2 = pre ++ c :: post →
        c.endsPolling D = true → post = []) ∧
      ((∃ pre c, (CheckSessionIsOpened D M reg0 sessionId).2 = pre ++ [c] ∧
          c.endsPolling D = true) ∨
        ((CheckSessionIsOpened D M reg0 sessionId).2.countP ClientCall.isLookup =
            SESSION_STATUS_CHECK_MAX_NUM ∧
          (CheckSessionIsOpened D M reg0 sessionId).2.countP ClientCall.isSleep =
            SESSION_STATUS_CHECK_MAX_NUM)) ∧
      (∃ pre w post, (OpenSessionSync D M E A reg remote my peer dev grp attr).log =
          pre ++ w ++ post ∧
        (∀ c ∈ pre, c.isSleep = false) ∧ (∀ c ∈ post, c.isSleep = false) ∧
        (w = [] ∨ ∃ r s, w = (CheckSessionIsOpened D M r s).2)) ∧
      (OpenSessionSync D M E A reg remote my peer dev grp attr).log.countP ClientCall.isSleep ≤
        SESSION_STATUS_CHECK_MAX_NUM ∧
      sleepTotal (OpenSessionSync D M E A reg remote my peer dev grp attr).log ≤
        SESSION_CHECK_PERIOD * SESSION_STATUS_CHECK_MAX_NUM := by
  have hcount := fun (r : σ) (s : Int) =>
    CheckSessionIsOpenedLoop_counts D M s SESSION_STATUS_CHECK_MAX_NUM r D.INVALID_CHANNEL_ID
      D.CHANNEL_TYPE_BUTT
  have hsleep := fun (r : σ) (s : Int) =>
    CheckSessionIsOpenedLoop_sleeps D M s SESSION_STATUS_CHECK_MAX_NUM r D.INVALID_CHANNEL_ID
      D.CHANNEL_TYPE_BUTT
  refine ⟨rfl, rfl, (hcount reg0 sessionId).1, (hcount reg0 sessionId).2,
    (hsleep reg0 sessionId).1,
    CheckSessionIsOpenedLoop_stops D M sessionId SESSION_STATUS_CHECK_MAX_NUM reg0
      D.INVALID_CHANNEL_ID D.CHANNEL_TYPE_BUTT,
    CheckSessionIsOpenedLoop_ends D M sessionId SESSION_STATUS_CHECK_MAX_NUM reg0
      D.INVALID_CHANNEL_ID D.CHANNEL_TYPE_BUTT,
    OpenSessionSync_log_shape D M E A reg remote my peer dev grp attr, ?_⟩
  obtain ⟨pre, w, post, hlog, hpre, hpost, hw⟩ :=
    OpenSessionSync_log_shape D M E A reg remote my peer dev grp attr
  obtain ⟨hp1, hp2⟩ := sleepTotal_of_no_sleep pre hpre
  obtain ⟨hq1, hq2⟩ := sleepTotal_of_no_sleep post hpost
  have hwb : w.countP ClientCall.isSleep ≤ SESSION_STATUS_CHECK_MAX_NUM ∧
      sleepTotal w ≤ SESSION_CHECK_PERIOD * SESSION_STATUS_CHECK_MAX_NUM := by
    rcases hw with hw | ⟨r, s, hw⟩
    · subst hw
      simp [sleepTotal]
    · subst hw
      have h1 := (hcount r s).2
      have h2 := (hsleep r s).2
      refine ⟨h1, ?_⟩
      unfold CheckSessionIsOpened
      rw [h2]
      exact Nat.mul_le_mul_left _ h1
  rw [hlog]
  refine ⟨?_, ?_⟩
  · rw [List.countP_append, List.countP_append, hp1, hq1]
    simpa using hwb.1
  · rw [sleepTotal_append, sleepTotal_append, hp2, hq2]
    simpa using hwb.2

set_option maxRecDepth 100000 in
/-- Witness of C12, on the modelled registry.  The session `3` of the sample registry is still
`Pending` and nothing binds a channel to it while `OpenSessionSync` polls: the call makes
exactly `100` lookups, sleeps `100` times, `5000000` microseconds in all, and returns the
session id `3`.  A session that `OpenSessionSync` opens itself is bound when the loop starts:
the first lookup ends the loop and the call does not sleep. -/
theorem open_session_sync_bounded_witness :
    (OpenSessionSync sampleDef (specMgr sampleDef (sampleClientEnv 0 0 0).IsValidString)
        (sampleClientEnv 0 0 0) sampleApp pendingRegistry 0 (some "svcA") (some "svcB")
        (some "dev123") (some "group1") (some ⟨1⟩)).ret = 3 ∧
      (OpenSessionSync sampleDef (specMgr sampleDef (sampleClientEnv 0 0 0).IsValidString)
        (sampleClientEnv 0 0 0) sampleApp pendingRegistry 0 (some "svcA") (some "svcB")
        (some "dev123") (some "group1") (some ⟨1⟩)).log.countP ClientCall.isLookup = 100 ∧
      (OpenSessionSync sampleDef (specMgr sampleDef (sampleClientEnv 0 0 0).IsValidString)
        (sampleClientEnv 0 0 0) sampleApp pendingRegistry 0 (some "svcA") (some "svcB")
        (some "dev123") (some "group1") (some ⟨1⟩)).log.countP ClientCall.isSleep = 100 ∧
      sleepTotal (OpenSessionSync sampleDef
        (specMgr sampleDef (sampleClientEnv 0 0 0).IsValidString)
        (sampleClientEnv 0 0 0) sampleApp pendingRegistry 0 (some "svcA") (some "svcB")
        (some "dev123") (some "group1") (some ⟨1⟩)).log = 5000000 ∧
      (OpenSessionSync sampleDef (specMgr sampleDef (sampleClientEnv 0 0 0).IsValidString)
        (sampleClientEnv 0 0 0) sampleApp (sampleRegistry 0) 0 (some "svcA") (some "svcB")
        (some "dev123") (some "group1") (some ⟨1⟩)).log =
        [ClientCall.ClientAddSession
            ⟨some "svcA", some "svcB", some "dev123", some "group1", some ⟨1⟩⟩ 0 1 false,
          ClientCall.ServerIpcOpenSession (some "svcA") (some "svcB") (some "dev123")
            (some "group1") 1 42,
          ClientCall.ClientSetChannelBySessionId 1 42 0,
          ClientCall.ClientGetChannelBySessionId 1 0 42 1] ∧
      sleepTotal (OpenSessionSync sampleDef
        (specMgr sampleDef (sampleClientEnv 0 0 0).IsValidString)
        (sampleClientEnv 0 0 0) sampleApp pendingRegistry 0 (some "svcA") (some "svcB")
        (some "dev123") (some "group1") (some ⟨1⟩)).log ≤
        SESSION_CHECK_PERIOD * SESSION_STATUS_CHECK_MAX_NUM :=
  ⟨by decide, by decide, by decide, by decide, by decide,
    (open_session_sync_bounded sampleDef (specMgr sampleDef (sampleClientEnv 0 0 0).IsValidString)
      (sampleClientEnv 0 0 0) sampleApp pendingRegistry 0 (some "svcA") (some "svcB")
      (some "dev123") (some "group1") (some ⟨1⟩) pendingRegistry 3).2.2.2.2.2.2.2.2.2⟩

/-! ## Theorems: the network capability bits -/

/-- The test `(configValue & (1 << bit)) != 0` holds exactly when `bit` is set in
`configValue`. -/
theorem and_one_shiftLeft_ne_zero_iff (v bit : Nat) :
    v &&& (1 <<< bit) ≠ 0 ↔ v.testBit bit = true := by
  rw [Nat.one_shiftLeft]
  constructor
  · intro h
    by_contra hb
    apply h
    apply Nat.eq_of_testBit_eq
    intro i
    simp only [Nat.testBit_and, Nat.testBit_two_pow, Nat.zero_testBit]
    by_cases hi : bit = i
    · subst hi; simp [hb]
    · simp [hi]
  · intro h h0
    have := congrArg (fun x => x.testBit bit) h0
    simp [Nat.testBit_two_pow, h] at this

/-- The bits of `capability | (1 << type)`, stored back into a `uint32_t`, when `capability`
fits a `uint32_t` and `type` is below `32`. -/
theorem testBit_or_one_shiftLeft (c type b : Nat) (hc : c < 2 ^ 32) (ht : type < 32) :
    ((c ||| (1 <<< type)) % 2 ^ 32).testBit b = (c.testBit b || decide (b = type)) ∧
      (c ||| (1 <<< type)) % 2 ^ 32 = c ||| (1 <<< type) := by
  have hlt : c ||| (1 <<< type) < 2 ^ 32 := by
    apply Nat.or_lt_two_pow hc
    rw [Nat.one_shiftLeft]
    exact Nat.pow_lt_pow_right (by decide) ht
  rw [Nat.mod_eq_of_lt hlt]
  refine ⟨?_, rfl⟩
  rw [Nat.testBit_or, Nat.one_shiftLeft, Nat.testBit_two_pow]
  congr 1
  simp [eq_comm]

/-- `LnnSetNetCapability` on a non-null capability and a type below `BIT_COUNT` succeeds and
stores `capability | (1 << type)`. -/
theorem LnnSetNetCapability_ok (D : SoftbusDef) (N : NetCapabilityDef) (c type : Nat)
    (ht : type < N.BIT_COUNT) :
    LnnSetNetCapability D N (some c) type =
      (D.SOFTBUS_OK, some ((c ||| (1 <<< type)) % 2 ^ 32)) := by
  simp [LnnSetNetCapability, Nat.not_le.mpr ht]

/-- One step of `LnnGetNetCapabilty`: the bit is copied from `configValue` when it is set there,
every other bit of `capability` stays, and the result still fits a `uint32_t`. -/
theorem copyCapabilityBit_spec (D : SoftbusDef) (N : NetCapabilityDef) (v c bit : Nat)
    (hc : c < 2 ^ 32) (hb : bit < N.BIT_COUNT) (hcount : N.BIT_COUNT ≤ 31) :
    (∀ b, (copyCapabilityBit D N v c bit).testBit b =
        (c.testBit b || (decide (b = bit) && v.testBit b))) ∧
      copyCapabilityBit D N v c bit < 2 ^ 32 := by
  have ht : bit < 32 := by omega
  unfold copyCapabilityBit
  by_cases hv : v.testBit bit = true
  · have hne : v &&& (1 <<< bit) ≠ 0 := (and_one_shiftLeft_ne_zero_iff v bit).mpr hv
    simp only [hne, ne_eq, not_false_eq_true, if_true, LnnSetNetCapability_ok D N c bit hb]
    refine ⟨fun b => ?_, Nat.mod_lt _ (by decide)⟩
    rw [(testBit_or_one_shiftLeft c bit b hc ht).1]
    by_cases hbb : b = bit
    · subst hbb; simp [hv]
    · simp [hbb]
  · have hz : ¬ (v &&& (1 <<< bit) ≠ 0) := fun h =>
      hv ((and_one_shiftLeft_ne_zero_iff v bit).mp h)
    simp only [hz, if_false]
    refine ⟨fun b => ?_, hc⟩
    by_cases hbb : b = bit
    · subst hbb
      have : v.testBit b = false := by simpa using hv
      simp [this]
    · simp [hbb]

/-- The bits of the mask of the six supported capability bits. -/
theorem supportedMask_testBit (N : NetCapabilityDef) (b : Nat) :
    (supportedMask N).testBit b = decide (b ∈ supportedBits N) := by
  simp only [supportedMask, supportedBits, Nat.testBit_or, Nat.one_shiftLeft,
    Nat.testBit_two_pow, List.mem_cons, List.mem_singleton, List.mem_nil_iff, or_false,
    Bool.decide_or]
  simp only [eq_comm, Bool.or_assoc]

/-- The bits of the default capability `0x16`: bits 1, 2 and 4. -/
theorem default_capability_testBit (b : Nat) :
    DEFAUTL_LNN_CAPBILITY.testBit b = decide (b = 1 ∨ b = 2 ∨ b = 4) := by
  by_cases hb : b < 5
  · interval_cases b <;> decide
  · have h5 : (5 : Nat) ≤ b := by omega
    have hlt : DEFAUTL_LNN_CAPBILITY < 2 ^ b :=
      Nat.lt_of_lt_of_le (by decide : DEFAUTL_LNN_CAPBILITY < 2 ^ 5)
        (Nat.pow_le_pow_right (by decide) h5)
    rw [Nat.testBit_lt_two_pow hlt]
    have : ¬ (b = 1 ∨ b = 2 ∨ b = 4) := by omega
    simp [this]

/-- The bits of what `LnnGetNetCapabilty` returns: bit `b` is set exactly when `b` is one of the
six supported bits and is set in `configValue`. -/
theorem LnnGetNetCapabilty_testBit (D : SoftbusDef) (N : NetCapabilityDef)
    (property : Int × Int) (hN : N.InRange) (b : Nat) :
    (LnnGetNetCapabilty D N property).testBit b =
      (decide (b ∈ supportedBits N) && (configValueOf D property).testBit b) := by
  obtain ⟨hbits, hcount⟩ := hN
  have h0 : (0 : Nat) < 2 ^ 32 := by decide
  have s1 := copyCapabilityBit_spec D N (configValueOf D property) 0 N.BIT_BLE h0
    (hbits _ (by simp [supportedBits])) hcount
  have s2 := copyCapabilityBit_spec D N (configValueOf D property) _ N.BIT_BR s1.2
    (hbits _ (by simp [supportedBits])) hcount
  have s3 := copyCapabilityBit_spec D N (configValueOf D property) _ N.BIT_WIFI s2.2
    (hbits _ (by simp [supportedBits])) hcount
  have s4 := copyCapabilityBit_spec D N (configValueOf D property) _ N.BIT_WIFI_24G s3.2
    (hbits _ (by simp [supportedBits])) hcount
  have s5 := copyCapabilityBit_spec D N (configValueOf D property) _ N.BIT_WIFI_5G s4.2
    (hbits _ (by simp [supportedBits])) hcount
  have s6 := copyCapabilityBit_spec D N (configValueOf D property) _ N.BIT_ETH s5.2
    (hbits _ (by simp [supportedBits])) hcount
  have hdef : LnnGetNetCapabilty D N property =
      copyCapabilityBit D N (configValueOf D property)
        (copyCapabilityBit D N (configValueOf D property)
          (copyCapabilityBit D N (configValueOf D property)
            (copyCapabilityBit D N (configValueOf D property)
              (copyCapabilityBit D N (configValueOf D property)
                (copyCapabilityBit D N (configValueOf D property) 0 N.BIT_BLE) N.BIT_BR)
              N.BIT_WIFI) N.BIT_WIFI_24G) N.BIT_WIFI_5G) N.BIT_ETH := rfl
  rw [hdef, s6.1 b, s5.1 b, s4.1 b, s3.1 b, s2.1 b, s1.1 b]
  simp only [supportedBits, List.mem_cons, List.mem_singleton, List.mem_nil_iff, or_false,
    Nat.zero_testBit, Bool.false_or, Bool.decide_or]
  cases (configValueOf D property).testBit b <;> simp [Bool.or_assoc]

/-- C13. With the six capability enumerators below `BIT_COUNT` and `BIT_COUNT` at most `31`:
for every outcome of `GetPropertyInt`, `LnnGetNetCapabilty` returns the configured value masked
to the six supported capability bits, so a bit is set in the result exactly when it is one of
the six and is set in the configured value.  The configured value is the stored `int32_t` read
as a `uint32_t`, and is the default `0x16` when the property cannot be read; the result is then
`0x16` as well, given that BR, WIFI and WIFI 2.4G are the bits 1, 2 and 4.
`LnnSetNetCapability` with a non-null capability and `type < BIT_COUNT` returns `SOFTBUS_OK` and
stores `capability | (1 << type)`: bit `type` is set and every other bit is unchanged. -/
theorem lnn_capability_masked (D : SoftbusDef) (N : NetCapabilityDef) (property : Int × Int)
    (hN : N.InRange) :
    LnnGetNetCapabilty D N property = configValueOf D property &&& supportedMask N ∧
      (∀ b, (LnnGetNetCapabilty D N property).testBit b =
        (decide (b ∈ supportedBits N) && (configValueOf D property).testBit b)) ∧
      (property.1 = D.SOFTBUS_OK →
        configValueOf D property = (property.2 % 2 ^ 32).toNat) ∧
      (property.1 ≠ D.SOFTBUS_OK →
        configValueOf D property = 0x16 ∧
        (N.BIT_BR = 1 → N.BIT_WIFI = 2 → N.BIT_WIFI_24G = 4 →
          LnnGetNetCapabilty D N property = 0x16)) ∧
      ∀ c type, c < 2 ^ 32 → type < N.BIT_COUNT →
        LnnSetNetCapability D N (some c) type = (D.SOFTBUS_OK, some (c ||| (1 <<< type))) ∧
        ∀ b, (c ||| (1 <<< type)).testBit b = (c.testBit b || decide (b = type)) := by
  have hbit := LnnGetNetCapabilty_testBit D N property hN
  refine ⟨?_, hbit, fun hok => ?_, fun hne => ⟨?_, fun h1 h2 h4 => ?_⟩, fun c type hc ht => ?_⟩
  · apply Nat.eq_of_testBit_eq
    intro b
    rw [hbit b, Nat.testBit_and, supportedMask_testBit, Bool.and_comm]
  · simp [configValueOf, hok]
  · simp [configValueOf, hne, DEFAUTL_LNN_CAPBILITY]
  · have hcfg : configValueOf D property = DEFAUTL_LNN_CAPBILITY := by
      simp [configValueOf, hne]
    have h16 : (0x16 : Nat) = DEFAUTL_LNN_CAPBILITY := rfl
    rw [h16]
    apply Nat.eq_of_testBit_eq
    intro b
    rw [hbit b, hcfg, default_capability_testBit]
    simp only [supportedBits, h1, h2, h4, List.mem_cons, List.mem_singleton, List.mem_nil_iff,
      or_false]
    by_cases hb : b = 1 ∨ b = 2 ∨ b = 4
    · rcases hb with hb | hb | hb <;> simp [hb]
    · simp [hb]
  · have ht32 : type < 32 := by have := hN.2; omega
    have h := testBit_or_one_shiftLeft c type
    rw [LnnSetNetCapability_ok D N c type ht, (h 0 hc ht32).2]
    refine ⟨rfl, fun b => ?_⟩
    have hb := (h b hc ht32).1
    rw [(h b hc ht32).2] at hb
    exact hb

/-- Witness of C13: with the sample enumeration, the configured value `0xff` gives `0x77`
(bits 0, 1, 2, 4, 5, 6), a property that cannot be read gives the default `0x16`, and setting
bit 3 of `1` gives `9`. -/
theorem lnn_capability_masked_witness :
    sampleNetCapability.InRange ∧
      LnnGetNetCapabilty sampleDef sampleNetCapability (0, 0xff) = 0x77 ∧
      LnnGetNetCapabilty sampleDef sampleNetCapability (0, 0xff) =
        configValueOf sampleDef (0, 0xff) &&& supportedMask sampleNetCapability ∧
      LnnGetNetCapabilty sampleDef sampleNetCapability (-1, 0) = 0x16 ∧
      LnnSetNetCapability sampleDef sampleNetCapability (some 1) 3 =
        (sampleDef.SOFTBUS_OK, some 9) :=
  ⟨by decide, by decide,
    (lnn_capability_masked sampleDef sampleNetCapability (0, 0xff) (by decide)).1,
    ((lnn_capability_masked sampleDef sampleNetCapability (-1, 0) (by decide)).2.2.2.1
      (by decide)).2 rfl rfl rfl,
    by decide⟩

end Softbus
